import Mathlib

/-!
Verification of the row-validation component of DAV-SIPcreator.

The embedding below follows `src/creator/utils/pandasmodel.py` (the
`PandasModel` grid validator) and `src/creator/utils/sqlitemodel.py`
(the `SQLliteModel` grid).  Rows are identified by their positional
index (the DataFrame uses its default `RangeIndex`, so `_data.index[row]`
is `row` itself).  Cell values are strings; dates are compared the way
Python compares `str` values, i.e. lexicographically by code point, and
parsed dates are compared componentwise, as `datetime` objects are.
-/

namespace SIPV

/-- Severity colours of the grid (`Color` in pandasmodel.py):
`RED` marks an error, `YELLOW` marks a warning. -/
inductive Color where
  | RED
  | YELLOW
deriving DecidableEq, Repr

/-- A calendar date as produced by `datetime.strptime(value, "%Y-%m-%d")`
(the time-of-day components of the resulting `datetime` are all zero). -/
structure PyDate where
  year : Nat
  month : Nat
  day : Nat
deriving DecidableEq, Repr

/-- Strict `datetime` comparison of two parsed dates: lexicographic on
(year, month, day). -/
def PyDate.ltb (a b : PyDate) : Bool :=
  a.year < b.year ||
    (a.year == b.year && (a.month < b.month || (a.month == b.month && a.day < b.day)))

/-- ASCII decimal digit (the spec fixes date fields to ASCII digits and hyphens;
CPython's `\d` would additionally accept non-ASCII decimal digits). -/
def isDigitChar (c : Char) : Bool := 48 ≤ c.toNat && c.toNat ≤ 57

/-- Value of a list of decimal digit characters. -/
def digitsToNat (l : List Char) : Nat :=
  l.foldl (fun n c => n * 10 + (c.toNat - 48)) 0

/-- Gregorian leap year, as `datetime` uses it. -/
def isLeapYear (y : Nat) : Bool :=
  (y % 4 == 0 && y % 100 != 0) || y % 400 == 0

/-- Number of days in a month, as `datetime` validates it. -/
def daysInMonth (y m : Nat) : Nat :=
  if m == 2 then (if isLeapYear y then 29 else 28)
  else if m == 4 || m == 6 || m == 9 || m == 11 then 30
  else 31

/-- Split a character list on the hyphen character. -/
def splitDash : List Char → List (List Char)
  | [] => [[]]
  | c :: cs =>
    let r := splitDash cs
    if c = '-' then [] :: r
    else
      match r with
      | [] => [[c]]
      | g :: gs => (c :: g) :: gs

/-- `PandasModel._proper_date_format` (pandasmodel.py lines 217-223):
`datetime.strptime(date_str, "%Y-%m-%d")`, returning `none` where Python
raises `ValueError`.  CPython's `%Y` matches exactly four digits, while `%m`
and `%d` match one or two digits in range (so `"2020-1-5"` parses); the
`datetime` constructor then requires year ≥ 1 and a day that exists in the
month. -/
def properDateFormat (s : String) : Option PyDate :=
  match splitDash s.data with
  | [ys, ms, ds] =>
    if ys.length == 4 && ys.all isDigitChar &&
        (ms.length == 1 || ms.length == 2) && ms.all isDigitChar &&
        (ds.length == 1 || ds.length == 2) && ds.all isDigitChar then
      let y := digitsToNat ys
      let m := digitsToNat ms
      let d := digitsToNat ds
      if 1 ≤ y && 1 ≤ m && m ≤ 12 && 1 ≤ d && d ≤ daysInMonth y m then
        some ⟨y, m, d⟩
      else none
    else none
  | _ => none

/-- Python string comparison: lexicographic on code points. -/
def lexLt : List Char → List Char → Bool
  | [], [] => false
  | [], _ :: _ => true
  | _ :: _, [] => false
  | a :: as, b :: bs =>
    if a.toNat < b.toNat then true
    else if b.toNat < a.toNat then false
    else lexLt as bs

/-- `a < b` on Python strings. -/
def strLtB (a b : String) : Bool := lexLt a.data b.data

/-- Python `min(a, b)` on strings (keeps the first argument on ties). -/
def pyMin (a b : String) : String := if strLtB b a then b else a

/-- Python `max(a, b)` on strings (keeps the first argument on ties). -/
def pyMax (a b : String) : String := if strLtB a b then b else a

/-- Python `min(l)` for a non-empty list (the `[]` default is never used:
every call site guards on non-emptiness first). -/
def listMinD : List String → String
  | [] => ""
  | x :: xs => xs.foldl pyMin x

/-- Python `max(l)` for a non-empty list. -/
def listMaxD : List String → String
  | [] => ""
  | x :: xs => xs.foldl pyMax x

/-! ### The grid state -/

/-- One grid row.  The column layout keeps the derived columns first
(`flags` makes columns `< 3` read-only): `Path in SIP`, `Type`,
`DossierRef`, `Naam`, `Openingsdatum`, `Sluitingsdatum`. -/
structure Row where
  pathInSIP : String
  typ : String
  dossierRef : String
  naam : String
  openingsdatum : String
  sluitingsdatum : String
deriving DecidableEq, Repr

def pathCol : Nat := 0
def typeCol : Nat := 1
def refCol : Nat := 2
def naamCol : Nat := 3
def openingCol : Nat := 4
def closingCol : Nat := 5

def Row.get (r : Row) (col : Nat) : String :=
  if col = 0 then r.pathInSIP
  else if col = 1 then r.typ
  else if col = 2 then r.dossierRef
  else if col = 3 then r.naam
  else if col = 4 then r.openingsdatum
  else if col = 5 then r.sluitingsdatum
  else ""

def Row.set (r : Row) (col : Nat) (v : String) : Row :=
  if col = 0 then { r with pathInSIP := v }
  else if col = 1 then { r with typ := v }
  else if col = 2 then { r with dossierRef := v }
  else if col = 3 then { r with naam := v }
  else if col = 4 then { r with openingsdatum := v }
  else if col = 5 then { r with sluitingsdatum := v }
  else r

def defaultRow : Row := ⟨"", "", "", "", "", ""⟩

/-- Finite maps as association lists (the source's `dict` of
`(row, column)` keys). -/
def mapLookup {κ α : Type} [BEq κ] (m : List (κ × α)) (k : κ) : Option α :=
  (m.find? (fun e => e.1 == k)).map (fun e => e.2)

def mapErase {κ α : Type} [BEq κ] (m : List (κ × α)) (k : κ) : List (κ × α) :=
  m.filter (fun e => e.1 != k)

def mapInsert {κ α : Type} [BEq κ] (m : List (κ × α)) (k : κ) (v : α) : List (κ × α) :=
  (k, v) :: mapErase m k

/-- The mutable state of a `PandasModel`:  the DataFrame `_data`, and the
`colors` and `tooltips` dictionaries keyed by `(row, column)`. -/
structure ModelState where
  data : List Row
  colors : List ((Nat × Nat) × Color)
  tooltips : List ((Nat × Nat) × String)
deriving DecidableEq, Repr

/-- The model's fixed context: the series `date_range` and the current
date.  A parsed date (a midnight `datetime`) is strictly greater than
`datetime.now()` exactly when its (year, month, day) triple is strictly
after today's. -/
structure Cfg where
  dateStart : Option PyDate
  dateEnd : Option PyDate
  today : PyDate
deriving Repr

def ModelState.row (s : ModelState) (i : Nat) : Row := s.data.getD i defaultRow

/-- `self._data.iloc[row, column] = value` (out-of-range writes never occur:
every claim assumes the record exists). -/
def writeCell (s : ModelState) (i col : Nat) (v : String) : ModelState :=
  { s with data := s.data.set i ((s.row i).set col v) }

/-! ### Validation messages (pandasmodel.py) -/

def msgFuture : String := "Datum mag niet in de toekomst zijn"
def msgBeforeStart : String := "Datum mag niet voor de start-datum van de serie zijn"
def msgAfterEnd : String := "Datum mag niet na de eind-datum van de serie zijn"
def msgFormat : String := "Datum moet in het formaat YYYY-MM-DD zijn"
def msgOpenAfterClose : String := "De openingsdatum kan niet na de sluitingsdatum zijn"
def msgCloseBeforeOpen : String := "De sluitingsdatum kan niet voor de openingsdatum zijn"
def msgDossierOpening : String :=
  "De openingsdatum van het dossier kan niet later zijn dan de openingsdatum van een stuk"
def msgDossierClosing : String :=
  "De sluitingsdatum van het dossier kan niet vroeger zijn dan de sluitingsdatum van een stuk"
def msgNaam : String := "Een dossier moet verplicht een naam hebben"

/-! ### Marking and unmarking of cells -/

/-- `PandasModel._mark_bad_cell` (lines 284-295; the `bad_rows_changed`
signal is GUI-only). -/
def markBadCell (s : ModelState) (row col : Nat) (color : Color) (tooltip : Option String) :
    ModelState :=
  { s with
    colors := mapInsert s.colors (row, col) color
    tooltips :=
      match tooltip with
      | some t => mapInsert s.tooltips (row, col) t
      | none => s.tooltips }

/-- `PandasModel._unmark_bad_cell` (lines 303-314). -/
def unmarkBadCell (s : ModelState) (row col : Nat) : ModelState :=
  { s with
    colors := mapErase s.colors (row, col)
    tooltips := mapErase s.tooltips (row, col) }

/-! ### Checks -/

/-- `PandasModel._date_invalid_check` (lines 225-233). -/
def dateInvalidCheck (cfg : Cfg) (date : PyDate) : Option String :=
  if PyDate.ltb cfg.today date && date.year != 9999 then some msgFuture
  else if (match cfg.dateStart with
           | some st => PyDate.ltb date st
           | none => false) then some msgBeforeStart
  else if (match cfg.dateEnd with
           | some en => PyDate.ltb en date
           | none => false) then some msgAfterEnd
  else none

/-- `PandasModel._get_date_values_for_dossier_ref` (lines 235-246):
the date strings of the `stuk` rows of a dossier that parse and pass
`_date_invalid_check`. -/
def getDateValuesForDossierRef (cfg : Cfg) (s : ModelState) (ref : String) (col : Nat) :
    List String :=
  ((s.data.filter (fun r => r.typ == "stuk" && r.dossierRef == ref)).map
      (fun r => r.get col)).filter
    (fun d =>
      match properDateFormat d with
      | some date => (dateInvalidCheck cfg date).isNone
      | none => false)

/-- The row index of the first row with `Type == "dossier"` and the given
`DossierRef` — `self._data.loc[...].index.to_list()[0]`; `none` models the
`IndexError` raised when no such row exists. -/
def findDossierRow (s : ModelState) (ref : String) : Option Nat :=
  s.data.findIdx? (fun r => r.typ == "dossier" && r.dossierRef == ref)

/-- `PandasModel._name_data_check` (lines 327-334).  `_mark_name_cell` marks
the `Naam` column, which is also the column the call is made for. -/
def nameDataCheck (s : ModelState) (value : String) (row col : Nat) : ModelState × Bool :=
  if value == "" && (s.row row).typ == "dossier" then
    (markBadCell s row naamCol Color.RED (some msgNaam), false)
  else (unmarkBadCell s row col, true)

/-- The re-entrant core of `PandasModel._date_data_check` (lines 336-422):
everything up to and including the final `_unmark_bad_cell`, i.e. the body
that runs on every call, before the two `if not re_evaluation` blocks.
`opening_date`, `closing_date` and the dossier values are the function's
entry snapshot of the row (`self._data.iloc[[row]]` at line 340). -/
def dateDataCheckCore (cfg : Cfg) (s : ModelState) (value : String) (row col : Nat)
    (isStuk : Bool) : ModelState × Bool :=
  let r := s.row row
  let openingDate := r.openingsdatum
  let closingDate := r.sluitingsdatum
  if isStuk && value == "" then (unmarkBadCell s row col, true)
  else
    match properDateFormat value with
    | none => (markBadCell s row col Color.RED (some msgFormat), false)
    | some date =>
      match dateInvalidCheck cfg date with
      | some tip => (markBadCell s row col Color.RED (some tip), false)
      | none =>
        if openingDate != "" && closingDate != "" && strLtB closingDate openingDate then
          (markBadCell (markBadCell s row openingCol Color.RED (some msgOpenAfterClose))
              row closingCol Color.RED (some msgCloseBeforeOpen),
            false)
        else if !isStuk then
          let openingDates := getDateValuesForDossierRef cfg s r.dossierRef openingCol
          let closingDates := getDateValuesForDossierRef cfg s r.dossierRef closingCol
          if col == openingCol && !openingDates.isEmpty &&
              strLtB (listMinD openingDates) r.openingsdatum then
            (markBadCell s row col Color.RED (some msgDossierOpening), false)
          else if col == closingCol && !closingDates.isEmpty &&
              strLtB r.sluitingsdatum (listMaxD closingDates) then
            (markBadCell s row col Color.RED (some msgDossierClosing), false)
          else (unmarkBadCell s row col, true)
        else (unmarkBadCell s row col, true)

/-- `_date_data_check` with `re_evaluation=True`: both re-evaluation blocks
(lines 425 and 444) are skipped, so the call is exactly the core. -/
def dateDataCheckReval (cfg : Cfg) (s : ModelState) (value : String) (row col : Nat)
    (isStuk : Bool) : ModelState × Bool :=
  dateDataCheckCore cfg s value row col isStuk

/-- The one sibling re-evaluation of lines 424-441: when the opening
column was checked, the closing column is re-checked once with the entry
snapshot value (and vice versa), with `re_evaluation=True`. -/
def siblingReval (cfg : Cfg) (snapshot : Row) (s : ModelState) (row col : Nat)
    (isStuk : Bool) : ModelState :=
  if col == openingCol then
    (dateDataCheckReval cfg s snapshot.sluitingsdatum row closingCol isStuk).1
  else if col == closingCol then
    (dateDataCheckReval cfg s snapshot.openingsdatum row openingCol isStuk).1
  else s

/-- `_date_data_check` with `re_evaluation=False` on a non-`stuk` row:
the core, then (only when every check passed) the sibling re-evaluation
(lines 424-441); the `is_stuk` block (line 444) is skipped.  The `Nat`
counts `_date_data_check` invocations. -/
def dateDataCheckDossier (cfg : Cfg) (s : ModelState) (value : String) (row col : Nat) :
    ModelState × Bool × Nat :=
  let r := s.row row
  let res := dateDataCheckCore cfg s value row col false
  if res.2 then (siblingReval cfg r res.1 row col false, true, 2)
  else (res.1, false, 1)

/-- `PandasModel.setData` specialised to the call made from
`_update_dossier_date_range` (line 273/281): the target row is selected
with `Type == "dossier"`, so `is_stuk` is `False` there, the date check
taken is the non-`stuk` one, and the `valid_date and is_stuk` update at
line 112 is skipped.  The warning-row guard (lines 92-94) applies. -/
def setDataDossierDate (cfg : Cfg) (s : ModelState) (row col : Nat) (value : String) :
    ModelState × Bool × Nat :=
  if mapLookup s.colors (row, col) == some Color.YELLOW then (s, false, 0)
  else
    let s0 := writeCell s row col value
    let res := dateDataCheckDossier cfg s0 value row col
    (res.1, true, res.2.2)

/-- `PandasModel._update_dossier_date_range` (lines 248-281).  `none` models
the `IndexError` of `dossier.index.to_list()[0]` when no dossier row carries
the reference.  The returned `Nat` counts `_date_data_check` invocations. -/
def updateDossierDateRange (cfg : Cfg) (s : ModelState) (dossierRef : String) (col : Nat) :
    Option (ModelState × Nat) :=
  match findDossierRow s dossierRef with
  | none => none
  | some drow =>
    let openingDates := getDateValuesForDossierRef cfg s dossierRef openingCol
    let closingDates := getDateValuesForDossierRef cfg s dossierRef closingCol
    let dr := s.row drow
    if col == openingCol && !openingDates.isEmpty then
      let newOpening := listMinD openingDates
      if strLtB dr.openingsdatum newOpening then some (s, 0)
      else
        let res := setDataDossierDate cfg s drow openingCol newOpening
        some (res.1, res.2.2)
    else if col == closingCol && !closingDates.isEmpty then
      let newClosing := listMaxD closingDates
      if strLtB newClosing dr.sluitingsdatum then some (s, 0)
      else
        let res := setDataDossierDate cfg s drow closingCol newClosing
        some (res.1, res.2.2)
    else some (s, 0)

/-- `_date_data_check` with `re_evaluation=False` on a `stuk` row
(lines 336-473): the early return for an empty value (lines 349-351)
exits before both re-evaluation blocks; otherwise, after the core
succeeds, the sibling column is re-evaluated once with the entry snapshot
value, the parent dossier values are read (lines 445-454, before the
update), the dossier range is updated, and both dossier date cells are
re-evaluated once with the values read before the update. -/
def dateDataCheckStuk (cfg : Cfg) (s : ModelState) (value : String) (row col : Nat) :
    Option (ModelState × Bool × Nat) :=
  let r := s.row row
  if value == "" then some (unmarkBadCell s row col, true, 1)
  else
    let res := dateDataCheckCore cfg s value row col true
    if !res.2 then some (res.1, false, 1)
    else
      let s2 := siblingReval cfg r res.1 row col true
      match findDossierRow s2 r.dossierRef with
      | none => none
      | some drow =>
        let dossierOpening := (s2.row drow).openingsdatum
        let dossierClosing := (s2.row drow).sluitingsdatum
        match updateDossierDateRange cfg s2 r.dossierRef col with
        | none => none
        | some (s3, n3) =>
          let s4 := (dateDataCheckReval cfg s3 dossierOpening drow openingCol false).1
          let s5 := (dateDataCheckReval cfg s4 dossierClosing drow closingCol false).1
          some (s5, true, 4 + n3)

/-- `PandasModel.setData` (lines 86-124) for an edit (`EditRole`) of an
existing cell; the `create_sip_button` enabling and the `False` return for
other roles are GUI concerns.  `none` models the `IndexError` described at
`updateDossierDateRange`. -/
def setData (cfg : Cfg) (s : ModelState) (row col : Nat) (value : String) :
    Option (ModelState × Bool × Nat) :=
  if mapLookup s.colors (row, col) == some Color.YELLOW then some (s, false, 0)
  else
    let s0 := writeCell s row col value
    if col == naamCol then
      some ((nameDataCheck s0 value row col).1, true, 0)
    else if col == openingCol || col == closingCol then
      let isStuk := (s0.row row).typ == "stuk"
      if isStuk then
        match dateDataCheckStuk cfg s0 value row col with
        | none => none
        | some (s1, validDate, n) =>
          if validDate then
            match updateDossierDateRange cfg s1 ((s1.row row).dossierRef) col with
            | none => none
            | some (s2, n2) => some (s2, true, n + n2)
          else some (s1, true, n)
      else
        let res := dateDataCheckDossier cfg s0 value row col
        some (res.1, true, res.2.2)
    else some (s0, true, 0)

/-- `PandasModel.is_data_valid` (lines 164-166). -/
def isDataValid (s : ModelState) : Bool :=
  !(s.colors.any (fun e => e.2 == Color.RED))

/-! ### The SQLite-backed grid model (`SQLliteModel` in sqlitemodel.py) -/

/-- Remove every occurrence of a character: `value.replace(c, "")` for a
one-character pattern. -/
def removeAllChar (c : Char) (v : String) : String :=
  String.mk (v.data.filter (fun a => a != c))

/-- The double-quote character (code point 34). -/
def dquoteChar : Char := Char.ofNat 34

/-- The single-quote character (code point 39). -/
def squoteChar : Char := Char.ofNat 39

/-- The slash character (code point 47). -/
def slashChar : Char := Char.ofNat 47

/-- `value.replace('"', "").replace("'", "")` — both quote characters
removed (sqlitemodel.py lines 59 and 67). -/
def stripQuotes (v : String) : String :=
  removeAllChar squoteChar (removeAllChar dquoteChar v)

/-- `v` contains neither quote character. -/
def noQuotes (v : String) : Bool :=
  v.data.all (fun c => c != dquoteChar && c != squoteChar)

/-- State of a `SQLliteModel`: `_data` (a list of string rows), the column
names by index, the `colors` and `tooltips` dictionaries keyed by
`(row id, column)` — `_mark_cell` keys them by `self._data[row][0]` —
and the `has_changed` flag. -/
structure SqlState where
  data : List (List String)
  columns : List String
  colors : List ((String × Nat) × Color)
  tooltips : List ((String × Nat) × String)
  hasChanged : Bool
deriving DecidableEq, Repr

/-- `SQLliteModel.get_value` (lines 55-59). -/
def sqlGetValue (s : SqlState) (row col : Nat) : String :=
  stripQuotes ((s.data.getD row []).getD col "")

/-- `SQLliteModel.set_value` (lines 61-67). -/
def sqlSetValue (s : SqlState) (row col : Nat) (v : String) : SqlState :=
  { s with
    hasChanged := true
    data := s.data.set row ((s.data.getD row []).set col (stripQuotes v)) }

/-- `SQLliteModel._mark_cell` (lines 246-262): `color = none` unmarks;
the `bad_rows_changed` signal is GUI-only. -/
def sqlMarkCell (s : SqlState) (row col : Nat) (color : Option Color) (tooltip : Option String) :
    SqlState :=
  let id0 := (s.data.getD row []).getD 0 ""
  match color with
  | none =>
    { s with
      colors := mapErase s.colors (id0, col)
      tooltips := mapErase s.tooltips (id0, col) }
  | some c =>
    { s with
      colors := mapInsert s.colors (id0, col) c
      tooltips :=
        match tooltip with
        | some t => mapInsert s.tooltips (id0, col) t
        | none => s.tooltips }

def msgPathEmpty : String := "Path in SIP mag niet leeg zijn"

/-- The tooltip `"Path in SIP mag geen '/' bevatten"` — the `'/'` part
(single quote, slash, single quote) is assembled from code points. -/
def msgPathSlash : String :=
  "Path in SIP mag geen " ++ String.mk [squoteChar, slashChar, squoteChar] ++ " bevatten"

/-- `SQLliteModel.path_in_sip_check` (lines 265-271). -/
def pathInSipCheck (s : SqlState) (row col : Nat) (value : String) : SqlState :=
  if value == "" then sqlMarkCell s row col (some Color.RED) (some msgPathEmpty)
  else if value.data.contains slashChar then
    sqlMarkCell s row col (some Color.RED) (some msgPathSlash)
  else sqlMarkCell s row col none none

/-- `value.split("/", 1)[0]`: the prefix before the first slash. -/
def firstSegment (v : String) : String :=
  String.mk (v.data.takeWhile (fun c => c != slashChar))

/-- `SQLliteModel.setData` (lines 178-208) specialised to an `EditRole`
edit of a cell whose column name (`self.columns[col]`) is `"Path in SIP"`:
the value is stored through `set_value`, `path_in_sip_check` runs, and then
— unconditionally — the `Type` column (`col+1`) is set to `"stuk"` when the
raw value contains a slash and `"dossier"` otherwise, and the `DossierRef`
column (`col+2`) is set to the value's first path segment. -/
def sqlSetDataPathInSip (s : SqlState) (row col : Nat) (value : String) : SqlState :=
  let s1 := sqlSetValue s row col value
  let s2 := pathInSipCheck s1 row col value
  let s3 := sqlSetValue s2 row (col + 1) (if value.data.contains slashChar then "stuk" else "dossier")
  sqlSetValue s3 row (col + 2) (firstSegment value)

/-! ### Invariants and well-formedness used by the claims -/

/-- The opening-date envelope condition for the dossier at row `d`: either
no `stuk` of the dossier carries a valid opening date, or the dossier's
stored opening date is not lexicographically greater than their minimum
(string comparison, exactly as the code compares). -/
def envOpenOK (cfg : Cfg) (s : ModelState) (d : Nat) : Bool :=
  let l := getDateValuesForDossierRef cfg s (s.row d).dossierRef openingCol
  l.isEmpty || !(strLtB (listMinD l) (s.row d).openingsdatum)

/-- The closing-date envelope condition for the dossier at row `d`. -/
def envCloseOK (cfg : Cfg) (s : ModelState) (d : Nat) : Bool :=
  let l := getDateValuesForDossierRef cfg s (s.row d).dossierRef closingCol
  l.isEmpty || !(strLtB (s.row d).sluitingsdatum (listMaxD l))

/-- Some cell of row `d` carries an error (RED) annotation. -/
def anyRedOnRow (s : ModelState) (d : Nat) : Bool :=
  (List.range 6).any (fun c => mapLookup s.colors (d, c) == some Color.RED)

/-- The dossier at row `d` satisfies the claim: its dates envelope the
valid `stuk` dates, or an error annotation exists on the row. -/
def dossierInvariantAt (cfg : Cfg) (s : ModelState) (d : Nat) : Bool :=
  (envOpenOK cfg s d && envCloseOK cfg s d) || anyRedOnRow s d

/-- Claim C1's invariant, over every dossier row of the record set. -/
def datesInvariant (cfg : Cfg) (s : ModelState) : Prop :=
  ∀ d, d < s.data.length → (s.row d).typ = "dossier" → dossierInvariantAt cfg s d = true

/-- The data-model invariant of the spec: every `stuk` row's `DossierRef`
matches exactly one `dossier` row. -/
def wellFormed (s : ModelState) : Prop :=
  (∀ i, i < s.data.length → (s.row i).typ = "stuk" →
    (findDossierRow s (s.row i).dossierRef).isSome = true) ∧
  (∀ i j, i < s.data.length → j < s.data.length → (s.row i).typ = "dossier" →
    (s.row j).typ = "dossier" → (s.row i).dossierRef = (s.row j).dossierRef → i = j)

/-- Run a sequence of `setData` edits; `none` when one of them raises. -/
def applyEdits (cfg : Cfg) : List (Nat × Nat × String) → ModelState → Option ModelState
  | [], s => some s
  | (row, col, v) :: es, s =>
    match setData cfg s row col v with
    | none => none
    | some (s1, _, _) => applyEdits cfg es s1

/-- The two annotation maps agree at key `k`. -/
def annotEqAt (s t : ModelState) (k : Nat × Nat) : Prop :=
  mapLookup t.colors k = mapLookup s.colors k ∧
  mapLookup t.tooltips k = mapLookup s.tooltips k

/-- Two states have the same row skeleton: same number of rows, and every
row keeps its `Type` and `DossierRef`.  Date and name edits never change
the skeleton. -/
def sameSkeleton (s t : ModelState) : Prop :=
  t.data.length = s.data.length ∧
  ∀ i, (t.row i).typ = (s.row i).typ ∧ (t.row i).dossierRef = (s.row i).dossierRef

/-- An edit `(row, col, v)` that claim C1 ranges over: a date-column edit
of a `stuk` row. -/
def stukDateEdit (s : ModelState) (e : Nat × Nat × String) : Prop :=
  (s.row e.1).typ = "stuk" ∧ (e.2.1 = openingCol ∨ e.2.1 = closingCol)

/-- Business-invalid input for `set_cell` on a recognised validated column
of the `PandasModel`: an empty name on a dossier row, or a date value that
fails the date checks (bad format, out-of-range, cross-check or envelope
violation) once stored. -/
def businessInvalid (cfg : Cfg) (s : ModelState) (row col : Nat) (value : String) : Prop :=
  (col = naamCol ∧ value = "" ∧ ((writeCell s row col value).row row).typ = "dossier") ∨
  ((col = openingCol ∨ col = closingCol) ∧
    (dateDataCheckCore cfg (writeCell s row col value) value row col
      (((writeCell s row col value).row row).typ == "stuk")).2 = false)

/-! ## Concrete fixture states for instantiating the theorems -/

/-- Fixture configuration: no configured date bounds, today = 2026-10-12. -/
def cfgFix : Cfg := ⟨none, none, ⟨2026, 10, 12⟩⟩

/-- A dossier row with empty date fields. -/
def rowFixD : Row := ⟨"D1", "dossier", "D1", "n", "", ""⟩

/-- A stuk row belonging to dossier `D1`, with empty date fields. -/
def rowFixS : Row := ⟨"D1/f", "stuk", "D1", "f", "", ""⟩

/-- A dossier row whose stored dates are parseable but not zero-padded. -/
def rowFixL : Row := ⟨"D1", "dossier", "D1", "n", "2020-1-5", "2020-05-01"⟩

/-- One dossier row, no annotations. -/
def stateFix1 : ModelState := { data := [rowFixD], colors := [], tooltips := [] }

/-- One dossier row with a YELLOW (warning) mark on its opening-date cell. -/
def stateFixY : ModelState :=
  { data := [rowFixD], colors := [((0, 4), Color.YELLOW)], tooltips := [] }

/-- One dossier row with a RED (error) mark on its opening-date cell. -/
def stateFixR : ModelState :=
  { data := [rowFixD], colors := [((0, 4), Color.RED)], tooltips := [] }

/-- A dossier row and a stuk row referring to it, no annotations. -/
def stateFix2 : ModelState := { data := [rowFixD, rowFixS], colors := [], tooltips := [] }

/-- One dossier row with non-zero-padded stored dates, no annotations. -/
def stateFixL : ModelState := { data := [rowFixL], colors := [], tooltips := [] }

/-- The state produced by the invalid-date edit `setData cfgFix stateFix1 0 4 "x"`. -/
def stateFix1x : ModelState :=
  { data := [⟨"D1", "dossier", "D1", "n", "x", ""⟩],
    colors := [((0, 4), Color.RED)], tooltips := [((0, 4), msgFormat)] }

/-- The state produced by the invalid-date edit `setData cfgFix stateFixR 0 4 "v"`. -/
def stateFixRv : ModelState :=
  { data := [⟨"D1", "dossier", "D1", "n", "v", ""⟩],
    colors := [((0, 4), Color.RED)], tooltips := [((0, 4), msgFormat)] }

/-- The state produced by the stuk-opening edit
`setData cfgFix stateFix2 1 4 "2020-01-01"` (the dossier date cells end up
RED because the dossier row still has empty dates after the propagation
re-checks them). -/
def stateFix2e : ModelState :=
  { data := [rowFixD, ⟨"D1/f", "stuk", "D1", "f", "2020-01-01", ""⟩],
    colors := [((0, 5), Color.RED), ((0, 4), Color.RED)],
    tooltips := [((0, 5), msgFormat), ((0, 4), msgFormat)] }

/-- The C1 scenario: a dossier with zero-padded stored dates and a stuk with
empty dates. -/
def stateFixC1 : ModelState :=
  { data := [⟨"D1", "dossier", "D1", "n", "2020-05-01", "2020-09-01"⟩, rowFixS],
    colors := [], tooltips := [] }

/-- The state after editing the stuk opening date of `stateFixC1` to the
parseable but non-zero-padded value 2020-1-5. -/
def stateFixC1e : ModelState :=
  { data := [⟨"D1", "dossier", "D1", "n", "2020-05-01", "2020-09-01"⟩,
             ⟨"D1/f", "stuk", "D1", "f", "2020-1-5", ""⟩],
    colors := [], tooltips := [] }

/-- Correspondence of two runs: a first run from `s` to `s1` and a second
run from `t` to `t1`.  At every cell both runs either wrote the same final
annotation, or neither touched it. -/
def runMatch (s s1 t t1 : ModelState) : Prop :=
  ∀ k, (mapLookup s1.colors k = mapLookup t1.colors k ∧
        mapLookup s1.tooltips k = mapLookup t1.tooltips k) ∨
       (annotEqAt s s1 k ∧ annotEqAt t t1 k)

/-- The outcome of one `_date_data_check` core run: unmark the checked
cell, mark it with a tooltip, or mark the cross-check pair. -/
inductive CoreOut where
  | unmark : CoreOut
  | mark : String → CoreOut
  | pair : CoreOut
deriving DecidableEq, Repr

/-- The decision taken by the core of `_date_data_check`, as a function of
the configuration, the checked row's snapshot, the value, the column, the
`is_stuk` flag and the two candidate lists (only read for non-stuk rows). -/
def coreDecide (cfg : Cfg) (r : Row) (value : String) (col : Nat) (isStuk : Bool)
    (lo lc : List String) : CoreOut × Bool :=
  if isStuk && value == "" then (CoreOut.unmark, true)
  else
    match properDateFormat value with
    | none => (CoreOut.mark msgFormat, false)
    | some date =>
      match dateInvalidCheck cfg date with
      | some tip => (CoreOut.mark tip, false)
      | none =>
        if r.openingsdatum != "" && r.sluitingsdatum != "" &&
            strLtB r.sluitingsdatum r.openingsdatum then (CoreOut.pair, false)
        else if !isStuk then
          if col == openingCol && !lo.isEmpty && strLtB (listMinD lo) r.openingsdatum then
            (CoreOut.mark msgDossierOpening, false)
          else if col == closingCol && !lc.isEmpty &&
              strLtB r.sluitingsdatum (listMaxD lc) then
            (CoreOut.mark msgDossierClosing, false)
          else (CoreOut.unmark, true)
        else (CoreOut.unmark, true)

/-- Apply a core outcome to the state. -/
def coreApply (o : CoreOut) (s : ModelState) (row col : Nat) : ModelState :=
  match o with
  | CoreOut.unmark => unmarkBadCell s row col
  | CoreOut.mark tip => markBadCell s row col Color.RED (some tip)
  | CoreOut.pair =>
    markBadCell (markBadCell s row openingCol Color.RED (some msgOpenAfterClose))
      row closingCol Color.RED (some msgCloseBeforeOpen)

/-- The core decision computed from a state: snapshot row and candidate
lists read off `s`. -/
def coreDecideAt (cfg : Cfg) (s : ModelState) (value : String) (row col : Nat)
    (isStuk : Bool) : CoreOut × Bool :=
  coreDecide cfg (s.row row) value col isStuk
    (getDateValuesForDossierRef cfg s ((s.row row).dossierRef) openingCol)
    (getDateValuesForDossierRef cfg s ((s.row row).dossierRef) closingCol)

/-- The two states carry the same annotation at cell `k`. -/
def annDetAt (s t : ModelState) (k : Nat × Nat) : Prop :=
  mapLookup s.colors k = mapLookup t.colors k ∧
  mapLookup s.tooltips k = mapLookup t.tooltips k

/-- The result of the witness edit `setData cfgFix stateFixC1 1 openingCol
"2020-06-01"` (total if the call returns a value). -/
def c3out1 : ModelState × Bool × Nat :=
  (setData cfgFix stateFixC1 1 openingCol "2020-06-01").getD (stateFixC1, false, 0)

/-- The result of repeating the witness edit from the first result. -/
def c3out2 : ModelState × Bool × Nat :=
  (setData cfgFix c3out1.1 1 openingCol "2020-06-01").getD (stateFixC1, false, 0)

/-! ## Lemmas: association-list maps -/

theorem mapLookup_nil {κ α : Type} [BEq κ] (k : κ) :
    mapLookup ([] : List (κ × α)) k = none := rfl

theorem mapLookup_cons {κ α : Type} [BEq κ] (e : κ × α) (m : List (κ × α)) (k : κ) :
    mapLookup (e :: m) k = if e.1 == k then some e.2 else mapLookup m k := by
  simp only [mapLookup, List.find?]
  cases h : e.1 == k <;> simp [h]

theorem mapErase_cons {κ α : Type} [BEq κ] (e : κ × α) (m : List (κ × α)) (k : κ) :
    mapErase (e :: m) k = if e.1 == k then mapErase m k else e :: mapErase m k := by
  simp only [mapErase, List.filter_cons, bne]
  cases h : e.1 == k <;> simp [h]

theorem mapLookup_erase_self {κ α : Type} [BEq κ] [LawfulBEq κ] (m : List (κ × α)) (k : κ) :
    mapLookup (mapErase m k) k = none := by
  induction m with
  | nil => rfl
  | cons e m ih =>
    rw [mapErase_cons]
    by_cases h : e.1 = k
    · rw [if_pos (by simp [h])]; exact ih
    · rw [if_neg (by simp [h]), mapLookup_cons, if_neg (by simp [h])]; exact ih

theorem mapLookup_erase_ne {κ α : Type} [BEq κ] [LawfulBEq κ] (m : List (κ × α)) (k k' : κ)
    (h : k' ≠ k) : mapLookup (mapErase m k) k' = mapLookup m k' := by
  induction m with
  | nil => rfl
  | cons e m ih =>
    rw [mapErase_cons, mapLookup_cons]
    by_cases he : e.1 = k
    · rw [if_pos (by simp [he]), if_neg (by simp [he]; exact fun hk => h hk.symm)]
      exact ih
    · rw [if_neg (by simp [he]), mapLookup_cons]
      by_cases he' : e.1 = k'
      · rw [if_pos (by simp [he']), if_pos (by simp [he'])]
      · rw [if_neg (by simp [he']), if_neg (by simp [he'])]; exact ih

theorem mapLookup_insert_self {κ α : Type} [BEq κ] [LawfulBEq κ] (m : List (κ × α)) (k : κ)
    (v : α) : mapLookup (mapInsert m k v) k = some v := by
  rw [mapInsert, mapLookup_cons, if_pos (by simp)]

theorem mapLookup_insert_ne {κ α : Type} [BEq κ] [LawfulBEq κ] (m : List (κ × α)) (k k' : κ)
    (v : α) (h : k' ≠ k) : mapLookup (mapInsert m k v) k' = mapLookup m k' := by
  rw [mapInsert, mapLookup_cons, if_neg (by simp; exact fun hk => h hk.symm)]
  exact mapLookup_erase_ne m k k' h

/-! ## Lemmas: Python string comparison -/

theorem lexLt_irrefl (a : List Char) : lexLt a a = false := by
  induction a with
  | nil => rfl
  | cons c cs ih => simp [lexLt, ih]

theorem lexLt_asymm {a b : List Char} (h : lexLt a b = true) : lexLt b a = false := by
  induction a generalizing b with
  | nil =>
    cases b with
    | nil => simp [lexLt] at h
    | cons c cs => simp [lexLt]
  | cons c cs ih =>
    cases b with
    | nil => simp [lexLt] at h
    | cons d ds =>
      simp only [lexLt] at h ⊢
      rcases Nat.lt_trichotomy c.toNat d.toNat with hlt | heq | hgt
      · simp [hlt, Nat.not_lt.mpr (Nat.le_of_lt hlt), Nat.lt_irrefl]
      · simp only [heq, Nat.lt_irrefl, if_false] at h ⊢
        exact ih h
      · simp [hgt, Nat.not_lt.mpr (Nat.le_of_lt hgt)] at h

theorem lexLt_trans {a b c : List Char} (hab : lexLt a b = true) (hbc : lexLt b c = true) :
    lexLt a c = true := by
  induction a generalizing b c with
  | nil =>
    cases c with
    | nil =>
      cases b with
      | nil => simp [lexLt] at hab
      | cons d ds => simp [lexLt] at hbc
    | cons e es => simp [lexLt]
  | cons x xs ih =>
    cases b with
    | nil => simp [lexLt] at hab
    | cons y ys =>
      cases c with
      | nil => simp [lexLt] at hbc
      | cons z zs =>
        simp only [lexLt] at hab hbc ⊢
        rcases Nat.lt_trichotomy x.toNat y.toNat with hxy | hxy | hxy
        · rcases Nat.lt_trichotomy y.toNat z.toNat with hyz | hyz | hyz
          · simp [Nat.lt_trans hxy hyz]
          · simp [hyz ▸ hxy]
          · simp [hyz, Nat.not_lt.mpr (Nat.le_of_lt hyz)] at hbc
        · rcases Nat.lt_trichotomy y.toNat z.toNat with hyz | hyz | hyz
          · simp [hxy ▸ hyz]
          · simp only [hxy, hyz, Nat.lt_irrefl, if_false] at hab hbc ⊢
            exact ih hab hbc
          · simp [hyz, Nat.not_lt.mpr (Nat.le_of_lt hyz)] at hbc
        · simp [hxy, Nat.not_lt.mpr (Nat.le_of_lt hxy)] at hab

theorem lexLt_total {a b : List Char} (hab : lexLt a b = false) (hba : lexLt b a = false) :
    a = b := by
  induction a generalizing b with
  | nil =>
    cases b with
    | nil => rfl
    | cons d ds => simp [lexLt] at hab
  | cons x xs ih =>
    cases b with
    | nil => simp [lexLt] at hba
    | cons y ys =>
      simp only [lexLt] at hab hba
      rcases Nat.lt_trichotomy x.toNat y.toNat with hxy | hxy | hxy
      · simp [hxy] at hab
      · have hx : x = y := Char.eq_of_val_eq (UInt32.ext hxy)
        subst hx
        simp only [Nat.lt_irrefl, if_false] at hab hba
        exact congrArg (x :: ·) (ih hab hba)
      · simp [hxy, Nat.not_lt.mpr (Nat.le_of_lt hxy)] at hba

theorem strLtB_irrefl (a : String) : strLtB a a = false := lexLt_irrefl a.data

theorem strLtB_asymm {a b : String} (h : strLtB a b = true) : strLtB b a = false :=
  lexLt_asymm h

theorem strLtB_trans {a b c : String} (hab : strLtB a b = true) (hbc : strLtB b c = true) :
    strLtB a c = true := lexLt_trans hab hbc

theorem strLtB_total {a b : String} (hab : strLtB a b = false) (hba : strLtB b a = false) :
    a = b := by
  cases a with
  | mk la =>
    cases b with
    | mk lb => exact congrArg String.mk (lexLt_total hab hba)

/-- From `a ≤ b` (`¬ b < a`) and `b ≤ c` read the other way: the derived
`≤` is transitive — from `strLtB b a = false` and `strLtB c b = false`
conclude `strLtB c a = false`. -/
theorem strLeB_trans {a b c : String} (hab : strLtB b a = false) (hbc : strLtB c b = false) :
    strLtB c a = false := by
  cases hca : strLtB c a with
  | false => rfl
  | true =>
    cases hab' : strLtB a b with
    | true =>
      have hcb : strLtB c b = true := strLtB_trans hca hab'
      rw [hcb] at hbc; cases hbc
    | false =>
      have heq : a = b := strLtB_total hab' hab
      rw [← heq, hca] at hbc; cases hbc

/-! ## Lemmas: Python min / max over string lists -/

theorem pyMin_le_left (a b : String) : strLtB a (pyMin a b) = false := by
  unfold pyMin
  cases h : strLtB b a with
  | true => rw [if_pos rfl]; exact strLtB_asymm h
  | false => rw [if_neg (by simp)]; exact strLtB_irrefl a

theorem pyMin_le_right (a b : String) : strLtB b (pyMin a b) = false := by
  unfold pyMin
  cases h : strLtB b a with
  | true => rw [if_pos rfl]; exact strLtB_irrefl b
  | false => rw [if_neg (by simp)]; exact h

theorem pyMin_eq_or (a b : String) : pyMin a b = a ∨ pyMin a b = b := by
  unfold pyMin
  cases h : strLtB b a <;> simp

theorem pyMax_ge_left (a b : String) : strLtB (pyMax a b) a = false := by
  unfold pyMax
  cases h : strLtB a b with
  | true => rw [if_pos rfl]; exact strLtB_asymm h
  | false => rw [if_neg (by simp)]; exact strLtB_irrefl a

theorem pyMax_ge_right (a b : String) : strLtB (pyMax a b) b = false := by
  unfold pyMax
  cases h : strLtB a b with
  | true => rw [if_pos rfl]; exact strLtB_irrefl b
  | false => rw [if_neg (by simp)]; exact h

theorem pyMax_eq_or (a b : String) : pyMax a b = a ∨ pyMax a b = b := by
  unfold pyMax
  cases h : strLtB a b <;> simp

theorem foldl_pyMin_le (l : List String) :
    ∀ x y, (y = x ∨ y ∈ l) → strLtB y (l.foldl pyMin x) = false := by
  induction l with
  | nil =>
    intro x y hy
    rcases hy with h | h
    · subst h; exact strLtB_irrefl y
    · cases h
  | cons a l ih =>
    intro x y hy
    simp only [List.foldl_cons]
    rcases hy with h | h
    · subst h
      exact strLeB_trans (ih (pyMin y a) (pyMin y a) (Or.inl rfl)) (pyMin_le_left y a)
    · rcases List.mem_cons.mp h with h | h
      · subst h
        exact strLeB_trans (ih (pyMin x y) (pyMin x y) (Or.inl rfl)) (pyMin_le_right x y)
      · exact ih (pyMin x a) y (Or.inr h)

theorem foldl_pyMin_mem (x : String) (l : List String) :
    l.foldl pyMin x = x ∨ l.foldl pyMin x ∈ l := by
  induction l generalizing x with
  | nil => exact Or.inl rfl
  | cons a l ih =>
    simp only [List.foldl_cons]
    rcases ih (pyMin x a) with h | h
    · rcases pyMin_eq_or x a with h' | h'
      · exact Or.inl (h.trans h')
      · exact Or.inr (List.mem_cons.mpr (Or.inl (h.trans h')))
    · exact Or.inr (List.mem_cons.mpr (Or.inr h))

theorem listMinD_le {l : List String} {y : String} (hy : y ∈ l) :
    strLtB y (listMinD l) = false := by
  cases l with
  | nil => cases hy
  | cons x xs =>
    rcases List.mem_cons.mp hy with h | h
    · exact foldl_pyMin_le xs x y (Or.inl h)
    · exact foldl_pyMin_le xs x y (Or.inr h)

theorem listMinD_mem {l : List String} (h : l ≠ []) : listMinD l ∈ l := by
  cases l with
  | nil => exact absurd rfl h
  | cons x xs =>
    rcases foldl_pyMin_mem x xs with h' | h'
    · exact List.mem_cons.mpr (Or.inl h')
    · exact List.mem_cons.mpr (Or.inr h')

theorem foldl_pyMax_ge (l : List String) :
    ∀ x y, (y = x ∨ y ∈ l) → strLtB (l.foldl pyMax x) y = false := by
  induction l with
  | nil =>
    intro x y hy
    rcases hy with h | h
    · subst h; exact strLtB_irrefl y
    · cases h
  | cons a l ih =>
    intro x y hy
    simp only [List.foldl_cons]
    rcases hy with h | h
    · subst h
      exact strLeB_trans (pyMax_ge_left y a) (ih (pyMax y a) (pyMax y a) (Or.inl rfl))
    · rcases List.mem_cons.mp h with h | h
      · subst h
        exact strLeB_trans (pyMax_ge_right x y) (ih (pyMax x y) (pyMax x y) (Or.inl rfl))
      · exact ih (pyMax x a) y (Or.inr h)

theorem foldl_pyMax_mem (x : String) (l : List String) :
    l.foldl pyMax x = x ∨ l.foldl pyMax x ∈ l := by
  induction l generalizing x with
  | nil => exact Or.inl rfl
  | cons a l ih =>
    simp only [List.foldl_cons]
    rcases ih (pyMax x a) with h | h
    · rcases pyMax_eq_or x a with h' | h'
      · exact Or.inl (h.trans h')
      · exact Or.inr (List.mem_cons.mpr (Or.inl (h.trans h')))
    · exact Or.inr (List.mem_cons.mpr (Or.inr h))

theorem listMaxD_ge {l : List String} {y : String} (hy : y ∈ l) :
    strLtB (listMaxD l) y = false := by
  cases l with
  | nil => cases hy
  | cons x xs =>
    rcases List.mem_cons.mp hy with h | h
    · exact foldl_pyMax_ge xs x y (Or.inl h)
    · exact foldl_pyMax_ge xs x y (Or.inr h)

theorem listMaxD_mem {l : List String} (h : l ≠ []) : listMaxD l ∈ l := by
  cases l with
  | nil => exact absurd rfl h
  | cons x xs =>
    rcases foldl_pyMax_mem x xs with h' | h'
    · exact List.mem_cons.mpr (Or.inl h')
    · exact List.mem_cons.mpr (Or.inr h')

/-! ## Lemmas: marking, unmarking and the check core -/

theorem markBadCell_data (s : ModelState) (row col : Nat) (color : Color)
    (tip : Option String) : (markBadCell s row col color tip).data = s.data := by
  unfold markBadCell; cases tip <;> rfl

theorem unmarkBadCell_data (s : ModelState) (row col : Nat) :
    (unmarkBadCell s row col).data = s.data := rfl

theorem markBadCell_colors_self (s : ModelState) (row col : Nat) (color : Color)
    (tip : Option String) :
    mapLookup (markBadCell s row col color tip).colors (row, col) = some color := by
  unfold markBadCell; cases tip <;> exact mapLookup_insert_self ..

theorem markBadCell_colors_ne (s : ModelState) (row col : Nat) (color : Color)
    (tip : Option String) (k : Nat × Nat) (h : k ≠ (row, col)) :
    mapLookup (markBadCell s row col color tip).colors k = mapLookup s.colors k := by
  unfold markBadCell; cases tip <;> exact mapLookup_insert_ne _ _ _ _ h

theorem markBadCell_tooltips_self (s : ModelState) (row col : Nat) (color : Color)
    (t : String) :
    mapLookup (markBadCell s row col color (some t)).tooltips (row, col) = some t := by
  unfold markBadCell; exact mapLookup_insert_self ..

theorem markBadCell_tooltips_ne (s : ModelState) (row col : Nat) (color : Color)
    (tip : Option String) (k : Nat × Nat) (h : k ≠ (row, col)) :
    mapLookup (markBadCell s row col color tip).tooltips k = mapLookup s.tooltips k := by
  unfold markBadCell; cases tip
  · rfl
  · exact mapLookup_insert_ne _ _ _ _ h

theorem unmarkBadCell_colors_self (s : ModelState) (row col : Nat) :
    mapLookup (unmarkBadCell s row col).colors (row, col) = none :=
  mapLookup_erase_self ..

theorem unmarkBadCell_colors_ne (s : ModelState) (row col : Nat) (k : Nat × Nat)
    (h : k ≠ (row, col)) :
    mapLookup (unmarkBadCell s row col).colors k = mapLookup s.colors k :=
  mapLookup_erase_ne _ _ _ h

theorem unmarkBadCell_tooltips_self (s : ModelState) (row col : Nat) :
    mapLookup (unmarkBadCell s row col).tooltips (row, col) = none :=
  mapLookup_erase_self ..

theorem unmarkBadCell_tooltips_ne (s : ModelState) (row col : Nat) (k : Nat × Nat)
    (h : k ≠ (row, col)) :
    mapLookup (unmarkBadCell s row col).tooltips k = mapLookup s.tooltips k :=
  mapLookup_erase_ne _ _ _ h

/-- The result of the check core is one of three shapes: a single RED mark
on the checked cell (with some tooltip), the RED cross-check pair on both
date cells, or an unmark of the checked cell. -/
theorem dateDataCheckCore_shape (cfg : Cfg) (s : ModelState) (value : String) (row col : Nat)
    (isStuk : Bool) :
    (∃ tip, dateDataCheckCore cfg s value row col isStuk =
        (markBadCell s row col Color.RED (some tip), false)) ∨
    dateDataCheckCore cfg s value row col isStuk =
      (markBadCell (markBadCell s row openingCol Color.RED (some msgOpenAfterClose))
          row closingCol Color.RED (some msgCloseBeforeOpen), false) ∨
    dateDataCheckCore cfg s value row col isStuk = (unmarkBadCell s row col, true) := by
  unfold dateDataCheckCore
  dsimp only
  repeat' split
  all_goals first
  | exact Or.inr (Or.inr rfl)
  | exact Or.inr (Or.inl rfl)
  | exact Or.inl ⟨_, rfl⟩

/-- The check core never touches the DataFrame. -/
theorem dateDataCheckCore_data (cfg : Cfg) (s : ModelState) (value : String) (row col : Nat)
    (isStuk : Bool) : (dateDataCheckCore cfg s value row col isStuk).1.data = s.data := by
  rcases dateDataCheckCore_shape cfg s value row col isStuk with ⟨tip, heq⟩ | heq | heq <;>
    rw [heq] <;> simp [markBadCell_data, unmarkBadCell_data]

/-- The check core touches annotations only at the edited cell and the two
date cells of its row. -/
theorem dateDataCheckCore_frame (cfg : Cfg) (s : ModelState) (value : String) (row col : Nat)
    (isStuk : Bool) (k : Nat × Nat) (h1 : k ≠ (row, col)) (h2 : k ≠ (row, openingCol))
    (h3 : k ≠ (row, closingCol)) :
    mapLookup (dateDataCheckCore cfg s value row col isStuk).1.colors k = mapLookup s.colors k ∧
    mapLookup (dateDataCheckCore cfg s value row col isStuk).1.tooltips k =
      mapLookup s.tooltips k := by
  rcases dateDataCheckCore_shape cfg s value row col isStuk with ⟨tip, heq⟩ | heq | heq <;> rw [heq]
  · exact ⟨markBadCell_colors_ne _ _ _ _ _ _ h1, markBadCell_tooltips_ne _ _ _ _ _ _ h1⟩
  · constructor
    · rw [markBadCell_colors_ne _ _ _ _ _ _ h3, markBadCell_colors_ne _ _ _ _ _ _ h2]
    · rw [markBadCell_tooltips_ne _ _ _ _ _ _ h3, markBadCell_tooltips_ne _ _ _ _ _ _ h2]
  · exact ⟨unmarkBadCell_colors_ne _ _ _ _ h1, unmarkBadCell_tooltips_ne _ _ _ _ h1⟩

/-- When the core fails on a date column it leaves a RED error on the
checked cell. -/
theorem dateDataCheckCore_false_red (cfg : Cfg) (s : ModelState) (value : String) (row col : Nat)
    (isStuk : Bool) (hcol : col = openingCol ∨ col = closingCol)
    (h : (dateDataCheckCore cfg s value row col isStuk).2 = false) :
    mapLookup (dateDataCheckCore cfg s value row col isStuk).1.colors (row, col) =
      some Color.RED := by
  rcases dateDataCheckCore_shape cfg s value row col isStuk with ⟨tip, heq⟩ | heq | heq <;>
    rw [heq] at h ⊢
  · exact markBadCell_colors_self ..
  · rcases hcol with hc | hc
    · subst hc
      rw [markBadCell_colors_ne _ _ _ _ _ _ (by simp [openingCol, closingCol])]
      exact markBadCell_colors_self ..
    · subst hc
      exact markBadCell_colors_self ..
  · cases h

/-- When the core succeeds it clears the checked cell. -/
theorem dateDataCheckCore_true_clear (cfg : Cfg) (s : ModelState) (value : String) (row col : Nat)
    (isStuk : Bool) (h : (dateDataCheckCore cfg s value row col isStuk).2 = true) :
    mapLookup (dateDataCheckCore cfg s value row col isStuk).1.colors (row, col) = none ∧
    mapLookup (dateDataCheckCore cfg s value row col isStuk).1.tooltips (row, col) = none := by
  rcases dateDataCheckCore_shape cfg s value row col isStuk with ⟨tip, heq⟩ | heq | heq <;>
    rw [heq] at h ⊢
  · cases h
  · cases h
  · exact ⟨unmarkBadCell_colors_self .., unmarkBadCell_tooltips_self ..⟩

/-! ## Lemmas: `List.getD` after `List.set` -/

theorem getD_set_self {α : Type} (l : List α) (i : Nat) (a d : α) (h : i < l.length) :
    (l.set i a).getD i d = a := by
  induction l generalizing i with
  | nil => cases h
  | cons x xs ih =>
    cases i with
    | zero => rfl
    | succ n => exact ih n (Nat.lt_of_succ_lt_succ h)

theorem getD_set_ne {α : Type} (l : List α) (i j : Nat) (a d : α) (h : j ≠ i) :
    (l.set i a).getD j d = l.getD j d := by
  induction l generalizing i j with
  | nil => rfl
  | cons x xs ih =>
    cases i with
    | zero =>
      cases j with
      | zero => exact absurd rfl h
      | succ m => rfl
    | succ n =>
      cases j with
      | zero => rfl
      | succ m => exact ih n m (fun hc => h (by rw [hc]))

/-! ## Claim C7 -/

/-- C7: `is_valid(record_set)` returns true if and only if no annotation in
the set has severity error (RED); annotations of severity warning (YELLOW)
never affect the result. -/
theorem C7_is_valid_iff_no_error (s : ModelState) (k : Nat × Nat) :
    (isDataValid s = true ↔ ∀ e ∈ s.colors, e.2 ≠ Color.RED) ∧
    isDataValid { s with colors := (k, Color.YELLOW) :: s.colors } = isDataValid s := by
  constructor
  · simp [isDataValid]
  · simp [isDataValid]

/-! ## Claim C8 -/

/-- C8: a date whose parsed year is 9999 never produces the
may-not-be-in-the-future error, while any other date strictly after the
current date is rejected by the future-date check. -/
theorem C8_year_9999_future_exempt (cfg : Cfg) (d : PyDate) :
    (d.year = 9999 → dateInvalidCheck cfg d ≠ some msgFuture) ∧
    (d.year ≠ 9999 → PyDate.ltb cfg.today d = true → dateInvalidCheck cfg d = some msgFuture) := by
  constructor
  · intro h9
    unfold dateInvalidCheck
    rw [if_neg (by simp [h9])]
    split
    · intro hcon
      have hmsg : msgBeforeStart = msgFuture := Option.some.inj hcon
      revert hmsg; decide
    · split
      · intro hcon
        have hmsg : msgAfterEnd = msgFuture := Option.some.inj hcon
        revert hmsg; decide
      · intro hcon; cases hcon
  · intro h9 hlt
    unfold dateInvalidCheck
    rw [if_pos (by simp [hlt, h9])]

/-- Witness for C8 at concrete dates (current date 2026-10-12). -/
theorem C8_witness :
    dateInvalidCheck ⟨none, none, ⟨2026, 10, 12⟩⟩ ⟨9999, 12, 31⟩ ≠ some msgFuture ∧
    dateInvalidCheck ⟨none, none, ⟨2026, 10, 12⟩⟩ ⟨2030, 1, 1⟩ = some msgFuture :=
  ⟨(C8_year_9999_future_exempt ⟨none, none, ⟨2026, 10, 12⟩⟩ ⟨9999, 12, 31⟩).1 rfl,
   (C8_year_9999_future_exempt ⟨none, none, ⟨2026, 10, 12⟩⟩ ⟨2030, 1, 1⟩).2 (by decide) (by decide)⟩

/-! ## Claim C10 -/

theorem noQuotes_stripQuotes (v : String) : noQuotes (stripQuotes v) = true := by
  unfold noQuotes stripQuotes removeAllChar
  simp only [List.all_eq_true, List.mem_filter]
  intro c hc
  obtain ⟨⟨hv, hdq⟩, hsq⟩ := hc
  simp [hdq, hsq]

/-- C10: every write through `set_value` strips both quote characters from
the incoming value, every read through `get_value` strips them again, and
the stored grid never contains a quote character once the invariant holds. -/
theorem C10_quotes_stripped (s : SqlState) (row col : Nat) (v : String)
    (hrow : row < s.data.length) (hcol : col < (s.data.getD row []).length)
    (hinv : ∀ r c, noQuotes ((s.data.getD r []).getD c "") = true) :
    ((sqlSetValue s row col v).data.getD row []).getD col "" = stripQuotes v ∧
    noQuotes (stripQuotes v) = true ∧
    noQuotes (sqlGetValue s row col) = true ∧
    (∀ r c, noQuotes (((sqlSetValue s row col v).data.getD r []).getD c "") = true) := by
  refine ⟨?_, noQuotes_stripQuotes v, noQuotes_stripQuotes _, ?_⟩
  · unfold sqlSetValue
    dsimp only
    rw [getD_set_self _ _ _ _ hrow, getD_set_self _ _ _ _ hcol]
  · intro r c
    unfold sqlSetValue
    dsimp only
    by_cases hr : r = row
    · subst hr
      rw [getD_set_self _ _ _ _ hrow]
      by_cases hc : c = col
      · subst hc
        rw [getD_set_self _ _ _ _ hcol]
        exact noQuotes_stripQuotes v
      · rw [getD_set_ne _ _ _ _ _ hc]
        exact hinv r c
    · rw [getD_set_ne _ _ _ _ _ hr]
      exact hinv r c

/-- Witness for C10 at a concrete one-cell grid holding a quoted value
(the value is the five characters x, double quote, y, single quote, z). -/
theorem C10_witness :
    (((sqlSetValue ⟨[["a"]], ["c0"], [], [], false⟩ 0 0
          (String.mk [Char.ofNat 120, dquoteChar, Char.ofNat 121, squoteChar,
            Char.ofNat 122])).data.getD 0 []).getD 0 ""
        = stripQuotes (String.mk [Char.ofNat 120, dquoteChar, Char.ofNat 121, squoteChar,
            Char.ofNat 122])) ∧
    noQuotes (stripQuotes (String.mk [Char.ofNat 120, dquoteChar, Char.ofNat 121, squoteChar,
        Char.ofNat 122])) = true ∧
    noQuotes (sqlGetValue ⟨[["a"]], ["c0"], [], [], false⟩ 0 0) = true ∧
    (∀ r c, noQuotes
      (((sqlSetValue ⟨[["a"]], ["c0"], [], [], false⟩ 0 0
          (String.mk [Char.ofNat 120, dquoteChar, Char.ofNat 121, squoteChar,
            Char.ofNat 122])).data.getD r []).getD c "")
        = true) :=
  C10_quotes_stripped ⟨[["a"]], ["c0"], [], [], false⟩ 0 0
    (String.mk [Char.ofNat 120, dquoteChar, Char.ofNat 121, squoteChar, Char.ofNat 122])
    (by decide) (by decide)
    (by
      intro r c
      match r, c with
      | 0, 0 => decide
      | 0, Nat.succ c => simp [noQuotes]
      | Nat.succ r, c => simp [noQuotes])


/-! ## Claim C6 -/

theorem sqlSetValue_colors (s : SqlState) (row col : Nat) (v : String) :
    (sqlSetValue s row col v).colors = s.colors := rfl

theorem sqlSetValue_tooltips (s : SqlState) (row col : Nat) (v : String) :
    (sqlSetValue s row col v).tooltips = s.tooltips := rfl

theorem sqlSetValue_length (s : SqlState) (row col : Nat) (v : String) :
    (sqlSetValue s row col v).data.length = s.data.length := by
  unfold sqlSetValue; dsimp only; exact List.length_set ..

theorem sqlSetValue_getD_self (s : SqlState) (row col : Nat) (v : String)
    (hrow : row < s.data.length) :
    (sqlSetValue s row col v).data.getD row [] = (s.data.getD row []).set col (stripQuotes v) := by
  unfold sqlSetValue; dsimp only; exact getD_set_self _ _ _ _ hrow

theorem sqlSetValue_getD_row_ne (s : SqlState) (row col : Nat) (v : String) (r : Nat)
    (hr : r ≠ row) :
    (sqlSetValue s row col v).data.getD r [] = s.data.getD r [] := by
  unfold sqlSetValue; dsimp only; exact getD_set_ne _ _ _ _ _ hr

/-- C6 counterexample: the concrete SQLite grid below (columns id, main_id,
Path in SIP, Type, DossierRef) holds one `stuk` row (`Type = "stuk"`,
`DossierRef = "D1"`).  Editing its `Path in SIP` cell to the empty string
through `setData` recomputes the derived columns — `Type` becomes
`"dossier"` (an empty value contains no separator) and `DossierRef` becomes
`""` — so they do NOT keep their previous values `"stuk"` and `"D1"`,
refuting the claim at this input. -/
theorem C6_counterexample :
    ((sqlSetDataPathInSip
        ⟨[["7", "1", "D1/f.txt", "stuk", "D1"]],
          ["id", "main_id", "Path in SIP", "Type", "DossierRef"], [], [], false⟩
        0 2 "").data.getD 0 []).getD 3 "" = "dossier" ∧
    ((sqlSetDataPathInSip
        ⟨[["7", "1", "D1/f.txt", "stuk", "D1"]],
          ["id", "main_id", "Path in SIP", "Type", "DossierRef"], [], [], false⟩
        0 2 "").data.getD 0 []).getD 4 "" = "" ∧
    ("dossier" : String) ≠ "stuk" ∧ ("" : String) ≠ "D1" ∧
    mapLookup (sqlSetDataPathInSip
        ⟨[["7", "1", "D1/f.txt", "stuk", "D1"]],
          ["id", "main_id", "Path in SIP", "Type", "DossierRef"], [], [], false⟩
        0 2 "").colors ("7", 2) = some Color.RED := by
  decide

/-- C6 amended: for every record, editing `Path in SIP` (at column `col`,
with `Type` at `col+1` and `DossierRef` at `col+2`) to the empty string
marks that cell RED with "Path in SIP mag niet leeg zijn", and the derived
`Type` and `DossierRef` columns ARE recomputed as side effects of the
write: `Type` is set to `"dossier"` (the empty value contains no
separator) and `DossierRef` to the empty string. -/
theorem C6_amended (s : SqlState) (row col : Nat) (hrow : row < s.data.length)
    (hcol0 : 0 < col) (hlen : col + 2 < (s.data.getD row []).length) :
    mapLookup (sqlSetDataPathInSip s row col "").colors
      ((s.data.getD row []).getD 0 "", col) = some Color.RED ∧
    mapLookup (sqlSetDataPathInSip s row col "").tooltips
      ((s.data.getD row []).getD 0 "", col) = some msgPathEmpty ∧
    ((sqlSetDataPathInSip s row col "").data.getD row []).getD (col + 1) "" = "dossier" ∧
    ((sqlSetDataPathInSip s row col "").data.getD row []).getD (col + 2) "" = "" := by
  have hred : sqlSetDataPathInSip s row col "" =
      sqlSetValue (sqlSetValue (sqlMarkCell (sqlSetValue s row col "") row col
        (some Color.RED) (some msgPathEmpty)) row (col + 1) "dossier") row (col + 2) "" := by
    unfold sqlSetDataPathInSip pathInSipCheck
    rfl
  rw [hred]
  have hsq0 : stripQuotes "" = "" := rfl
  have hsqd : stripQuotes "dossier" = "dossier" := by decide
  have hrow1 : (sqlSetValue s row col "").data.getD row [] =
      (s.data.getD row []).set col "" := by
    rw [sqlSetValue_getD_self s row col "" hrow, hsq0]
  have hlen1 : (sqlSetValue s row col "").data.length = s.data.length := sqlSetValue_length ..
  have hid1 : ((sqlSetValue s row col "").data.getD row []).getD 0 "" =
      (s.data.getD row []).getD 0 "" := by
    rw [hrow1]
    exact getD_set_ne _ _ _ _ _ (by omega)
  set sm := sqlMarkCell (sqlSetValue s row col "") row col
    (some Color.RED) (some msgPathEmpty) with hsm
  have hsmdata : sm.data = (sqlSetValue s row col "").data := rfl
  have hsmlen : sm.data.length = s.data.length := by rw [hsmdata, hlen1]
  have hsmrow : sm.data.getD row [] = (s.data.getD row []).set col "" := by
    rw [hsmdata, hrow1]
  have hrow3 : (sqlSetValue sm row (col + 1) "dossier").data.getD row [] =
      ((s.data.getD row []).set col "").set (col + 1) "dossier" := by
    rw [sqlSetValue_getD_self sm row (col + 1) "dossier" (by rw [hsmlen]; exact hrow), hsqd,
      hsmrow]
  have hlen3 : (sqlSetValue sm row (col + 1) "dossier").data.length = s.data.length := by
    rw [sqlSetValue_length, hsmlen]
  have hrow4 : (sqlSetValue (sqlSetValue sm row (col + 1) "dossier") row
      (col + 2) "").data.getD row [] =
      (((s.data.getD row []).set col "").set (col + 1) "dossier").set (col + 2) "" := by
    rw [sqlSetValue_getD_self _ row (col + 2) "" (by rw [hlen3]; exact hrow), hsq0, hrow3]
  have hcolors : (sqlSetValue (sqlSetValue sm row (col + 1) "dossier") row
      (col + 2) "").colors = sm.colors := rfl
  have htips : (sqlSetValue (sqlSetValue sm row (col + 1) "dossier") row
      (col + 2) "").tooltips = sm.tooltips := rfl
  have hsmcolors : sm.colors = mapInsert (sqlSetValue s row col "").colors
      (((sqlSetValue s row col "").data.getD row []).getD 0 "", col) Color.RED := rfl
  have hsmtips : sm.tooltips = mapInsert (sqlSetValue s row col "").tooltips
      (((sqlSetValue s row col "").data.getD row []).getD 0 "", col) msgPathEmpty := rfl
  refine ⟨?_, ?_, ?_, ?_⟩
  · rw [hcolors, hsmcolors, hid1]
    exact mapLookup_insert_self ..
  · rw [htips, hsmtips, hid1]
    exact mapLookup_insert_self ..
  · rw [hrow4, getD_set_ne _ _ _ _ _ (by omega)]
    exact getD_set_self _ _ _ _ (by simp only [List.length_set]; omega)
  · rw [hrow4]
    exact getD_set_self _ _ _ _ (by simp only [List.length_set]; omega)

/-- Witness for the amended C6 at the concrete grid of the counterexample. -/
theorem C6_amended_witness :
    mapLookup (sqlSetDataPathInSip
        ⟨[["7", "1", "D1/f.txt", "stuk", "D1"]],
          ["id", "main_id", "Path in SIP", "Type", "DossierRef"], [], [], false⟩
        0 2 "").colors ("7", 2) = some Color.RED ∧
    mapLookup (sqlSetDataPathInSip
        ⟨[["7", "1", "D1/f.txt", "stuk", "D1"]],
          ["id", "main_id", "Path in SIP", "Type", "DossierRef"], [], [], false⟩
        0 2 "").tooltips ("7", 2) = some msgPathEmpty ∧
    ((sqlSetDataPathInSip
        ⟨[["7", "1", "D1/f.txt", "stuk", "D1"]],
          ["id", "main_id", "Path in SIP", "Type", "DossierRef"], [], [], false⟩
        0 2 "").data.getD 0 []).getD 3 "" = "dossier" ∧
    ((sqlSetDataPathInSip
        ⟨[["7", "1", "D1/f.txt", "stuk", "D1"]],
          ["id", "main_id", "Path in SIP", "Type", "DossierRef"], [], [], false⟩
        0 2 "").data.getD 0 []).getD 4 "" = "" :=
  C6_amended
    ⟨[["7", "1", "D1/f.txt", "stuk", "D1"]],
      ["id", "main_id", "Path in SIP", "Type", "DossierRef"], [], [], false⟩
    0 2 (by decide) (by decide) (by decide)

/-! ## Lemmas: rows, writes and the row skeleton -/

theorem Row.pathInSIP_set_ne (r : Row) (col : Nat) (v : String) (h : col ≠ 0) :
    (r.set col v).pathInSIP = r.pathInSIP := by
  unfold Row.set; split_ifs <;> first | rfl | omega

theorem Row.typ_set_ne (r : Row) (col : Nat) (v : String) (h : col ≠ 1) :
    (r.set col v).typ = r.typ := by
  unfold Row.set; split_ifs <;> first | rfl | omega

theorem Row.ref_set_ne (r : Row) (col : Nat) (v : String) (h : col ≠ 2) :
    (r.set col v).dossierRef = r.dossierRef := by
  unfold Row.set; split_ifs <;> first | rfl | omega

theorem Row.naam_set_ne (r : Row) (col : Nat) (v : String) (h : col ≠ 3) :
    (r.set col v).naam = r.naam := by
  unfold Row.set; split_ifs <;> first | rfl | omega

theorem Row.opening_set_ne' (r : Row) (col : Nat) (v : String) (h : col ≠ 4) :
    (r.set col v).openingsdatum = r.openingsdatum := by
  unfold Row.set; split_ifs <;> first | rfl | omega

theorem Row.closing_set_ne' (r : Row) (col : Nat) (v : String) (h : col ≠ 5) :
    (r.set col v).sluitingsdatum = r.sluitingsdatum := by
  unfold Row.set; split_ifs <;> first | rfl | omega

theorem Row.get_set_self (r : Row) (col : Nat) (v : String) (h : col < 6) :
    (r.set col v).get col = v := by
  interval_cases col <;> rfl

theorem Row.get_set_ne (r : Row) (col col' : Nat) (v : String) (h : col' ≠ col) :
    (r.set col v).get col' = r.get col' := by
  unfold Row.get
  split_ifs with h0 h1 h2 h3 h4 h5
  · exact Row.pathInSIP_set_ne r col v (fun hc => h (h0.trans hc.symm))
  · exact Row.typ_set_ne r col v (fun hc => h (h1.trans hc.symm))
  · exact Row.ref_set_ne r col v (fun hc => h (h2.trans hc.symm))
  · exact Row.naam_set_ne r col v (fun hc => h (h3.trans hc.symm))
  · exact Row.opening_set_ne' r col v (fun hc => h (h4.trans hc.symm))
  · exact Row.closing_set_ne' r col v (fun hc => h (h5.trans hc.symm))
  · rfl

theorem Row.typ_set (r : Row) (col : Nat) (v : String)
    (h : col = naamCol ∨ col = openingCol ∨ col = closingCol) : (r.set col v).typ = r.typ := by
  refine Row.typ_set_ne r col v ?_
  rcases h with h | h | h <;> subst h <;> simp [naamCol, openingCol, closingCol]

theorem Row.ref_set (r : Row) (col : Nat) (v : String)
    (h : col = naamCol ∨ col = openingCol ∨ col = closingCol) :
    (r.set col v).dossierRef = r.dossierRef := by
  refine Row.ref_set_ne r col v ?_
  rcases h with h | h | h <;> subst h <;> simp [naamCol, openingCol, closingCol]

theorem Row.opening_set_ne (r : Row) (col : Nat) (v : String) (h : col ≠ openingCol) :
    (r.set col v).openingsdatum = r.openingsdatum :=
  Row.opening_set_ne' r col v h

theorem Row.closing_set_ne (r : Row) (col : Nat) (v : String) (h : col ≠ closingCol) :
    (r.set col v).sluitingsdatum = r.sluitingsdatum :=
  Row.closing_set_ne' r col v h

theorem writeCell_length (s : ModelState) (i col : Nat) (v : String) :
    (writeCell s i col v).data.length = s.data.length := List.length_set ..

theorem writeCell_colors (s : ModelState) (i col : Nat) (v : String) :
    (writeCell s i col v).colors = s.colors := rfl

theorem writeCell_tooltips (s : ModelState) (i col : Nat) (v : String) :
    (writeCell s i col v).tooltips = s.tooltips := rfl

theorem writeCell_row_self (s : ModelState) (i col : Nat) (v : String)
    (h : i < s.data.length) : (writeCell s i col v).row i = (s.row i).set col v := by
  unfold writeCell ModelState.row
  dsimp only
  exact getD_set_self _ _ _ _ h

theorem writeCell_row_ne (s : ModelState) (i col : Nat) (v : String) (j : Nat) (h : j ≠ i) :
    (writeCell s i col v).row j = s.row j := by
  unfold writeCell ModelState.row
  dsimp only
  exact getD_set_ne _ _ _ _ _ h

theorem writeCell_oob (s : ModelState) (i col : Nat) (v : String)
    (h : ¬ i < s.data.length) : (writeCell s i col v).data = s.data := by
  unfold writeCell
  dsimp only
  exact List.set_eq_of_length_le (Nat.le_of_not_lt h)

theorem sameSkeleton_refl (s : ModelState) : sameSkeleton s s := ⟨rfl, fun _ => ⟨rfl, rfl⟩⟩

theorem sameSkeleton_trans {s t u : ModelState} (h1 : sameSkeleton s t)
    (h2 : sameSkeleton t u) : sameSkeleton s u := by
  obtain ⟨hl1, hp1⟩ := h1
  obtain ⟨hl2, hp2⟩ := h2
  exact ⟨hl2.trans hl1, fun i => ⟨(hp2 i).1.trans (hp1 i).1, (hp2 i).2.trans (hp1 i).2⟩⟩

theorem sameSkeleton_of_data_eq {s t : ModelState} (h : t.data = s.data) :
    sameSkeleton s t := by
  refine ⟨by rw [h], fun i => ?_⟩
  unfold ModelState.row
  rw [h]
  exact ⟨rfl, rfl⟩

theorem writeCell_skeleton (s : ModelState) (i col : Nat) (v : String)
    (hcol : col = naamCol ∨ col = openingCol ∨ col = closingCol) :
    sameSkeleton s (writeCell s i col v) := by
  by_cases hi : i < s.data.length
  · refine ⟨writeCell_length .., fun j => ?_⟩
    by_cases hj : j = i
    · subst hj
      rw [writeCell_row_self s j col v hi]
      exact ⟨Row.typ_set _ _ _ hcol, Row.ref_set _ _ _ hcol⟩
    · rw [writeCell_row_ne s i col v j hj]
      exact ⟨rfl, rfl⟩
  · exact sameSkeleton_of_data_eq (writeCell_oob s i col v hi)

/-! ## Lemmas: `findIdx?` and `findDossierRow` -/

theorem findIdx?_some_spec (p : Row → Bool) (l : List Row) :
    ∀ st j, List.findIdx? p l st = some j →
      st ≤ j ∧ j - st < l.length ∧ p (l.getD (j - st) defaultRow) = true := by
  induction l with
  | nil => intro st j h; simp [List.findIdx?] at h
  | cons x xs ih =>
    intro st j h
    rw [List.findIdx?_cons] at h
    by_cases hp : p x = true
    · rw [if_pos hp] at h
      injection h with h
      subst h
      exact ⟨Nat.le_refl _, by simp, by simpa using hp⟩
    · rw [if_neg hp] at h
      obtain ⟨h1, h2, h3⟩ := ih (st + 1) j h
      refine ⟨by omega, by simp; omega, ?_⟩
      have hd : j - st = (j - (st + 1)) + 1 := by omega
      rw [hd]
      simpa using h3

theorem findDossierRow_spec (s : ModelState) (ref : String) (j : Nat)
    (h : findDossierRow s ref = some j) :
    j < s.data.length ∧ (s.row j).typ = "dossier" ∧ (s.row j).dossierRef = ref := by
  obtain ⟨h1, h2, h3⟩ := findIdx?_some_spec _ s.data 0 j h
  rw [Nat.sub_zero] at h2 h3
  rw [Bool.and_eq_true, beq_iff_eq, beq_iff_eq] at h3
  exact ⟨h2, h3.1, h3.2⟩

theorem findIdx?_congr (p : Row → Bool) (l₁ l₂ : List Row) (hlen : l₁.length = l₂.length)
    (hp : ∀ i, i < l₁.length → p (l₁.getD i defaultRow) = p (l₂.getD i defaultRow)) :
    ∀ st, List.findIdx? p l₁ st = List.findIdx? p l₂ st := by
  induction l₁ generalizing l₂ with
  | nil =>
    cases l₂ with
    | nil => intro st; rfl
    | cons y ys => simp at hlen
  | cons x xs ih =>
    cases l₂ with
    | nil => simp at hlen
    | cons y ys =>
      intro st
      rw [List.findIdx?_cons, List.findIdx?_cons]
      have h0 : p x = p y := by simpa using hp 0 (by simp)
      rw [h0]
      by_cases hq : p y = true
      · rw [if_pos hq, if_pos hq]
      · rw [if_neg hq, if_neg hq]
        exact ih ys (by simpa using hlen)
          (fun i hi => by simpa using hp (i + 1) (by simpa using Nat.succ_lt_succ hi)) (st + 1)

/-- `findDossierRow` is determined by the row skeleton. -/
theorem findDossierRow_congr {s t : ModelState} (h : sameSkeleton s t) (ref : String) :
    findDossierRow t ref = findDossierRow s ref := by
  obtain ⟨hlen, hp⟩ := h
  unfold findDossierRow
  exact findIdx?_congr _ t.data s.data hlen
    (fun i hi => by
      have hpi := hp i
      unfold ModelState.row at hpi
      rw [hpi.1, hpi.2]) 0

/-! ## Lemmas: the layered checks — data, skeleton and counts -/

theorem dateDataCheckReval_data (cfg : Cfg) (s : ModelState) (value : String) (row col : Nat)
    (isStuk : Bool) : (dateDataCheckReval cfg s value row col isStuk).1.data = s.data :=
  dateDataCheckCore_data ..

theorem siblingReval_data (cfg : Cfg) (snap : Row) (s : ModelState) (row col : Nat)
    (isStuk : Bool) : (siblingReval cfg snap s row col isStuk).data = s.data := by
  unfold siblingReval
  split
  · exact dateDataCheckReval_data ..
  · split
    · exact dateDataCheckReval_data ..
    · rfl

theorem dateDataCheckDossier_data (cfg : Cfg) (s : ModelState) (value : String) (row col : Nat) :
    (dateDataCheckDossier cfg s value row col).1.data = s.data := by
  unfold dateDataCheckDossier
  dsimp only
  split
  · rw [siblingReval_data, dateDataCheckCore_data]
  · exact dateDataCheckCore_data ..

theorem dateDataCheckDossier_count_le (cfg : Cfg) (s : ModelState) (value : String)
    (row col : Nat) : (dateDataCheckDossier cfg s value row col).2.2 ≤ 2 := by
  unfold dateDataCheckDossier
  dsimp only
  split
  · exact Nat.le_refl 2
  · exact Nat.le_succ 1

theorem setDataDossierDate_data_cases (cfg : Cfg) (s : ModelState) (row col : Nat)
    (value : String) :
    (setDataDossierDate cfg s row col value).1.data = s.data ∨
    (setDataDossierDate cfg s row col value).1.data = (writeCell s row col value).data := by
  unfold setDataDossierDate
  dsimp only
  split
  · exact Or.inl rfl
  · exact Or.inr (dateDataCheckDossier_data ..)

theorem setDataDossierDate_row_ne (cfg : Cfg) (s : ModelState) (row col : Nat) (value : String)
    (j : Nat) (hj : j ≠ row) :
    (setDataDossierDate cfg s row col value).1.row j = s.row j := by
  rcases setDataDossierDate_data_cases cfg s row col value with h | h
  · unfold ModelState.row; rw [h]
  · unfold ModelState.row at *
    rw [h]
    exact getD_set_ne _ _ _ _ _ hj

theorem setDataDossierDate_skeleton (cfg : Cfg) (s : ModelState) (row col : Nat)
    (value : String) (hcol : col = naamCol ∨ col = openingCol ∨ col = closingCol) :
    sameSkeleton s (setDataDossierDate cfg s row col value).1 := by
  rcases setDataDossierDate_data_cases cfg s row col value with h | h
  · exact sameSkeleton_of_data_eq h
  · refine sameSkeleton_trans (writeCell_skeleton s row col value hcol)
      (sameSkeleton_of_data_eq ?_)
    rw [h]

theorem setDataDossierDate_count_le (cfg : Cfg) (s : ModelState) (row col : Nat)
    (value : String) : (setDataDossierDate cfg s row col value).2.2 ≤ 2 := by
  unfold setDataDossierDate
  dsimp only
  split
  · exact Nat.zero_le 2
  · exact dateDataCheckDossier_count_le ..

theorem updateDossierDateRange_some (cfg : Cfg) (s : ModelState) (ref : String) (col : Nat)
    (s1 : ModelState) (n : Nat) (h : updateDossierDateRange cfg s ref col = some (s1, n)) :
    ∃ drow, findDossierRow s ref = some drow ∧
      ((s1 = s ∧ n = 0) ∨
        (∃ v, s1 = (setDataDossierDate cfg s drow openingCol v).1 ∧
          n = (setDataDossierDate cfg s drow openingCol v).2.2) ∨
        (∃ v, s1 = (setDataDossierDate cfg s drow closingCol v).1 ∧
          n = (setDataDossierDate cfg s drow closingCol v).2.2)) := by
  unfold updateDossierDateRange at h
  cases hf : findDossierRow s ref with
  | none => rw [hf] at h; cases h
  | some drow =>
    rw [hf] at h
    dsimp only at h
    refine ⟨drow, rfl, ?_⟩
    split at h
    · split at h
      · injection h with h'
        exact Or.inl ⟨(congrArg Prod.fst h').symm, (congrArg Prod.snd h').symm⟩
      · injection h with h'
        exact Or.inr (Or.inl ⟨_, (congrArg Prod.fst h').symm, (congrArg Prod.snd h').symm⟩)
    · split at h
      · split at h
        · injection h with h'
          exact Or.inl ⟨(congrArg Prod.fst h').symm, (congrArg Prod.snd h').symm⟩
        · injection h with h'
          exact Or.inr (Or.inr ⟨_, (congrArg Prod.fst h').symm, (congrArg Prod.snd h').symm⟩)
      · injection h with h'
        exact Or.inl ⟨(congrArg Prod.fst h').symm, (congrArg Prod.snd h').symm⟩

theorem updateDossierDateRange_skeleton (cfg : Cfg) (s : ModelState) (ref : String) (col : Nat)
    (s1 : ModelState) (n : Nat) (h : updateDossierDateRange cfg s ref col = some (s1, n)) :
    sameSkeleton s s1 := by
  obtain ⟨drow, hf, hcase⟩ := updateDossierDateRange_some cfg s ref col s1 n h
  rcases hcase with ⟨h1, _⟩ | ⟨v, h1, _⟩ | ⟨v, h1, _⟩
  · subst h1; exact sameSkeleton_refl _
  · subst h1
    exact setDataDossierDate_skeleton cfg s drow openingCol v (Or.inr (Or.inl rfl))
  · subst h1
    exact setDataDossierDate_skeleton cfg s drow closingCol v (Or.inr (Or.inr rfl))

theorem updateDossierDateRange_row_ne (cfg : Cfg) (s : ModelState) (ref : String) (col : Nat)
    (s1 : ModelState) (n : Nat) (h : updateDossierDateRange cfg s ref col = some (s1, n))
    (j : Nat) (hj : ∀ drow, findDossierRow s ref = some drow → j ≠ drow) :
    s1.row j = s.row j := by
  obtain ⟨drow, hf, hcase⟩ := updateDossierDateRange_some cfg s ref col s1 n h
  rcases hcase with ⟨h1, _⟩ | ⟨v, h1, _⟩ | ⟨v, h1, _⟩
  · subst h1; rfl
  · subst h1; exact setDataDossierDate_row_ne cfg s drow openingCol v j (hj drow hf)
  · subst h1; exact setDataDossierDate_row_ne cfg s drow closingCol v j (hj drow hf)

theorem updateDossierDateRange_count_le (cfg : Cfg) (s : ModelState) (ref : String) (col : Nat)
    (s1 : ModelState) (n : Nat) (h : updateDossierDateRange cfg s ref col = some (s1, n)) :
    n ≤ 2 := by
  obtain ⟨drow, hf, hcase⟩ := updateDossierDateRange_some cfg s ref col s1 n h
  rcases hcase with ⟨_, h2⟩ | ⟨v, _, h2⟩ | ⟨v, _, h2⟩
  · omega
  · rw [h2]; exact setDataDossierDate_count_le ..
  · rw [h2]; exact setDataDossierDate_count_le ..

/-- The three return paths of the `stuk` date check. -/
theorem dateDataCheckStuk_cases (cfg : Cfg) (s : ModelState) (value : String) (row col : Nat)
    (s1 : ModelState) (b : Bool) (n : Nat)
    (h : dateDataCheckStuk cfg s value row col = some (s1, b, n)) :
    (value = "" ∧ s1 = unmarkBadCell s row col ∧ b = true ∧ n = 1) ∨
    (value ≠ "" ∧ (dateDataCheckCore cfg s value row col true).2 = false ∧
      s1 = (dateDataCheckCore cfg s value row col true).1 ∧ b = false ∧ n = 1) ∨
    (value ≠ "" ∧ (dateDataCheckCore cfg s value row col true).2 = true ∧
      ∃ s2 drow s3 n3,
        s2 = siblingReval cfg (s.row row) (dateDataCheckCore cfg s value row col true).1
          row col true ∧
        findDossierRow s2 (s.row row).dossierRef = some drow ∧
        updateDossierDateRange cfg s2 (s.row row).dossierRef col = some (s3, n3) ∧
        s1 = (dateDataCheckReval cfg
          (dateDataCheckReval cfg s3 (s2.row drow).openingsdatum drow openingCol false).1
          (s2.row drow).sluitingsdatum drow closingCol false).1 ∧
        b = true ∧ n = 4 + n3) := by
  unfold dateDataCheckStuk at h
  dsimp only at h
  split at h
  · rename_i hv
    injection h with h'
    exact Or.inl ⟨by simpa using hv, (congrArg Prod.fst h').symm,
      (congrArg (fun p => p.2.1) h').symm, (congrArg (fun p => p.2.2) h').symm⟩
  · rename_i hv
    split at h
    · rename_i hres
      injection h with h'
      refine Or.inr (Or.inl ⟨by simpa using hv, by simpa using hres,
        (congrArg Prod.fst h').symm, (congrArg (fun p => p.2.1) h').symm,
        (congrArg (fun p => p.2.2) h').symm⟩)
    · rename_i hres
      cases hfind : findDossierRow
          (siblingReval cfg (s.row row) (dateDataCheckCore cfg s value row col true).1
            row col true) (s.row row).dossierRef with
      | none => rw [hfind] at h; cases h
      | some drow =>
        rw [hfind] at h
        dsimp only at h
        cases hupd : updateDossierDateRange cfg
            (siblingReval cfg (s.row row) (dateDataCheckCore cfg s value row col true).1
              row col true) (s.row row).dossierRef col with
        | none => rw [hupd] at h; cases h
        | some s3n =>
          rw [hupd] at h
          dsimp only at h
          injection h with h'
          refine Or.inr (Or.inr ⟨by simpa using hv, by simpa using hres,
            _, drow, s3n.1, s3n.2, rfl, hfind, by rw [hupd],
            (congrArg Prod.fst h').symm, (congrArg (fun p => p.2.1) h').symm,
            (congrArg (fun p => p.2.2) h').symm⟩)

theorem dateDataCheckStuk_skeleton (cfg : Cfg) (s : ModelState) (value : String) (row col : Nat)
    (s1 : ModelState) (b : Bool) (n : Nat)
    (h : dateDataCheckStuk cfg s value row col = some (s1, b, n)) :
    sameSkeleton s s1 := by
  rcases dateDataCheckStuk_cases cfg s value row col s1 b n h with
    ⟨_, h1, _, _⟩ | ⟨_, _, h1, _, _⟩ | ⟨_, _, s2, drow, s3, n3, hs2, hfind, hupd, h1, _, _⟩
  · subst h1; exact sameSkeleton_of_data_eq rfl
  · subst h1; exact sameSkeleton_of_data_eq (dateDataCheckCore_data ..)
  · subst h1
    have hk1 : sameSkeleton s s2 := by
      rw [hs2]
      exact sameSkeleton_of_data_eq (by rw [siblingReval_data, dateDataCheckCore_data])
    have hk2 : sameSkeleton s2 s3 := updateDossierDateRange_skeleton cfg s2 _ col s3 n3 hupd
    refine sameSkeleton_trans (sameSkeleton_trans hk1 hk2) (sameSkeleton_of_data_eq ?_)
    rw [dateDataCheckReval_data, dateDataCheckReval_data]

theorem dateDataCheckStuk_count_le (cfg : Cfg) (s : ModelState) (value : String) (row col : Nat)
    (s1 : ModelState) (b : Bool) (n : Nat)
    (h : dateDataCheckStuk cfg s value row col = some (s1, b, n)) : n ≤ 6 := by
  rcases dateDataCheckStuk_cases cfg s value row col s1 b n h with
    ⟨_, _, _, h1⟩ | ⟨_, _, _, _, h1⟩ | ⟨_, _, s2, drow, s3, n3, hs2, hfind, hupd, _, _, h1⟩
  · omega
  · omega
  · have := updateDossierDateRange_count_le cfg s2 _ col s3 n3 hupd
    omega

/-- The `stuk` date check leaves every row that is not a dossier row — in
particular the edited `stuk` row itself and every other `stuk` row —
untouched in the DataFrame. -/
theorem dateDataCheckStuk_row_notdossier (cfg : Cfg) (s : ModelState) (value : String)
    (row col : Nat) (s1 : ModelState) (b : Bool) (n : Nat)
    (h : dateDataCheckStuk cfg s value row col = some (s1, b, n))
    (j : Nat) (hjtyp : (s.row j).typ ≠ "dossier") : s1.row j = s.row j := by
  rcases dateDataCheckStuk_cases cfg s value row col s1 b n h with
    ⟨_, h1, _, _⟩ | ⟨_, _, h1, _, _⟩ | ⟨_, _, s2, drow, s3, n3, hs2, hfind, hupd, h1, _, _⟩
  · subst h1; rfl
  · subst h1
    unfold ModelState.row
    rw [dateDataCheckCore_data]
  · subst h1
    have hs2data : s2.data = s.data := by
      rw [hs2, siblingReval_data, dateDataCheckCore_data]
    have hrow2 : ∀ i, s2.row i = s.row i := by
      intro i; unfold ModelState.row; rw [hs2data]
    have hjd : ∀ d, findDossierRow s2 (s.row row).dossierRef = some d → j ≠ d := by
      intro d hd hjd'
      have hspec := findDossierRow_spec s2 _ d hd
      rw [hrow2 d] at hspec
      rw [hjd'] at hjtyp
      exact hjtyp hspec.2.1
    have h3 : s3.row j = s2.row j :=
      updateDossierDateRange_row_ne cfg s2 _ col s3 n3 hupd j hjd
    unfold ModelState.row at *
    rw [dateDataCheckReval_data, dateDataCheckReval_data, h3, hs2data]

theorem nameDataCheck_data (s : ModelState) (value : String) (row col : Nat) :
    (nameDataCheck s value row col).1.data = s.data := by
  unfold nameDataCheck
  split
  · exact markBadCell_data ..
  · rfl

/-- The return paths of `setData`. -/
theorem setData_cases (cfg : Cfg) (s : ModelState) (row col : Nat) (value : String)
    (s' : ModelState) (b : Bool) (n : Nat) (h : setData cfg s row col value = some (s', b, n)) :
    (mapLookup s.colors (row, col) = some Color.YELLOW ∧ s' = s ∧ b = false ∧ n = 0) ∨
    (mapLookup s.colors (row, col) ≠ some Color.YELLOW ∧ b = true ∧
      ((col = naamCol ∧
          s' = (nameDataCheck (writeCell s row col value) value row col).1 ∧ n = 0) ∨
       ((col = openingCol ∨ col = closingCol) ∧
          ((writeCell s row col value).row row).typ = "stuk" ∧
          ∃ s1 vd n1,
            dateDataCheckStuk cfg (writeCell s row col value) value row col =
              some (s1, vd, n1) ∧
            ((vd = true ∧ ∃ s2 n2,
                updateDossierDateRange cfg s1 (s1.row row).dossierRef col = some (s2, n2) ∧
                s' = s2 ∧ n = n1 + n2) ∨
             (vd = false ∧ s' = s1 ∧ n = n1))) ∨
       ((col = openingCol ∨ col = closingCol) ∧
          ((writeCell s row col value).row row).typ ≠ "stuk" ∧
          s' = (dateDataCheckDossier cfg (writeCell s row col value) value row col).1 ∧
          n = (dateDataCheckDossier cfg (writeCell s row col value) value row col).2.2) ∨
       (col ≠ naamCol ∧ col ≠ openingCol ∧ col ≠ closingCol ∧
          s' = writeCell s row col value ∧ n = 0))) := by
  unfold setData at h
  split at h
  · rename_i hy
    injection h with h'
    exact Or.inl ⟨by simpa using hy, (congrArg Prod.fst h').symm,
      (congrArg (fun p => p.2.1) h').symm, (congrArg (fun p => p.2.2) h').symm⟩
  · rename_i hy
    dsimp only at h
    split at h
    · rename_i hnaam
      injection h with h'
      exact Or.inr ⟨by simpa using hy, (congrArg (fun p => p.2.1) h').symm,
        Or.inl ⟨by simpa using hnaam, (congrArg Prod.fst h').symm,
          (congrArg (fun p => p.2.2) h').symm⟩⟩
    · rename_i hnaam
      split at h
      · rename_i hdate
        split at h
        · rename_i hstuk
          cases hst : dateDataCheckStuk cfg (writeCell s row col value) value row col with
          | none => rw [hst] at h; cases h
          | some t =>
            obtain ⟨s1, vd, n1⟩ := t
            rw [hst] at h
            dsimp only at h
            cases vd with
            | true =>
              rw [if_pos rfl] at h
              cases hupd : updateDossierDateRange cfg s1 (s1.row row).dossierRef col with
              | none => rw [hupd] at h; cases h
              | some u =>
                obtain ⟨s2, n2⟩ := u
                rw [hupd] at h
                injection h with h'
                refine Or.inr ⟨by simpa using hy, (congrArg (fun p => p.2.1) h').symm,
                  Or.inr (Or.inl ⟨by simpa using hdate, by simpa using hstuk,
                    s1, true, n1, ⟨rfl, Or.inl ⟨rfl, s2, n2, hupd,
                      (congrArg Prod.fst h').symm, (congrArg (fun p => p.2.2) h').symm⟩⟩⟩)⟩
            | false =>
              rw [if_neg (by simp)] at h
              injection h with h'
              refine Or.inr ⟨by simpa using hy, (congrArg (fun p => p.2.1) h').symm,
                Or.inr (Or.inl ⟨by simpa using hdate, by simpa using hstuk,
                  s1, false, n1, ⟨rfl, Or.inr ⟨rfl, (congrArg Prod.fst h').symm,
                    (congrArg (fun p => p.2.2) h').symm⟩⟩⟩)⟩
        · rename_i hstuk
          injection h with h'
          refine Or.inr ⟨by simpa using hy, (congrArg (fun p => p.2.1) h').symm,
            Or.inr (Or.inr (Or.inl ⟨by simpa using hdate, by simpa using hstuk,
              (congrArg Prod.fst h').symm, (congrArg (fun p => p.2.2) h').symm⟩))⟩
      · rename_i hdate
        injection h with h'
        have hd : ¬ col = openingCol ∧ ¬ col = closingCol := by
          constructor <;> (intro hc; apply hdate; simp [hc])
        refine Or.inr ⟨by simpa using hy, (congrArg (fun p => p.2.1) h').symm,
          Or.inr (Or.inr (Or.inr ⟨by simpa using hnaam, hd.1, hd.2,
            (congrArg Prod.fst h').symm, (congrArg (fun p => p.2.2) h').symm⟩))⟩

/-- A `setData` edit of a name or date column keeps the row skeleton. -/
theorem setData_skeleton (cfg : Cfg) (s : ModelState) (row col : Nat) (value : String)
    (s' : ModelState) (b : Bool) (n : Nat) (h : setData cfg s row col value = some (s', b, n))
    (hcol : col = naamCol ∨ col = openingCol ∨ col = closingCol) :
    sameSkeleton s s' := by
  rcases setData_cases cfg s row col value s' b n h with
    ⟨_, h1, _, _⟩ | ⟨_, _, hbr⟩
  · subst h1; exact sameSkeleton_refl _
  · have hw : sameSkeleton s (writeCell s row col value) := writeCell_skeleton s row col value hcol
    rcases hbr with ⟨_, h1, _⟩ | ⟨_, _, s1, vd, n1, hst, hrest⟩ | ⟨_, _, h1, _⟩ |
      ⟨hc1, hc2, hc3, h1, _⟩
    · subst h1
      exact sameSkeleton_trans hw (sameSkeleton_of_data_eq (nameDataCheck_data ..))
    · have hk1 : sameSkeleton (writeCell s row col value) s1 :=
        dateDataCheckStuk_skeleton cfg _ value row col s1 vd n1 hst
      rcases hrest with ⟨_, s2, n2, hupd, h1, _⟩ | ⟨_, h1, _⟩
      · subst h1
        exact sameSkeleton_trans (sameSkeleton_trans hw hk1)
          (updateDossierDateRange_skeleton cfg s1 _ col s' n2 hupd)
      · subst h1
        exact sameSkeleton_trans hw hk1
    · subst h1
      exact sameSkeleton_trans hw (sameSkeleton_of_data_eq (dateDataCheckDossier_data ..))
    · rcases hcol with hc | hc | hc
      · exact absurd hc hc1
      · exact absurd hc hc2
      · exact absurd hc hc3

/-- One edit performs at most 8 cell checks. -/
theorem setData_count_le (cfg : Cfg) (s : ModelState) (row col : Nat) (value : String)
    (s' : ModelState) (b : Bool) (n : Nat) (h : setData cfg s row col value = some (s', b, n)) :
    n ≤ 8 := by
  rcases setData_cases cfg s row col value s' b n h with
    ⟨_, _, _, h1⟩ | ⟨_, _, hbr⟩
  · omega
  · rcases hbr with ⟨_, _, h1⟩ | ⟨_, _, s1, vd, n1, hst, hrest⟩ | ⟨_, _, _, h1⟩ |
      ⟨_, _, _, _, h1⟩
    · omega
    · have hn1 := dateDataCheckStuk_count_le cfg _ value row col s1 vd n1 hst
      rcases hrest with ⟨_, s2, n2, hupd, _, h1⟩ | ⟨_, _, h1⟩
      · have hn2 := updateDossierDateRange_count_le cfg s1 _ col s2 n2 hupd
        omega
      · omega
    · have := dateDataCheckDossier_count_le cfg (writeCell s row col value) value row col
      omega
    · omega

/-- A non-warning-blocked edit is never rejected. -/
theorem setData_true_of_not_yellow (cfg : Cfg) (s : ModelState) (row col : Nat) (value : String)
    (s' : ModelState) (b : Bool) (n : Nat) (h : setData cfg s row col value = some (s', b, n))
    (hny : mapLookup s.colors (row, col) ≠ some Color.YELLOW) : b = true := by
  rcases setData_cases cfg s row col value s' b n h with ⟨hy, _, _, _⟩ | ⟨_, hb, _⟩
  · exact absurd hy hny
  · exact hb

/-- A non-warning-blocked edit stores the new value at the edited cell. -/
theorem setData_stored (cfg : Cfg) (s : ModelState) (row col : Nat) (value : String)
    (s' : ModelState) (b : Bool) (n : Nat) (h : setData cfg s row col value = some (s', b, n))
    (hrow : row < s.data.length) (hcol : col < 6)
    (hny : mapLookup s.colors (row, col) ≠ some Color.YELLOW) :
    (s'.row row).get col = value := by
  have hwrote : ((writeCell s row col value).row row).get col = value := by
    rw [writeCell_row_self s row col value hrow]
    exact Row.get_set_self _ _ _ hcol
  rcases setData_cases cfg s row col value s' b n h with ⟨hy, _, _, _⟩ | ⟨_, _, hbr⟩
  · exact absurd hy hny
  · rcases hbr with ⟨_, h1, _⟩ | ⟨_, hstuk, s1, vd, n1, hst, hrest⟩ | ⟨_, _, h1, _⟩ |
      ⟨_, _, _, h1, _⟩
    · subst h1
      have hd : (nameDataCheck (writeCell s row col value) value row col).1.row row =
          (writeCell s row col value).row row := by
        unfold ModelState.row
        rw [nameDataCheck_data]
      rw [hd]
      exact hwrote
    · have hpres : s1.row row = (writeCell s row col value).row row :=
        dateDataCheckStuk_row_notdossier cfg _ value row col s1 vd n1 hst row
          (by rw [hstuk]; decide)
      rcases hrest with ⟨_, s2, n2, hupd, h1, _⟩ | ⟨_, h1, _⟩
      · subst h1
        have hk1 : sameSkeleton (writeCell s row col value) s1 :=
          dateDataCheckStuk_skeleton cfg _ value row col s1 vd n1 hst
        have hjd : ∀ d, findDossierRow s1 (s1.row row).dossierRef = some d → row ≠ d := by
          intro d hd hrd
          have hspec := findDossierRow_spec s1 _ d hd
          rw [← hrd] at hspec
          rw [hpres, hstuk] at hspec
          exact absurd hspec.2.1 (by decide)
        have hpres2 : s'.row row = s1.row row :=
          updateDossierDateRange_row_ne cfg s1 _ col s' n2 hupd row hjd
        rw [hpres2, hpres]
        exact hwrote
      · subst h1
        rw [hpres]
        exact hwrote
    · subst h1
      have hd : (dateDataCheckDossier cfg (writeCell s row col value) value row col).1.row row =
          (writeCell s row col value).row row := by
        unfold ModelState.row
        rw [dateDataCheckDossier_data]
      rw [hd]
      exact hwrote
    · subst h1
      exact hwrote

/-! ## Lemmas: tooltip messages and the cross-check -/

theorem dateInvalidCheck_enum (cfg : Cfg) (d : PyDate) (t : String)
    (h : dateInvalidCheck cfg d = some t) :
    t = msgFuture ∨ t = msgBeforeStart ∨ t = msgAfterEnd := by
  unfold dateInvalidCheck at h
  split at h
  · exact Or.inl (Option.some.inj h).symm
  · split at h
    · exact Or.inr (Or.inl (Option.some.inj h).symm)
    · split at h
      · exact Or.inr (Or.inr (Option.some.inj h).symm)
      · cases h

/-- Unless both stored date fields of the row are non-empty and the
stored closing string is lexicographically smaller than the stored
opening string, the core never writes the cross-check error pair on the
row: any cross-pair tooltip found afterwards was already there. -/
theorem dateDataCheckCore_cross_preserve (cfg : Cfg) (s : ModelState) (value : String)
    (row col : Nat) (isStuk : Bool)
    (hnc : ¬ ((s.row row).openingsdatum ≠ "" ∧ (s.row row).sluitingsdatum ≠ "" ∧
      strLtB (s.row row).sluitingsdatum (s.row row).openingsdatum = true)) :
    (mapLookup (dateDataCheckCore cfg s value row col isStuk).1.tooltips (row, openingCol) =
        some msgOpenAfterClose →
      mapLookup s.tooltips (row, openingCol) = some msgOpenAfterClose) ∧
    (mapLookup (dateDataCheckCore cfg s value row col isStuk).1.tooltips (row, closingCol) =
        some msgCloseBeforeOpen →
      mapLookup s.tooltips (row, closingCol) = some msgCloseBeforeOpen) := by
  have hmark : ∀ t, t ≠ msgOpenAfterClose → t ≠ msgCloseBeforeOpen → ∀ c,
      (mapLookup (markBadCell s row c Color.RED (some t)).tooltips (row, openingCol) =
          some msgOpenAfterClose →
        mapLookup s.tooltips (row, openingCol) = some msgOpenAfterClose) ∧
      (mapLookup (markBadCell s row c Color.RED (some t)).tooltips (row, closingCol) =
          some msgCloseBeforeOpen →
        mapLookup s.tooltips (row, closingCol) = some msgCloseBeforeOpen) := by
    intro t hto htc c
    constructor
    · intro hl
      by_cases hk : ((row, openingCol) : Nat × Nat) = (row, c)
      · rw [hk, markBadCell_tooltips_self] at hl
        exact absurd (Option.some.inj hl) hto
      · rwa [markBadCell_tooltips_ne _ _ _ _ _ _ hk] at hl
    · intro hl
      by_cases hk : ((row, closingCol) : Nat × Nat) = (row, c)
      · rw [hk, markBadCell_tooltips_self] at hl
        exact absurd (Option.some.inj hl) htc
      · rwa [markBadCell_tooltips_ne _ _ _ _ _ _ hk] at hl
  have hunmark : ∀ c,
      (mapLookup (unmarkBadCell s row c).tooltips (row, openingCol) =
          some msgOpenAfterClose →
        mapLookup s.tooltips (row, openingCol) = some msgOpenAfterClose) ∧
      (mapLookup (unmarkBadCell s row c).tooltips (row, closingCol) =
          some msgCloseBeforeOpen →
        mapLookup s.tooltips (row, closingCol) = some msgCloseBeforeOpen) := by
    intro c
    constructor
    · intro hl
      by_cases hk : ((row, openingCol) : Nat × Nat) = (row, c)
      · rw [hk, unmarkBadCell_tooltips_self] at hl
        cases hl
      · rwa [unmarkBadCell_tooltips_ne _ _ _ _ hk] at hl
    · intro hl
      by_cases hk : ((row, closingCol) : Nat × Nat) = (row, c)
      · rw [hk, unmarkBadCell_tooltips_self] at hl
        cases hl
      · rwa [unmarkBadCell_tooltips_ne _ _ _ _ hk] at hl
  unfold dateDataCheckCore
  dsimp only
  split
  · exact hunmark col
  · split
    · exact hmark msgFormat (by decide) (by decide) col
    · rename_i date heq
      split
      · rename_i tip htip
        rcases dateInvalidCheck_enum cfg date tip htip with ht | ht | ht <;> subst ht
        · exact hmark msgFuture (by decide) (by decide) col
        · exact hmark msgBeforeStart (by decide) (by decide) col
        · exact hmark msgAfterEnd (by decide) (by decide) col
      · split
        · rename_i hcond
          rw [Bool.and_eq_true, Bool.and_eq_true, bne_iff_ne, bne_iff_ne] at hcond
          exact absurd ⟨hcond.1.1, hcond.1.2, hcond.2⟩ hnc
        · split
          · split
            · exact hmark msgDossierOpening (by decide) (by decide) col
            · split
              · exact hmark msgDossierClosing (by decide) (by decide) col
              · exact hunmark col
          · exact hunmark col

/-! ## Lemmas: annotation frames through the layers -/

theorem row_eq_of_data_eq {s t : ModelState} (h : t.data = s.data) (i : Nat) :
    t.row i = s.row i := by
  unfold ModelState.row
  rw [h]

theorem annotEqAt_refl (s : ModelState) (k : Nat × Nat) : annotEqAt s s k := ⟨rfl, rfl⟩

theorem annotEqAt_trans {s t u : ModelState} {k : Nat × Nat} (h1 : annotEqAt s t k)
    (h2 : annotEqAt t u k) : annotEqAt s u k :=
  ⟨h2.1.trans h1.1, h2.2.trans h1.2⟩

theorem dateDataCheckCore_annotEqAt (cfg : Cfg) (s : ModelState) (value : String)
    (row col : Nat) (isStuk : Bool) (k : Nat × Nat) (h1 : k ≠ (row, col))
    (h2 : k ≠ (row, openingCol)) (h3 : k ≠ (row, closingCol)) :
    annotEqAt s (dateDataCheckCore cfg s value row col isStuk).1 k :=
  dateDataCheckCore_frame cfg s value row col isStuk k h1 h2 h3

theorem siblingReval_annotEqAt (cfg : Cfg) (snap : Row) (s : ModelState) (row col : Nat)
    (isStuk : Bool) (k : Nat × Nat) (h2 : k ≠ (row, openingCol)) (h3 : k ≠ (row, closingCol)) :
    annotEqAt s (siblingReval cfg snap s row col isStuk) k := by
  unfold siblingReval
  split
  · exact dateDataCheckCore_annotEqAt cfg s _ row closingCol isStuk k h3 h2 h3
  · split
    · exact dateDataCheckCore_annotEqAt cfg s _ row openingCol isStuk k h2 h2 h3
    · exact annotEqAt_refl s k

theorem dateDataCheckDossier_annotEqAt (cfg : Cfg) (s : ModelState) (value : String)
    (row col : Nat) (k : Nat × Nat) (h1 : k ≠ (row, col)) (h2 : k ≠ (row, openingCol))
    (h3 : k ≠ (row, closingCol)) :
    annotEqAt s (dateDataCheckDossier cfg s value row col).1 k := by
  unfold dateDataCheckDossier
  dsimp only
  split
  · exact annotEqAt_trans (dateDataCheckCore_annotEqAt cfg s value row col false k h1 h2 h3)
      (siblingReval_annotEqAt cfg _ _ row col false k h2 h3)
  · exact dateDataCheckCore_annotEqAt cfg s value row col false k h1 h2 h3

theorem setDataDossierDate_annotEqAt (cfg : Cfg) (s : ModelState) (row col : Nat)
    (value : String) (k : Nat × Nat) (h1 : k ≠ (row, col)) (h2 : k ≠ (row, openingCol))
    (h3 : k ≠ (row, closingCol)) :
    annotEqAt s (setDataDossierDate cfg s row col value).1 k := by
  unfold setDataDossierDate
  dsimp only
  split
  · exact annotEqAt_refl s k
  · have hw : annotEqAt s (writeCell s row col value) k := ⟨rfl, rfl⟩
    exact annotEqAt_trans hw (dateDataCheckDossier_annotEqAt cfg _ value row col k h1 h2 h3)

theorem updateDossierDateRange_annotEqAt (cfg : Cfg) (s : ModelState) (ref : String)
    (col : Nat) (s1 : ModelState) (n : Nat)
    (h : updateDossierDateRange cfg s ref col = some (s1, n)) (k : Nat × Nat)
    (hk : ∀ drow, findDossierRow s ref = some drow →
      k ≠ (drow, openingCol) ∧ k ≠ (drow, closingCol)) :
    annotEqAt s s1 k := by
  obtain ⟨drow, hf, hcase⟩ := updateDossierDateRange_some cfg s ref col s1 n h
  obtain ⟨hko, hkc⟩ := hk drow hf
  rcases hcase with ⟨h1, _⟩ | ⟨v, h1, _⟩ | ⟨v, h1, _⟩
  · subst h1; exact annotEqAt_refl _ k
  · subst h1; exact setDataDossierDate_annotEqAt cfg s drow openingCol v k hko hko hkc
  · subst h1; exact setDataDossierDate_annotEqAt cfg s drow closingCol v k hkc hko hkc

/-- The cross-pair preservation of `dateDataCheckCore_cross_preserve`
lifted through the whole `stuk` date check: when the edited row's stored
dates do not trip the cross condition, no new cross-pair tooltip appears
on that row. -/
theorem dateDataCheckStuk_cross_preserve (cfg : Cfg) (s : ModelState) (value : String)
    (row col : Nat) (s1 : ModelState) (b : Bool) (n : Nat)
    (h : dateDataCheckStuk cfg s value row col = some (s1, b, n))
    (hnc : ¬ ((s.row row).openingsdatum ≠ "" ∧ (s.row row).sluitingsdatum ≠ "" ∧
      strLtB (s.row row).sluitingsdatum (s.row row).openingsdatum = true))
    (hrowtyp : (s.row row).typ ≠ "dossier") :
    (mapLookup s1.tooltips (row, openingCol) = some msgOpenAfterClose →
      mapLookup s.tooltips (row, openingCol) = some msgOpenAfterClose) ∧
    (mapLookup s1.tooltips (row, closingCol) = some msgCloseBeforeOpen →
      mapLookup s.tooltips (row, closingCol) = some msgCloseBeforeOpen) := by
  rcases dateDataCheckStuk_cases cfg s value row col s1 b n h with
    ⟨_, h1, _, _⟩ | ⟨_, _, h1, _, _⟩ | ⟨_, _, s2, drow, s3, n3, hs2, hfind, hupd, h1, _, _⟩
  · subst h1
    constructor
    · intro hl
      by_cases hk : ((row, openingCol) : Nat × Nat) = (row, col)
      · rw [hk, unmarkBadCell_tooltips_self] at hl; cases hl
      · rwa [unmarkBadCell_tooltips_ne _ _ _ _ hk] at hl
    · intro hl
      by_cases hk : ((row, closingCol) : Nat × Nat) = (row, col)
      · rw [hk, unmarkBadCell_tooltips_self] at hl; cases hl
      · rwa [unmarkBadCell_tooltips_ne _ _ _ _ hk] at hl
  · subst h1
    exact dateDataCheckCore_cross_preserve cfg s value row col true hnc
  · subst h1
    have hccore := dateDataCheckCore_cross_preserve cfg s value row col true hnc
    have hcoredata : (dateDataCheckCore cfg s value row col true).1.data = s.data :=
      dateDataCheckCore_data ..
    have hs2data : s2.data = s.data := by rw [hs2, siblingReval_data, hcoredata]
    have hnc2 : ¬ (((dateDataCheckCore cfg s value row col true).1.row row).openingsdatum ≠ ""
        ∧ ((dateDataCheckCore cfg s value row col true).1.row row).sluitingsdatum ≠ "" ∧
        strLtB ((dateDataCheckCore cfg s value row col true).1.row row).sluitingsdatum
          ((dateDataCheckCore cfg s value row col true).1.row row).openingsdatum = true) := by
      rw [row_eq_of_data_eq hcoredata row]
      exact hnc
    have hsib : ∀ c b', (mapLookup (siblingReval cfg (s.row row)
        (dateDataCheckCore cfg s value row col true).1 row c b').tooltips (row, openingCol) =
          some msgOpenAfterClose →
        mapLookup (dateDataCheckCore cfg s value row col true).1.tooltips (row, openingCol) =
          some msgOpenAfterClose) ∧
        (mapLookup (siblingReval cfg (s.row row)
          (dateDataCheckCore cfg s value row col true).1 row c b').tooltips (row, closingCol) =
            some msgCloseBeforeOpen →
          mapLookup (dateDataCheckCore cfg s value row col true).1.tooltips (row, closingCol) =
            some msgCloseBeforeOpen) := by
      intro c b'
      unfold siblingReval
      split
      · exact dateDataCheckCore_cross_preserve cfg _ _ row closingCol b' hnc2
      · split
        · exact dateDataCheckCore_cross_preserve cfg _ _ row openingCol b' hnc2
        · exact ⟨fun hl => hl, fun hl => hl⟩
    have hrowne : ∀ d, findDossierRow s2 (s.row row).dossierRef = some d →
        ((row : Nat), openingCol) ≠ (d, openingCol) ∧
        ((row : Nat), openingCol) ≠ (d, closingCol) ∧
        ((row : Nat), closingCol) ≠ (d, openingCol) ∧
        ((row : Nat), closingCol) ≠ (d, closingCol) := by
      intro d hd
      have hspec := findDossierRow_spec s2 _ d hd
      rw [row_eq_of_data_eq hs2data d] at hspec
      have hne : row ≠ d := by
        intro hre
        rw [← hre] at hspec
        exact hrowtyp hspec.2.1
      refine ⟨?_, ?_, ?_, ?_⟩ <;> (intro hc; exact hne (congrArg Prod.fst hc))
    obtain ⟨hd1, hd2, hd3, hd4⟩ := hrowne drow hfind
    have hupd_frame_o : annotEqAt s2 s3 (row, openingCol) :=
      updateDossierDateRange_annotEqAt cfg s2 _ col s3 n3 hupd (row, openingCol)
        (fun d hd => ⟨(hrowne d hd).1, (hrowne d hd).2.1⟩)
    have hupd_frame_c : annotEqAt s2 s3 (row, closingCol) :=
      updateDossierDateRange_annotEqAt cfg s2 _ col s3 n3 hupd (row, closingCol)
        (fun d hd => ⟨(hrowne d hd).2.2.1, (hrowne d hd).2.2.2⟩)
    have hrev_o : annotEqAt s3 (dateDataCheckReval cfg
        (dateDataCheckReval cfg s3 (s2.row drow).openingsdatum drow openingCol false).1
        (s2.row drow).sluitingsdatum drow closingCol false).1 (row, openingCol) :=
      annotEqAt_trans
        (dateDataCheckCore_annotEqAt cfg s3 _ drow openingCol false _ hd1 hd1 hd2)
        (dateDataCheckCore_annotEqAt cfg _ _ drow closingCol false _ hd2 hd1 hd2)
    have hrev_c : annotEqAt s3 (dateDataCheckReval cfg
        (dateDataCheckReval cfg s3 (s2.row drow).openingsdatum drow openingCol false).1
        (s2.row drow).sluitingsdatum drow closingCol false).1 (row, closingCol) :=
      annotEqAt_trans
        (dateDataCheckCore_annotEqAt cfg s3 _ drow openingCol false _ hd3 hd3 hd4)
        (dateDataCheckCore_annotEqAt cfg _ _ drow closingCol false _ hd4 hd3 hd4)
    constructor
    · intro hl
      rw [hrev_o.2, hupd_frame_o.2] at hl
      rw [hs2] at hl
      exact hccore.1 ((hsib col true).1 hl)
    · intro hl
      rw [hrev_c.2, hupd_frame_c.2] at hl
      rw [hs2] at hl
      exact hccore.2 ((hsib col true).2 hl)

theorem dateDataCheckDossier_cross_preserve (cfg : Cfg) (s : ModelState) (value : String)
    (row col : Nat)
    (hnc : ¬ ((s.row row).openingsdatum ≠ "" ∧ (s.row row).sluitingsdatum ≠ "" ∧
      strLtB (s.row row).sluitingsdatum (s.row row).openingsdatum = true)) :
    (mapLookup (dateDataCheckDossier cfg s value row col).1.tooltips (row, openingCol) =
        some msgOpenAfterClose →
      mapLookup s.tooltips (row, openingCol) = some msgOpenAfterClose) ∧
    (mapLookup (dateDataCheckDossier cfg s value row col).1.tooltips (row, closingCol) =
        some msgCloseBeforeOpen →
      mapLookup s.tooltips (row, closingCol) = some msgCloseBeforeOpen) := by
  have hccore := dateDataCheckCore_cross_preserve cfg s value row col false hnc
  have hcoredata : (dateDataCheckCore cfg s value row col false).1.data = s.data :=
    dateDataCheckCore_data ..
  have hnc2 : ¬ (((dateDataCheckCore cfg s value row col false).1.row row).openingsdatum ≠ ""
      ∧ ((dateDataCheckCore cfg s value row col false).1.row row).sluitingsdatum ≠ "" ∧
      strLtB ((dateDataCheckCore cfg s value row col false).1.row row).sluitingsdatum
        ((dateDataCheckCore cfg s value row col false).1.row row).openingsdatum = true) := by
    rw [row_eq_of_data_eq hcoredata row]
    exact hnc
  unfold dateDataCheckDossier
  dsimp only
  split
  · unfold siblingReval
    split
    · exact ⟨fun hl => hccore.1
        ((dateDataCheckCore_cross_preserve cfg _ _ row closingCol false hnc2).1 hl),
        fun hl => hccore.2
          ((dateDataCheckCore_cross_preserve cfg _ _ row closingCol false hnc2).2 hl)⟩
    · split
      · exact ⟨fun hl => hccore.1
          ((dateDataCheckCore_cross_preserve cfg _ _ row openingCol false hnc2).1 hl),
          fun hl => hccore.2
            ((dateDataCheckCore_cross_preserve cfg _ _ row openingCol false hnc2).2 hl)⟩
      · exact hccore
  · exact hccore

/-! ## Claim C9 -/

/-- C9: (i) a `set_cell` date edit on a row whose stored opening or
closing date (after the write) is empty never produces the
opening-cannot-be-after-closing error pair on that row — the same-row
cross-check is evaluated only when both fields are non-empty; (ii) the
cross-check compares the raw stored strings lexicographically, not the
parsed dates: with both fields non-empty and a parsed, in-range value,
the pair is marked exactly when the stored closing string is
lexicographically below the stored opening string. -/
theorem C9_cross_check_empty_and_lexicographic (cfg : Cfg) (s : ModelState) (row col : Nat)
    (value : String) :
    ((col = openingCol ∨ col = closingCol) →
      (((writeCell s row col value).row row).openingsdatum = "" ∨
        ((writeCell s row col value).row row).sluitingsdatum = "") →
      ∀ s' b n, setData cfg s row col value = some (s', b, n) →
        (mapLookup s'.tooltips (row, openingCol) = some msgOpenAfterClose →
          mapLookup s.tooltips (row, openingCol) = some msgOpenAfterClose) ∧
        (mapLookup s'.tooltips (row, closingCol) = some msgCloseBeforeOpen →
          mapLookup s.tooltips (row, closingCol) = some msgCloseBeforeOpen)) ∧
    (∀ isStuk d, (s.row row).openingsdatum ≠ "" → (s.row row).sluitingsdatum ≠ "" →
      properDateFormat value = some d → dateInvalidCheck cfg d = none →
      strLtB (s.row row).sluitingsdatum (s.row row).openingsdatum = true →
      dateDataCheckCore cfg s value row col isStuk =
        (markBadCell (markBadCell s row openingCol Color.RED (some msgOpenAfterClose))
          row closingCol Color.RED (some msgCloseBeforeOpen), false)) ∧
    (∀ isStuk, strLtB (s.row row).sluitingsdatum (s.row row).openingsdatum = false →
      (mapLookup (dateDataCheckCore cfg s value row col isStuk).1.tooltips
          (row, openingCol) = some msgOpenAfterClose →
        mapLookup s.tooltips (row, openingCol) = some msgOpenAfterClose) ∧
      (mapLookup (dateDataCheckCore cfg s value row col isStuk).1.tooltips
          (row, closingCol) = some msgCloseBeforeOpen →
        mapLookup s.tooltips (row, closingCol) = some msgCloseBeforeOpen)) := by
  refine ⟨?_, ?_, ?_⟩
  · intro hcol hempty s' b n h
    have hnc0 : ¬ (((writeCell s row col value).row row).openingsdatum ≠ "" ∧
        ((writeCell s row col value).row row).sluitingsdatum ≠ "" ∧
        strLtB ((writeCell s row col value).row row).sluitingsdatum
          ((writeCell s row col value).row row).openingsdatum = true) := by
      rcases hempty with he | he
      · exact fun hc => hc.1 he
      · exact fun hc => hc.2.1 he
    have htw : (writeCell s row col value).tooltips = s.tooltips := rfl
    rcases setData_cases cfg s row col value s' b n h with
      ⟨_, h1, _, _⟩ | ⟨_, _, hbr⟩
    · subst h1; exact ⟨fun hl => hl, fun hl => hl⟩
    · rcases hbr with ⟨hc, _, _⟩ | ⟨_, hstuk, s1, vd, n1, hst, hrest⟩ | ⟨_, _, h1, _⟩ |
        ⟨_, hc1, hc2, _, _⟩
      · rcases hcol with hcc | hcc <;> (rw [hc] at hcc; exact absurd hcc (by decide))
      · have hrowtyp : ((writeCell s row col value).row row).typ ≠ "dossier" := by
          rw [hstuk]; decide
        have hpre := dateDataCheckStuk_cross_preserve cfg _ value row col s1 vd n1 hst hnc0
          hrowtyp
        rcases hrest with ⟨_, s2, n2, hupd, h1, _⟩ | ⟨_, h1, _⟩
        · subst h1
          have hk1 : sameSkeleton (writeCell s row col value) s1 :=
            dateDataCheckStuk_skeleton cfg _ value row col s1 vd n1 hst
          have hrowne : ∀ d, findDossierRow s1 (s1.row row).dossierRef = some d → row ≠ d := by
            intro d hd hrd
            have hspec := findDossierRow_spec s1 _ d hd
            rw [← hrd] at hspec
            have := (hk1.2 row).1
            rw [hspec.2.1] at this
            exact hrowtyp this.symm
          have hfo : annotEqAt s1 s' (row, openingCol) :=
            updateDossierDateRange_annotEqAt cfg s1 _ col s' n2 hupd (row, openingCol)
              (fun d hd => ⟨fun hc => hrowne d hd (congrArg Prod.fst hc),
                fun hc => hrowne d hd (congrArg Prod.fst hc)⟩)
          have hfc : annotEqAt s1 s' (row, closingCol) :=
            updateDossierDateRange_annotEqAt cfg s1 _ col s' n2 hupd (row, closingCol)
              (fun d hd => ⟨fun hc => hrowne d hd (congrArg Prod.fst hc),
                fun hc => hrowne d hd (congrArg Prod.fst hc)⟩)
          refine ⟨fun hl => ?_, fun hl => ?_⟩
          · rw [hfo.2] at hl
            have := hpre.1 hl
            rwa [htw] at this
          · rw [hfc.2] at hl
            have := hpre.2 hl
            rwa [htw] at this
        · subst h1
          refine ⟨fun hl => ?_, fun hl => ?_⟩
          · have := hpre.1 hl
            rwa [htw] at this
          · have := hpre.2 hl
            rwa [htw] at this
      · subst h1
        have hpre := dateDataCheckDossier_cross_preserve cfg _ value row col hnc0
        refine ⟨fun hl => ?_, fun hl => ?_⟩
        · have := hpre.1 hl
          rwa [htw] at this
        · have := hpre.2 hl
          rwa [htw] at this
      · rcases hcol with hcc | hcc
        · exact absurd hcc hc1
        · exact absurd hcc hc2
  · intro isStuk d hop hcl hparse hvalid hlt
    have hvne : (value == "") = false := by
      have : value ≠ "" := by
        intro hveq
        rw [hveq] at hparse
        cases hparse
      simpa using this
    unfold dateDataCheckCore
    rw [hvne, Bool.and_false]
    rw [if_neg (by simp)]
    rw [hparse]
    dsimp only
    rw [hvalid]
    dsimp only
    rw [if_pos (by simp [bne_iff_ne]; exact ⟨⟨hop, hcl⟩, hlt⟩)]
  · intro isStuk hnlt
    exact dateDataCheckCore_cross_preserve cfg s value row col isStuk
      (fun hc => by rw [hc.2.2] at hnlt; cases hnlt)

/-! ## Claim C2 -/

/-- C2: a validation call flagged as a re-evaluation performs no
dossier-date overwrite (it never touches the DataFrame) and no further
cascade (annotation changes are confined to the two date cells of the
checked row), and a full `setData` edit performs at most 8
`_date_data_check` invocations in total: propagation is O(1) per edit and
the mutual dossier/stuk triggering cannot recurse. -/
theorem C2_reval_no_cascade_bounded (cfg : Cfg) (s : ModelState) (value : String)
    (row col : Nat) (isStuk : Bool) :
    (dateDataCheckReval cfg s value row col isStuk).1.data = s.data ∧
    (∀ k : Nat × Nat, k ≠ (row, col) → k ≠ (row, openingCol) → k ≠ (row, closingCol) →
      mapLookup (dateDataCheckReval cfg s value row col isStuk).1.colors k =
        mapLookup s.colors k ∧
      mapLookup (dateDataCheckReval cfg s value row col isStuk).1.tooltips k =
        mapLookup s.tooltips k) ∧
    (∀ s' b n, setData cfg s row col value = some (s', b, n) → n ≤ 8) := by
  refine ⟨dateDataCheckReval_data .., ?_, ?_⟩
  · intro k h1 h2 h3
    exact dateDataCheckCore_frame cfg s value row col isStuk k h1 h2 h3
  · intro s' b n h
    exact setData_count_le cfg s row col value s' b n h

/-! ## Claim C4 -/

/-- C4: on an existing record, a recognised validated column and a cell
that is not warning-marked, invalid business data never raises and never
rejects the write: `setData` returns normally with `True`, the new value
is stored in the record set (and no other cell of the DataFrame changes),
and the invalidity is recorded solely as an error annotation on the
edited cell. -/
theorem C4_invalid_is_annotation_only (cfg : Cfg) (s : ModelState) (row col : Nat)
    (value : String) (hrow : row < s.data.length)
    (hny : mapLookup s.colors (row, col) ≠ some Color.YELLOW)
    (hinv : businessInvalid cfg s row col value) :
    ∃ s' n, setData cfg s row col value = some (s', true, n) ∧
      (s'.row row).get col = value ∧
      s'.data = (writeCell s row col value).data ∧
      mapLookup s'.colors (row, col) = some Color.RED := by
  have hnyb : (mapLookup s.colors (row, col) == some Color.YELLOW) = false := by
    simpa using hny
  rcases hinv with ⟨hc, hv, htyp⟩ | ⟨hc, hcore⟩
  · subst hc
    subst hv
    have hsd : setData cfg s row naamCol "" =
        some (markBadCell (writeCell s row naamCol "") row naamCol Color.RED (some msgNaam),
          true, 0) := by
      unfold setData
      rw [hnyb]
      rw [if_neg (by simp)]
      dsimp only
      rw [if_pos (show (naamCol == naamCol) = true from rfl)]
      unfold nameDataCheck
      rw [if_pos (by simp [htyp])]
    refine ⟨_, 0, hsd, ?_, markBadCell_data .., ?_⟩
    · have hd : (markBadCell (writeCell s row naamCol "") row naamCol Color.RED
          (some msgNaam)).row row = (writeCell s row naamCol "").row row :=
        row_eq_of_data_eq (markBadCell_data ..) row
      rw [hd, writeCell_row_self s row naamCol "" hrow]
      exact Row.get_set_self _ _ _ (by decide)
    · exact markBadCell_colors_self ..
  · have hcolnat : col < 6 := by
      rcases hc with h | h <;> (subst h; decide)
    have hcnaam : (col == naamCol) = false := by
      rcases hc with h | h <;> (subst h; decide)
    have hcdate : (col == openingCol || col == closingCol) = true := by
      rcases hc with h | h <;> (subst h; decide)
    cases htyp : (((writeCell s row col value).row row).typ == "stuk") with
    | true =>
      rw [htyp] at hcore
      have hvne : (value == "") = false := by
        by_cases hveq : value = ""
        · subst hveq
          have hcontra : (dateDataCheckCore cfg (writeCell s row col "") "" row col true).2 =
              true := by
            unfold dateDataCheckCore
            rw [if_pos (by decide)]
          rw [hcontra] at hcore
          cases hcore
        · simpa using hveq
      have hstuk_eq : dateDataCheckStuk cfg (writeCell s row col value) value row col =
          some ((dateDataCheckCore cfg (writeCell s row col value) value row col true).1,
            false, 1) := by
        unfold dateDataCheckStuk
        dsimp only
        rw [hvne]
        rw [if_neg (by simp)]
        rw [if_pos (by rw [hcore]; rfl)]
      have hsd : setData cfg s row col value =
          some ((dateDataCheckCore cfg (writeCell s row col value) value row col true).1,
            true, 1) := by
        unfold setData
        rw [hnyb]
        rw [if_neg (by simp)]
        dsimp only
        rw [hcnaam]
        rw [if_neg (by simp)]
        rw [if_pos hcdate]
        rw [htyp]
        rw [if_pos rfl, hstuk_eq]
        dsimp only
        rw [if_neg (by simp)]
      refine ⟨_, 1, hsd, ?_, dateDataCheckCore_data .., ?_⟩
      · rw [row_eq_of_data_eq (dateDataCheckCore_data ..) row,
          writeCell_row_self s row col value hrow]
        exact Row.get_set_self _ _ _ hcolnat
      · exact dateDataCheckCore_false_red cfg _ value row col true hc hcore
    | false =>
      rw [htyp] at hcore
      have hdoss_eq : dateDataCheckDossier cfg (writeCell s row col value) value row col =
          ((dateDataCheckCore cfg (writeCell s row col value) value row col false).1,
            false, 1) := by
        unfold dateDataCheckDossier
        dsimp only
        rw [if_neg (by rw [hcore]; simp)]
      have hsd : setData cfg s row col value =
          some ((dateDataCheckCore cfg (writeCell s row col value) value row col false).1,
            true, 1) := by
        unfold setData
        rw [hnyb]
        rw [if_neg (by simp)]
        dsimp only
        rw [hcnaam]
        rw [if_neg (by simp)]
        rw [if_pos hcdate]
        rw [htyp]
        rw [if_neg (by simp), hdoss_eq]
      refine ⟨_, 1, hsd, ?_, dateDataCheckCore_data .., ?_⟩
      · rw [row_eq_of_data_eq (dateDataCheckCore_data ..) row,
          writeCell_row_self s row col value hrow]
        exact Row.get_set_self _ _ _ hcolnat
      · exact dateDataCheckCore_false_red cfg _ value row col false hc hcore

/-! ## Claim C5 -/

/-- C5: a warning-marked (YELLOW) cell makes `setData` reject the edit and
leave the entire state unchanged, while a cell carrying an error (RED)
annotation is not read-only: the edit is accepted (returns `True`) and
the new value is stored. -/
theorem C5_warning_blocks_error_does_not (cfg : Cfg) (s : ModelState) (row col : Nat)
    (value : String) (hrow : row < s.data.length) (hcol : col < 6) :
    (mapLookup s.colors (row, col) = some Color.YELLOW →
      setData cfg s row col value = some (s, false, 0)) ∧
    (mapLookup s.colors (row, col) = some Color.RED →
      ∀ s' b n, setData cfg s row col value = some (s', b, n) →
        b = true ∧ (s'.row row).get col = value) := by
  constructor
  · intro hy
    unfold setData
    rw [if_pos (by simp [hy])]
  · intro hr s' b n h
    have hny : mapLookup s.colors (row, col) ≠ some Color.YELLOW := by
      rw [hr]; decide
    exact ⟨setData_true_of_not_yellow cfg s row col value s' b n h hny,
      setData_stored cfg s row col value s' b n h hrow hcol hny⟩

/-! ## Witnesses for the claim theorems of C2, C4, C5, C9 -/

theorem C2_witness :
    (dateDataCheckReval cfgFix stateFix1 "x" 0 4 true).1.data = stateFix1.data ∧
    mapLookup (dateDataCheckReval cfgFix stateFix1 "x" 0 4 true).1.colors (1, 0) =
      mapLookup stateFix1.colors (1, 0) ∧
    (1 : Nat) ≤ 8 := by
  have h := C2_reval_no_cascade_bounded cfgFix stateFix1 "x" 0 4 true
  exact ⟨h.1, (h.2.1 (1, 0) (by decide) (by decide) (by decide)).1,
    h.2.2 stateFix1x true 1 rfl⟩

theorem C4_witness :
    ∃ s' n, setData cfgFix stateFix1 0 4 "x" = some (s', true, n) ∧
      (s'.row 0).get 4 = "x" ∧
      s'.data = (writeCell stateFix1 0 4 "x").data ∧
      mapLookup s'.colors (0, 4) = some Color.RED :=
  C4_invalid_is_annotation_only cfgFix stateFix1 0 4 "x" (by decide) (by decide)
    (Or.inr ⟨Or.inl rfl, by decide⟩)

theorem C5_witness :
    setData cfgFix stateFixY 0 4 "v" = some (stateFixY, false, 0) ∧
    true = true ∧ (stateFixRv.row 0).get 4 = "v" :=
  ⟨(C5_warning_blocks_error_does_not cfgFix stateFixY 0 4 "v" (by decide) (by decide)).1 rfl,
   (C5_warning_blocks_error_does_not cfgFix stateFixR 0 4 "v" (by decide) (by decide)).2 rfl
     stateFixRv true 1 rfl⟩

theorem C9_witness :
    ((mapLookup stateFix2e.tooltips (1, openingCol) = some msgOpenAfterClose →
        mapLookup stateFix2.tooltips (1, openingCol) = some msgOpenAfterClose) ∧
      (mapLookup stateFix2e.tooltips (1, closingCol) = some msgCloseBeforeOpen →
        mapLookup stateFix2.tooltips (1, closingCol) = some msgCloseBeforeOpen)) ∧
    dateDataCheckCore cfgFix stateFixL "2020-03-01" 0 closingCol false =
      (markBadCell (markBadCell stateFixL 0 openingCol Color.RED (some msgOpenAfterClose))
        0 closingCol Color.RED (some msgCloseBeforeOpen), false) :=
  ⟨(C9_cross_check_empty_and_lexicographic cfgFix stateFix2 1 openingCol "2020-01-01").1
      (Or.inl rfl) (Or.inr rfl) stateFix2e true 4 rfl,
   (C9_cross_check_empty_and_lexicographic cfgFix stateFixL 0 closingCol "2020-03-01").2.1
      false ⟨2020, 3, 1⟩ (by decide) (by decide) rfl rfl rfl⟩

/-! ## Lemmas: candidate-list stability and the dossier-range envelope -/

theorem filter_set_of_false {α : Type} (p : α → Bool) :
    ∀ (l : List α) (i : Nat) (a : α),
    (∀ x, l[i]? = some x → p x = false) → p a = false →
    (l.set i a).filter p = l.filter p := by
  intro l
  induction l with
  | nil => intro i a _ _; rfl
  | cons x xs ih =>
    intro i a h1 h2
    cases i with
    | zero =>
      have hx : p x = false := h1 x (by simp)
      show List.filter p (a :: xs) = List.filter p (x :: xs)
      rw [List.filter_cons, List.filter_cons, hx, h2]
      rfl
    | succ j =>
      show List.filter p (x :: xs.set j a) = List.filter p (x :: xs)
      rw [List.filter_cons, List.filter_cons,
        ih j a (fun y hy => h1 y (by simpa using hy)) h2]

theorem getDateValues_data_congr (cfg : Cfg) {s t : ModelState} (h : t.data = s.data)
    (ref : String) (col : Nat) :
    getDateValuesForDossierRef cfg t ref col = getDateValuesForDossierRef cfg s ref col := by
  unfold getDateValuesForDossierRef
  rw [h]

theorem getDateValues_writeCell (cfg : Cfg) (s : ModelState) (i c : Nat) (v : String)
    (ref : String) (col : Nat) (hc : c = naamCol ∨ c = openingCol ∨ c = closingCol)
    (ht : (s.row i).typ ≠ "stuk") :
    getDateValuesForDossierRef cfg (writeCell s i c v) ref col =
      getDateValuesForDossierRef cfg s ref col := by
  have htb : ((s.row i).typ == "stuk") = false := by simpa using ht
  unfold getDateValuesForDossierRef writeCell
  dsimp only
  rw [filter_set_of_false _ s.data i _ ?hx ?ha]
  case hx =>
    intro x hx
    have hxr : s.row i = x := by
      unfold ModelState.row
      rw [List.getD_eq_getElem?_getD, hx]
      rfl
    rw [← hxr, htb, Bool.false_and]
  case ha =>
    rw [Row.typ_set _ _ _ hc, htb, Bool.false_and]

/-- After a successful `_update_dossier_date_range` for the opening column,
the matched dossier row satisfies the lexicographic opening envelope over
the valid stuk opening values, unless the dossier cell was warning-marked
(read-only) and the write was rejected. -/
theorem updateDossierDateRange_env_opening (cfg : Cfg) (s : ModelState) (ref : String)
    (s1 : ModelState) (n : Nat)
    (h : updateDossierDateRange cfg s ref openingCol = some (s1, n)) :
    ∃ drow, findDossierRow s ref = some drow ∧
      ((getDateValuesForDossierRef cfg s1 ref openingCol).isEmpty = true ∨
       strLtB (listMinD (getDateValuesForDossierRef cfg s1 ref openingCol))
         ((s1.row drow).openingsdatum) = false ∨
       mapLookup s1.colors (drow, openingCol) = some Color.YELLOW) := by
  unfold updateDossierDateRange at h
  cases hf : findDossierRow s ref with
  | none => rw [hf] at h; cases h
  | some drow =>
    rw [hf] at h
    dsimp only at h
    obtain ⟨hdlt, hdtyp, hdref⟩ := findDossierRow_spec s ref drow hf
    refine ⟨drow, rfl, ?_⟩
    split at h
    · rename_i hcond
      split at h
      · rename_i hg
        injection h with h'
        have hs1 : s1 = s := (congrArg Prod.fst h').symm
        subst hs1
        exact Or.inr (Or.inl (strLtB_asymm hg))
      · rename_i hg
        injection h with h'
        have hs1 : s1 = (setDataDossierDate cfg s drow openingCol
            (listMinD (getDateValuesForDossierRef cfg s ref openingCol))).1 :=
          (congrArg Prod.fst h').symm
        unfold setDataDossierDate at hs1
        dsimp only at hs1
        split at hs1
        · rename_i hyel
          subst hs1
          exact Or.inr (Or.inr (by simpa using hyel))
        · have hdata : s1.data = (writeCell s drow openingCol
              (listMinD (getDateValuesForDossierRef cfg s ref openingCol))).data := by
            rw [hs1]; exact dateDataCheckDossier_data ..
          have hl : getDateValuesForDossierRef cfg s1 ref openingCol =
              getDateValuesForDossierRef cfg s ref openingCol := by
            rw [getDateValues_data_congr cfg hdata ref openingCol]
            exact getDateValues_writeCell cfg s drow openingCol _ ref openingCol
              (Or.inr (Or.inl rfl)) (by rw [hdtyp]; decide)
          have hrw : s1.row drow = (s.row drow).set openingCol
              (listMinD (getDateValuesForDossierRef cfg s ref openingCol)) := by
            rw [row_eq_of_data_eq hdata drow]
            exact writeCell_row_self s drow openingCol _ hdlt
          refine Or.inr (Or.inl ?_)
          rw [hl, hrw]
          exact strLtB_irrefl _
    · rename_i hcond
      have hemp : (getDateValuesForDossierRef cfg s ref openingCol).isEmpty = true := by
        simpa using hcond
      split at h
      · rename_i hcond2
        rw [show (openingCol == closingCol) = false from rfl, Bool.false_and] at hcond2
        cases hcond2
      · injection h with h'
        have hs1 : s1 = s := (congrArg Prod.fst h').symm
        subst hs1
        exact Or.inl hemp

/-- The closing-column analogue of `updateDossierDateRange_env_opening`. -/
theorem updateDossierDateRange_env_closing (cfg : Cfg) (s : ModelState) (ref : String)
    (s1 : ModelState) (n : Nat)
    (h : updateDossierDateRange cfg s ref closingCol = some (s1, n)) :
    ∃ drow, findDossierRow s ref = some drow ∧
      ((getDateValuesForDossierRef cfg s1 ref closingCol).isEmpty = true ∨
       strLtB ((s1.row drow).sluitingsdatum)
         (listMaxD (getDateValuesForDossierRef cfg s1 ref closingCol)) = false ∨
       mapLookup s1.colors (drow, closingCol) = some Color.YELLOW) := by
  unfold updateDossierDateRange at h
  cases hf : findDossierRow s ref with
  | none => rw [hf] at h; cases h
  | some drow =>
    rw [hf] at h
    dsimp only at h
    obtain ⟨hdlt, hdtyp, hdref⟩ := findDossierRow_spec s ref drow hf
    refine ⟨drow, rfl, ?_⟩
    split at h
    · rename_i hcond
      rw [show (closingCol == openingCol) = false from rfl, Bool.false_and] at hcond
      cases hcond
    · split at h
      · rename_i hcond
        split at h
        · rename_i hg
          injection h with h'
          have hs1 : s1 = s := (congrArg Prod.fst h').symm
          subst hs1
          exact Or.inr (Or.inl (strLtB_asymm hg))
        · rename_i hg
          injection h with h'
          have hs1 : s1 = (setDataDossierDate cfg s drow closingCol
              (listMaxD (getDateValuesForDossierRef cfg s ref closingCol))).1 :=
            (congrArg Prod.fst h').symm
          unfold setDataDossierDate at hs1
          dsimp only at hs1
          split at hs1
          · rename_i hyel
            subst hs1
            exact Or.inr (Or.inr (by simpa using hyel))
          · have hdata : s1.data = (writeCell s drow closingCol
                (listMaxD (getDateValuesForDossierRef cfg s ref closingCol))).data := by
              rw [hs1]; exact dateDataCheckDossier_data ..
            have hl : getDateValuesForDossierRef cfg s1 ref closingCol =
                getDateValuesForDossierRef cfg s ref closingCol := by
              rw [getDateValues_data_congr cfg hdata ref closingCol]
              exact getDateValues_writeCell cfg s drow closingCol _ ref closingCol
                (Or.inr (Or.inr rfl)) (by rw [hdtyp]; decide)
            have hrw : s1.row drow = (s.row drow).set closingCol
                (listMaxD (getDateValuesForDossierRef cfg s ref closingCol)) := by
              rw [row_eq_of_data_eq hdata drow]
              exact writeCell_row_self s drow closingCol _ hdlt
            refine Or.inr (Or.inl ?_)
            rw [hl, hrw]
            exact strLtB_irrefl _
      · rename_i hcond
        have hemp : (getDateValuesForDossierRef cfg s ref closingCol).isEmpty = true := by
          simpa using hcond
        injection h with h'
        have hs1 : s1 = s := (congrArg Prod.fst h').symm
        subst hs1
        exact Or.inl hemp

/-! ## Claim C1 -/

/-- C1 counterexample: the claimed invariant reads the envelope in calendar
date order.  Editing the stuk opening date of `stateFixC1` to the value
2020-1-5, which `strptime` accepts (month and day need not be zero-padded),
yields a state in which the stuk opening date (5 January 2020) lies strictly
before the dossier opening date (1 May 2020) as a parsed date, the stuk value
is a valid candidate, and no cell anywhere carries any annotation: the
propagation skipped the overwrite because the comparison at
pandasmodel.py line 267 is a lexicographic string comparison under which
2020-05-01 is smaller than 2020-1-5. -/
theorem C1_counterexample :
    setData cfgFix stateFixC1 1 openingCol "2020-1-5" = some (stateFixC1e, true, 4) ∧
    getDateValuesForDossierRef cfgFix stateFixC1e "D1" openingCol = ["2020-1-5"] ∧
    (stateFixC1e.row 0).typ = "dossier" ∧
    (stateFixC1e.row 0).dossierRef = "D1" ∧
    (stateFixC1e.row 1).typ = "stuk" ∧
    properDateFormat "2020-1-5" = some ⟨2020, 1, 5⟩ ∧
    properDateFormat ((stateFixC1e.row 0).openingsdatum) = some ⟨2020, 5, 1⟩ ∧
    PyDate.ltb ⟨2020, 1, 5⟩ ⟨2020, 5, 1⟩ = true ∧
    stateFixC1e.colors = [] := by
  refine ⟨?_, ?_, ?_, ?_, ?_, ?_, ?_, ?_, ?_⟩ <;> rfl

/-- C1 (amended): after each accepted `set_cell` edit of a date column on a
stuk row whose value is empty or passes the date checks, the dossier row
matched by the stuk's DossierRef satisfies the envelope of the edited
column with respect to the LEXICOGRAPHIC order on the raw date strings
(opening ≤ the minimum valid stuk opening, closing ≥ the maximum valid
stuk closing), or an annotation lies on that dossier date cell (a RED error
left by the re-evaluations, or the YELLOW warning that made the cell
read-only and blocked the overwrite). -/
theorem C1_amended (cfg : Cfg) (s : ModelState) (row col : Nat) (value : String)
    (s' : ModelState) (n : Nat)
    (hrow : row < s.data.length)
    (htyp : (s.row row).typ = "stuk")
    (hcol : col = openingCol ∨ col = closingCol)
    (hok : value = "" ∨
      (dateDataCheckCore cfg (writeCell s row col value) value row col true).2 = true)
    (hset : setData cfg s row col value = some (s', true, n)) :
    ∃ d, findDossierRow s' ((s'.row row).dossierRef) = some d ∧
      (col = openingCol →
        envOpenOK cfg s' d = true ∨ (mapLookup s'.colors (d, openingCol)).isSome = true) ∧
      (col = closingCol →
        envCloseOK cfg s' d = true ∨ (mapLookup s'.colors (d, closingCol)).isSome = true) := by
  have hwtyp : ((writeCell s row col value).row row).typ = "stuk" := by
    rw [writeCell_row_self s row col value hrow,
      Row.typ_set _ _ _ (Or.inr hcol)]
    exact htyp
  rcases setData_cases cfg s row col value s' true n hset with
    ⟨_, _, hb, _⟩ | ⟨hny, _, hbr⟩
  · exact absurd hb (by decide)
  · rcases hbr with ⟨hc, _, _⟩ | ⟨_, _, s1, vd, n1, hst, hrest⟩ | ⟨_, hnstuk, _, _⟩ |
      ⟨_, hc1, hc2, _, _⟩
    · rcases hcol with hcc | hcc <;> (rw [hcc] at hc; exact absurd hc (by decide))
    · rcases hrest with ⟨_, s2, n2, hupd, hs', _⟩ | ⟨hvd, _, _⟩
      · rw [hs']
        have hskel : sameSkeleton s1 s2 :=
          updateDossierDateRange_skeleton cfg s1 _ col s2 n2 hupd
        have hrefeq : (s2.row row).dossierRef = (s1.row row).dossierRef := (hskel.2 row).2
        rcases hcol with hcc | hcc
        · subst hcc
          obtain ⟨drow, hf, hconc⟩ :=
            updateDossierDateRange_env_opening cfg s1 _ s2 n2 hupd
          obtain ⟨hdlt, hdtyp, hdref⟩ := findDossierRow_spec s1 _ drow hf
          have hdref2 : (s2.row drow).dossierRef = (s1.row row).dossierRef := by
            rw [(hskel.2 drow).2]; exact hdref
          refine ⟨drow, ?_, fun _ => ?_, fun hcc => absurd hcc (by decide)⟩
          · rw [hrefeq, findDossierRow_congr hskel]
            exact hf
          · rcases hconc with hc | hc | hc
            · refine Or.inl ?_
              unfold envOpenOK
              dsimp only
              rw [hdref2, hc]
              rfl
            · refine Or.inl ?_
              unfold envOpenOK
              dsimp only
              rw [hdref2, hc]
              simp
            · exact Or.inr (by rw [hc]; rfl)
        · subst hcc
          obtain ⟨drow, hf, hconc⟩ :=
            updateDossierDateRange_env_closing cfg s1 _ s2 n2 hupd
          obtain ⟨hdlt, hdtyp, hdref⟩ := findDossierRow_spec s1 _ drow hf
          have hdref2 : (s2.row drow).dossierRef = (s1.row row).dossierRef := by
            rw [(hskel.2 drow).2]; exact hdref
          refine ⟨drow, ?_, fun hcc => absurd hcc (by decide), fun _ => ?_⟩
          · rw [hrefeq, findDossierRow_congr hskel]
            exact hf
          · rcases hconc with hc | hc | hc
            · refine Or.inl ?_
              unfold envCloseOK
              dsimp only
              rw [hdref2, hc]
              rfl
            · refine Or.inl ?_
              unfold envCloseOK
              dsimp only
              rw [hdref2, hc]
              simp
            · exact Or.inr (by rw [hc]; rfl)
      · rcases dateDataCheckStuk_cases cfg _ value row col s1 vd n1 hst with
          ⟨_, _, hb1, _⟩ | ⟨hvne, hcore, _, _, _⟩ | ⟨_, _, _, _, _, _, _, _, _, _, hb1, _⟩
        · rw [hb1] at hvd; cases hvd
        · rcases hok with hv | hcoret
          · exact absurd hv hvne
          · rw [hcoret] at hcore; cases hcore
        · rw [hb1] at hvd; cases hvd
    · exact absurd hwtyp hnstuk
    · rcases hcol with hcc | hcc
      · exact absurd hcc hc1
      · exact absurd hcc hc2

/-- Closed instantiation of `C1_amended` on the counterexample scenario: the
lexicographic envelope does hold there. -/
theorem C1_amended_witness :
    ∃ d, findDossierRow stateFixC1e ((stateFixC1e.row 1).dossierRef) = some d ∧
      (openingCol = openingCol →
        envOpenOK cfgFix stateFixC1e d = true ∨
          (mapLookup stateFixC1e.colors (d, openingCol)).isSome = true) ∧
      (openingCol = closingCol →
        envCloseOK cfgFix stateFixC1e d = true ∨
          (mapLookup stateFixC1e.colors (d, closingCol)).isSome = true) :=
  C1_amended cfgFix stateFixC1 1 openingCol "2020-1-5" stateFixC1e 4 (by decide) rfl
    (Or.inl rfl) (Or.inr rfl) rfl

/-! ## Two-run correspondence: machinery for the idempotence of `setData` -/

theorem Row.set_get (r : Row) (c : Nat) (h : c < 6) : r.set c (r.get c) = r := by
  interval_cases c <;> rfl

theorem list_set_getD_self {α : Type} (d : α) :
    ∀ (l : List α) (i : Nat), l.set i (l.getD i d) = l := by
  intro l
  induction l with
  | nil => intro i; rfl
  | cons x xs ih =>
    intro i
    cases i with
    | zero => rfl
    | succ j =>
      show x :: xs.set j (xs.getD j d) = x :: xs
      rw [ih j]

theorem writeCell_data_id (s : ModelState) (i c : Nat) (v : String)
    (hv : (s.row i).get c = v) (hc : c < 6) : (writeCell s i c v).data = s.data := by
  unfold writeCell
  dsimp only
  rw [← hv, Row.set_get _ _ hc]
  exact list_set_getD_self defaultRow s.data i



theorem runMatch_comp {s s1 s2 t t1 t2 : ModelState} (h1 : runMatch s s1 t t1)
    (h2 : runMatch s1 s2 t1 t2) : runMatch s s2 t t2 := by
  intro k
  rcases h2 k with hdet | ⟨hu1, hu2⟩
  · exact Or.inl hdet
  · rcases h1 k with hdet | ⟨hv1, hv2⟩
    · exact Or.inl ⟨hu1.1.trans (hdet.1.trans hu2.1.symm),
        hu1.2.trans (hdet.2.trans hu2.2.symm)⟩
    · exact Or.inr ⟨annotEqAt_trans hv1 hu1, annotEqAt_trans hv2 hu2⟩

theorem runMatch_id (s t : ModelState) : runMatch s s t t :=
  fun k => Or.inr ⟨annotEqAt_refl s k, annotEqAt_refl t k⟩

theorem runMatch_of_eq {s s1 t t1 : ModelState} (hs : s1 = s) (ht : t1 = t) :
    runMatch s s1 t t1 := by
  subst hs; subst ht; exact runMatch_id _ _

/-- From a matched pair of runs whose second run starts exactly where the
first ended, the two end states agree everywhere: idempotence. -/
theorem runMatch_idem {s0 s1 s0b s2 : ModelState} (h : runMatch s0 s1 s0b s2)
    (hb : ∀ k, annotEqAt s1 s0b k) : ∀ k, annotEqAt s1 s2 k := by
  intro k
  rcases h k with hdet | ⟨_, hu⟩
  · exact ⟨hdet.1.symm, hdet.2.symm⟩
  · exact ⟨hu.1.trans (hb k).1, hu.2.trans (hb k).2⟩

theorem markBadCell_match (s t : ModelState) (row col : Nat) (c : Color) (tip : String) :
    runMatch s (markBadCell s row col c (some tip)) t (markBadCell t row col c (some tip)) := by
  intro k
  by_cases hk : k = (row, col)
  · subst hk
    exact Or.inl ⟨by rw [markBadCell_colors_self, markBadCell_colors_self],
      by rw [markBadCell_tooltips_self, markBadCell_tooltips_self]⟩
  · exact Or.inr ⟨⟨markBadCell_colors_ne _ _ _ _ _ _ hk,
      markBadCell_tooltips_ne _ _ _ _ _ _ hk⟩,
      ⟨markBadCell_colors_ne _ _ _ _ _ _ hk,
        markBadCell_tooltips_ne _ _ _ _ _ _ hk⟩⟩

theorem unmarkBadCell_match (s t : ModelState) (row col : Nat) :
    runMatch s (unmarkBadCell s row col) t (unmarkBadCell t row col) := by
  intro k
  by_cases hk : k = (row, col)
  · subst hk
    exact Or.inl ⟨by rw [unmarkBadCell_colors_self, unmarkBadCell_colors_self],
      by rw [unmarkBadCell_tooltips_self, unmarkBadCell_tooltips_self]⟩
  · exact Or.inr ⟨⟨unmarkBadCell_colors_ne _ _ _ _ hk, unmarkBadCell_tooltips_ne _ _ _ _ hk⟩,
      ⟨unmarkBadCell_colors_ne _ _ _ _ hk, unmarkBadCell_tooltips_ne _ _ _ _ hk⟩⟩

theorem writeCell_match (s t : ModelState) (i c : Nat) (v : String) (i2 c2 : Nat)
    (v2 : String) : runMatch s (writeCell s i c v) t (writeCell t i2 c2 v2) :=
  fun _ => Or.inr ⟨⟨rfl, rfl⟩, ⟨rfl, rfl⟩⟩

/-- Membership in the candidate list implies the value parses and passes
the range check. -/
theorem getDateValues_mem_spec (cfg : Cfg) (s : ModelState) (ref : String) (col : Nat)
    (x : String) (hx : x ∈ getDateValuesForDossierRef cfg s ref col) :
    ∃ d, properDateFormat x = some d ∧ dateInvalidCheck cfg d = none := by
  unfold getDateValuesForDossierRef at hx
  have hp := List.of_mem_filter hx
  cases hpf : properDateFormat x with
  | none => rw [hpf] at hp; cases hp
  | some d =>
    rw [hpf] at hp
    dsimp only at hp
    exact ⟨d, rfl, Option.isNone_iff_eq_none.mp hp⟩

/-! ## The core check as a decision applied to the state -/



theorem dateDataCheckCore_decide_spec (cfg : Cfg) (s : ModelState) (value : String)
    (row col : Nat) (isStuk : Bool) :
    dateDataCheckCore cfg s value row col isStuk =
      (coreApply (coreDecide cfg (s.row row) value col isStuk
          (getDateValuesForDossierRef cfg s ((s.row row).dossierRef) openingCol)
          (getDateValuesForDossierRef cfg s ((s.row row).dossierRef) closingCol)).1
        s row col,
       (coreDecide cfg (s.row row) value col isStuk
          (getDateValuesForDossierRef cfg s ((s.row row).dossierRef) openingCol)
          (getDateValuesForDossierRef cfg s ((s.row row).dossierRef) closingCol)).2) := by
  unfold dateDataCheckCore coreDecide coreApply
  dsimp only
  split
  · rfl
  · split
    · rfl
    · split
      · rfl
      · split
        · rfl
        · split
          · split
            · rfl
            · split
              · rfl
              · rfl
          · rfl

/-- The decision is unchanged between two states whose checked row agrees,
provided (for non-stuk rows) the candidate lists also agree. -/
theorem coreDecide_congr (cfg : Cfg) (r : Row) (value : String) (col : Nat) (isStuk : Bool)
    (lo lc lo2 lc2 : List String) (hcand : isStuk = false → lo2 = lo ∧ lc2 = lc) :
    coreDecide cfg r value col isStuk lo2 lc2 = coreDecide cfg r value col isStuk lo lc := by
  cases isStuk with
  | false =>
    obtain ⟨h1, h2⟩ := hcand rfl
    rw [h1, h2]
  | true =>
    unfold coreDecide
    rfl

/-- Two-run correspondence for `coreApply` with the same outcome. -/
theorem coreApply_match (o : CoreOut) (s t : ModelState) (row col : Nat) :
    runMatch s (coreApply o s row col) t (coreApply o t row col) := by
  cases o with
  | unmark => exact unmarkBadCell_match s t row col
  | mark tip => exact markBadCell_match s t row col Color.RED tip
  | pair =>
    exact runMatch_comp (markBadCell_match s t row openingCol Color.RED msgOpenAfterClose)
      (markBadCell_match _ _ row closingCol Color.RED msgCloseBeforeOpen)

/-- `coreApply` always determines the annotation of the checked date cell:
after applying the same outcome on two states, that cell carries the same
annotation. -/
theorem coreApply_det_self (o : CoreOut) (s t : ModelState) (row col : Nat)
    (hcol : col = openingCol ∨ col = closingCol) :
    mapLookup (coreApply o s row col).colors (row, col) =
      mapLookup (coreApply o t row col).colors (row, col) ∧
    mapLookup (coreApply o s row col).tooltips (row, col) =
      mapLookup (coreApply o t row col).tooltips (row, col) := by
  cases o with
  | unmark =>
    dsimp only [coreApply]
    exact ⟨by rw [unmarkBadCell_colors_self, unmarkBadCell_colors_self],
      by rw [unmarkBadCell_tooltips_self, unmarkBadCell_tooltips_self]⟩
  | mark tip =>
    dsimp only [coreApply]
    exact ⟨by rw [markBadCell_colors_self, markBadCell_colors_self],
      by rw [markBadCell_tooltips_self, markBadCell_tooltips_self]⟩
  | pair =>
    dsimp only [coreApply]
    rcases hcol with hc | hc <;> subst hc
    · have hne : ((row : Nat), openingCol) ≠ (row, closingCol) := by
        intro hcc
        have hsnd : openingCol = closingCol := congrArg Prod.snd hcc
        exact absurd hsnd (by decide)
      constructor
      · rw [markBadCell_colors_ne _ _ _ _ _ _ hne,
          markBadCell_colors_ne _ _ _ _ _ _ hne,
          markBadCell_colors_self, markBadCell_colors_self]
      · rw [markBadCell_tooltips_ne _ _ _ _ _ _ hne,
          markBadCell_tooltips_ne _ _ _ _ _ _ hne,
          markBadCell_tooltips_self, markBadCell_tooltips_self]
    · exact ⟨by rw [markBadCell_colors_self, markBadCell_colors_self],
        by rw [markBadCell_tooltips_self, markBadCell_tooltips_self]⟩

/-- The color `coreApply` leaves on the checked cell is never YELLOW. -/
theorem coreApply_not_yellow (o : CoreOut) (s : ModelState) (row col : Nat)
    (hcol : col = openingCol ∨ col = closingCol) :
    mapLookup (coreApply o s row col).colors (row, col) ≠ some Color.YELLOW := by
  cases o with
  | unmark =>
    dsimp only [coreApply]
    rw [unmarkBadCell_colors_self]; exact fun hc => by cases hc
  | mark tip =>
    dsimp only [coreApply]
    rw [markBadCell_colors_self]; exact fun hc => by cases hc
  | pair =>
    dsimp only [coreApply]
    rcases hcol with hc | hc <;> subst hc
    · have hne : ((row : Nat), openingCol) ≠ (row, closingCol) := by
        intro hcc
        have hsnd : openingCol = closingCol := congrArg Prod.snd hcc
        exact absurd hsnd (by decide)
      rw [markBadCell_colors_ne _ _ _ _ _ _ hne, markBadCell_colors_self]
      exact fun hc => by cases hc
    · rw [markBadCell_colors_self]
      exact fun hc => by cases hc

/-! ## Two-run correspondence through the check layers -/

theorem dateDataCheckCore_decideAt (cfg : Cfg) (s : ModelState) (value : String)
    (row col : Nat) (isStuk : Bool) :
    dateDataCheckCore cfg s value row col isStuk =
      (coreApply (coreDecideAt cfg s value row col isStuk).1 s row col,
       (coreDecideAt cfg s value row col isStuk).2) :=
  dateDataCheckCore_decide_spec cfg s value row col isStuk

theorem coreDecideAt_data_congr (cfg : Cfg) {s t : ModelState} (value : String)
    (row col : Nat) (isStuk : Bool) (h : t.data = s.data) :
    coreDecideAt cfg t value row col isStuk = coreDecideAt cfg s value row col isStuk := by
  unfold coreDecideAt
  rw [row_eq_of_data_eq h row, getDateValues_data_congr cfg h, getDateValues_data_congr cfg h]

theorem coreDecideAt_stuk_congr (cfg : Cfg) {s t : ModelState} (value : String)
    (row col : Nat) (h : t.row row = s.row row) :
    coreDecideAt cfg t value row col true = coreDecideAt cfg s value row col true := by
  unfold coreDecideAt
  rw [h]
  exact coreDecide_congr cfg (s.row row) value col true _ _ _ _ (fun hc => by cases hc)

theorem dateDataCheckCore_match (cfg : Cfg) {s t : ModelState} (value : String)
    (row col : Nat) (isStuk : Bool)
    (hd : coreDecideAt cfg t value row col isStuk = coreDecideAt cfg s value row col isStuk) :
    (dateDataCheckCore cfg t value row col isStuk).2 =
      (dateDataCheckCore cfg s value row col isStuk).2 ∧
    runMatch s (dateDataCheckCore cfg s value row col isStuk).1
      t (dateDataCheckCore cfg t value row col isStuk).1 := by
  rw [dateDataCheckCore_decideAt, dateDataCheckCore_decideAt, hd]
  exact ⟨rfl, coreApply_match _ s t row col⟩

theorem dateDataCheckCore_det_self (cfg : Cfg) {s t : ModelState} (value : String)
    (row col : Nat) (isStuk : Bool)
    (hd : coreDecideAt cfg t value row col isStuk = coreDecideAt cfg s value row col isStuk)
    (hcol : col = openingCol ∨ col = closingCol) :
    annDetAt (dateDataCheckCore cfg s value row col isStuk).1
      (dateDataCheckCore cfg t value row col isStuk).1 (row, col) := by
  rw [dateDataCheckCore_decideAt, dateDataCheckCore_decideAt, hd]
  exact coreApply_det_self _ s t row col hcol

theorem annDetAt_after {s1 s2 t1 t2 : ModelState} {k : Nat × Nat}
    (h : annDetAt s1 t1 k) (hrm : runMatch s1 s2 t1 t2) : annDetAt s2 t2 k := by
  rcases hrm k with hdet | ⟨hu1, hu2⟩
  · exact hdet
  · exact ⟨hu1.1.trans (h.1.trans hu2.1.symm), hu1.2.trans (h.2.trans hu2.2.symm)⟩

theorem annDetAt_symm_goal {s t : ModelState} {k : Nat × Nat} (h : annDetAt s t k) :
    annotEqAt s t k := ⟨h.1.symm, h.2.symm⟩

theorem siblingReval_match (cfg : Cfg) (snap : Row) {s t : ModelState} (row col : Nat)
    (isStuk : Bool)
    (hd : ∀ c v, coreDecideAt cfg t v row c isStuk = coreDecideAt cfg s v row c isStuk) :
    runMatch s (siblingReval cfg snap s row col isStuk)
      t (siblingReval cfg snap t row col isStuk) := by
  unfold siblingReval dateDataCheckReval
  cases hc : (col == openingCol) with
  | true =>
    exact (dateDataCheckCore_match cfg snap.sluitingsdatum row closingCol isStuk
      (hd closingCol snap.sluitingsdatum)).2
  | false =>
    cases hc2 : (col == closingCol) with
    | true =>
      exact (dateDataCheckCore_match cfg snap.openingsdatum row openingCol isStuk
        (hd openingCol snap.openingsdatum)).2
    | false =>
      exact runMatch_id s t

theorem dateDataCheckDossier_match (cfg : Cfg) {s t : ModelState} (value : String)
    (row col : Nat) (hdata : t.data = s.data) :
    (dateDataCheckDossier cfg t value row col).2.1 =
      (dateDataCheckDossier cfg s value row col).2.1 ∧
    runMatch s (dateDataCheckDossier cfg s value row col).1
      t (dateDataCheckDossier cfg t value row col).1 := by
  have hd : coreDecideAt cfg t value row col false = coreDecideAt cfg s value row col false :=
    coreDecideAt_data_congr cfg value row col false hdata
  have hcm := dateDataCheckCore_match cfg value row col false hd
  have hd2 : ∀ c v, coreDecideAt cfg (dateDataCheckCore cfg t value row col false).1 v row c
      false = coreDecideAt cfg (dateDataCheckCore cfg s value row col false).1 v row c
        false := by
    intro c v
    refine coreDecideAt_data_congr cfg v row c false ?_
    rw [dateDataCheckCore_data, dateDataCheckCore_data, hdata]
  unfold dateDataCheckDossier
  dsimp only
  rw [hcm.1, row_eq_of_data_eq hdata row]
  cases hb : (dateDataCheckCore cfg s value row col false).2 with
  | true =>
    exact ⟨rfl, runMatch_comp hcm.2
      (siblingReval_match cfg (s.row row) row col false hd2)⟩
  | false =>
    exact ⟨rfl, hcm.2⟩

theorem writeCell_data_congr {s t : ModelState} (i c : Nat) (v : String)
    (hdata : t.data = s.data) : (writeCell t i c v).data = (writeCell s i c v).data := by
  unfold writeCell
  dsimp only
  rw [hdata, row_eq_of_data_eq hdata i]

theorem setDataDossierDate_match (cfg : Cfg) {s t : ModelState} (row col : Nat)
    (value : String) (hdata : t.data = s.data)
    (hyel : (mapLookup t.colors (row, col) == some Color.YELLOW) =
            (mapLookup s.colors (row, col) == some Color.YELLOW)) :
    (setDataDossierDate cfg t row col value).1.data =
      (setDataDossierDate cfg s row col value).1.data ∧
    runMatch s (setDataDossierDate cfg s row col value).1
      t (setDataDossierDate cfg t row col value).1 := by
  unfold setDataDossierDate
  dsimp only
  rw [hyel]
  cases hy : (mapLookup s.colors (row, col) == some Color.YELLOW) with
  | true => exact ⟨hdata, runMatch_id s t⟩
  | false =>
    have hwdata : (writeCell t row col value).data = (writeCell s row col value).data :=
      writeCell_data_congr row col value hdata
    have hdm := dateDataCheckDossier_match cfg value row col hwdata
    constructor
    · show (dateDataCheckDossier cfg (writeCell t row col value) value row col).1.data =
        (dateDataCheckDossier cfg (writeCell s row col value) value row col).1.data
      rw [dateDataCheckDossier_data, dateDataCheckDossier_data, hwdata]
    · show runMatch s (dateDataCheckDossier cfg (writeCell s row col value) value row col).1
        t (dateDataCheckDossier cfg (writeCell t row col value) value row col).1
      exact runMatch_comp (writeCell_match s t row col value row col value) hdm.2

theorem updateDossierDateRange_match (cfg : Cfg) {s t : ModelState} (ref : String)
    (col : Nat) {s1 : ModelState} {n : Nat}
    (h : updateDossierDateRange cfg s ref col = some (s1, n))
    (hdata : t.data = s.data)
    (hyel : ∀ drow, findDossierRow s ref = some drow →
      (mapLookup t.colors (drow, col) == some Color.YELLOW) =
      (mapLookup s.colors (drow, col) == some Color.YELLOW)) :
    ∃ t1 n2, updateDossierDateRange cfg t ref col = some (t1, n2) ∧
      t1.data = s1.data ∧ runMatch s s1 t t1 := by
  have hfind : findDossierRow t ref = findDossierRow s ref := by
    unfold findDossierRow; rw [hdata]
  unfold updateDossierDateRange at h ⊢
  rw [hfind]
  cases hf : findDossierRow s ref with
  | none => rw [hf] at h; cases h
  | some drow =>
    rw [hf] at h
    dsimp only at h ⊢
    rw [getDateValues_data_congr cfg hdata, getDateValues_data_congr cfg hdata,
      row_eq_of_data_eq hdata drow]
    split at h
    · rename_i hcond
      rw [if_pos hcond]
      split at h
      · rename_i hguard
        rw [if_pos hguard]
        injection h with h'
        have hs1 : s1 = s := (congrArg Prod.fst h').symm
        refine ⟨t, 0, rfl, ?_, ?_⟩
        · rw [hs1]; exact hdata
        · rw [hs1]; exact runMatch_id s t
      · rename_i hguard
        rw [if_neg hguard]
        injection h with h'
        have hs1 : s1 = (setDataDossierDate cfg s drow openingCol
            (listMinD (getDateValuesForDossierRef cfg s ref openingCol))).1 :=
          (congrArg Prod.fst h').symm
        have hceq : col = openingCol := by
          exact beq_iff_eq.mp ((Bool.and_eq_true _ _).mp hcond).1
        have hy2 := hyel drow hf
        rw [hceq] at hy2
        have hm := setDataDossierDate_match cfg drow openingCol
          (listMinD (getDateValuesForDossierRef cfg s ref openingCol)) hdata hy2
        refine ⟨_, _, rfl, ?_, ?_⟩
        · rw [hs1]; exact hm.1
        · rw [hs1]; exact hm.2
    · rename_i hcond
      rw [if_neg hcond]
      split at h
      · rename_i hcond2
        rw [if_pos hcond2]
        split at h
        · rename_i hguard
          rw [if_pos hguard]
          injection h with h'
          have hs1 : s1 = s := (congrArg Prod.fst h').symm
          refine ⟨t, 0, rfl, ?_, ?_⟩
          · rw [hs1]; exact hdata
          · rw [hs1]; exact runMatch_id s t
        · rename_i hguard
          rw [if_neg hguard]
          injection h with h'
          have hs1 : s1 = (setDataDossierDate cfg s drow closingCol
              (listMaxD (getDateValuesForDossierRef cfg s ref closingCol))).1 :=
            (congrArg Prod.fst h').symm
          have hceq : col = closingCol := by
            exact beq_iff_eq.mp ((Bool.and_eq_true _ _).mp hcond2).1
          have hy2 := hyel drow hf
          rw [hceq] at hy2
          have hm := setDataDossierDate_match cfg drow closingCol
            (listMaxD (getDateValuesForDossierRef cfg s ref closingCol)) hdata hy2
          refine ⟨_, _, rfl, ?_, ?_⟩
          · rw [hs1]; exact hm.1
          · rw [hs1]; exact hm.2
      · rename_i hcond2
        rw [if_neg hcond2]
        injection h with h'
        have hs1 : s1 = s := (congrArg Prod.fst h').symm
        refine ⟨t, 0, rfl, ?_, ?_⟩
        · rw [hs1]; exact hdata
        · rw [hs1]; exact runMatch_id s t

theorem dateDataCheckCore_not_yellow (cfg : Cfg) (s : ModelState) (value : String)
    (row col : Nat) (isStuk : Bool) (hcol : col = openingCol ∨ col = closingCol) :
    mapLookup (dateDataCheckCore cfg s value row col isStuk).1.colors (row, col) ≠
      some Color.YELLOW := by
  rw [dateDataCheckCore_decideAt]
  exact coreApply_not_yellow _ s row col hcol

theorem coreApply_pair_det (s t : ModelState) (row col : Nat) :
    annDetAt (coreApply CoreOut.pair s row col) (coreApply CoreOut.pair t row col)
      (row, openingCol) ∧
    annDetAt (coreApply CoreOut.pair s row col) (coreApply CoreOut.pair t row col)
      (row, closingCol) := by
  dsimp only [coreApply]
  have hne : ((row : Nat), openingCol) ≠ (row, closingCol) := by
    intro hcc
    have hsnd : openingCol = closingCol := congrArg Prod.snd hcc
    exact absurd hsnd (by decide)
  refine ⟨⟨?_, ?_⟩, ⟨?_, ?_⟩⟩
  · rw [markBadCell_colors_ne _ _ _ _ _ _ hne, markBadCell_colors_ne _ _ _ _ _ _ hne,
      markBadCell_colors_self, markBadCell_colors_self]
  · rw [markBadCell_tooltips_ne _ _ _ _ _ _ hne, markBadCell_tooltips_ne _ _ _ _ _ _ hne,
      markBadCell_tooltips_self, markBadCell_tooltips_self]
  · rw [markBadCell_colors_self, markBadCell_colors_self]
  · rw [markBadCell_tooltips_self, markBadCell_tooltips_self]

/-- The decision the core takes on a freshly written opening bound: since
the stored opening equals the written minimum of the valid candidates,
neither the format, the range, nor the dossier-envelope marks can fire —
only the cross-check pair or the unmark. -/
theorem coreDecide_written_opening (cfg : Cfg) (r : Row) (value : String)
    (lo lc : List String) (d : PyDate)
    (hp : properDateFormat value = some d) (hv : dateInvalidCheck cfg d = none)
    (hval : r.openingsdatum = value) (hmin : value = listMinD lo) :
    (coreDecide cfg r value openingCol false lo lc).1 = CoreOut.unmark ∨
    (coreDecide cfg r value openingCol false lo lc).1 = CoreOut.pair := by
  unfold coreDecide
  rw [Bool.false_and, if_neg (show ¬ ((false : Bool) = true) by simp)]
  rw [hp]
  dsimp only
  rw [hv]
  dsimp only
  split
  · exact Or.inr rfl
  · rw [show (!(false : Bool)) = true from rfl, if_pos rfl]
    rw [hval, hmin]
    rw [show (openingCol == openingCol) = true from rfl, Bool.true_and]
    rw [strLtB_irrefl, Bool.and_false, if_neg (show ¬ ((false : Bool) = true) by simp)]
    rw [show (openingCol == closingCol) = false from rfl, Bool.false_and, Bool.false_and,
      if_neg (show ¬ ((false : Bool) = true) by simp)]
    exact Or.inl rfl

/-- The closing-column analogue of `coreDecide_written_opening`. -/
theorem coreDecide_written_closing (cfg : Cfg) (r : Row) (value : String)
    (lo lc : List String) (d : PyDate)
    (hp : properDateFormat value = some d) (hv : dateInvalidCheck cfg d = none)
    (hval : r.sluitingsdatum = value) (hmax : value = listMaxD lc) :
    (coreDecide cfg r value closingCol false lo lc).1 = CoreOut.unmark ∨
    (coreDecide cfg r value closingCol false lo lc).1 = CoreOut.pair := by
  unfold coreDecide
  rw [Bool.false_and, if_neg (show ¬ ((false : Bool) = true) by simp)]
  rw [hp]
  dsimp only
  rw [hv]
  dsimp only
  split
  · exact Or.inr rfl
  · rw [show (!(false : Bool)) = true from rfl, if_pos rfl]
    rw [show (closingCol == openingCol) = false from rfl, Bool.false_and, Bool.false_and,
      if_neg (show ¬ ((false : Bool) = true) by simp)]
    rw [show (closingCol == closingCol) = true from rfl, Bool.true_and]
    rw [hval, hmax, strLtB_irrefl, Bool.and_false,
      if_neg (show ¬ ((false : Bool) = true) by simp)]
    exact Or.inl rfl

/-! ## Resolution of the dossier-range update and YELLOW-freeness helpers -/

theorem markBadCell_preserve_not_yellow (u : ModelState) (r c : Nat) (tip : Option String)
    (k : Nat × Nat) (h : mapLookup u.colors k ≠ some Color.YELLOW) :
    mapLookup (markBadCell u r c Color.RED tip).colors k ≠ some Color.YELLOW := by
  by_cases hk : k = (r, c)
  · subst hk
    rw [markBadCell_colors_self]
    exact fun hc => by cases hc
  · rw [markBadCell_colors_ne _ _ _ _ _ _ hk]
    exact h

theorem unmarkBadCell_preserve_not_yellow (u : ModelState) (r c : Nat) (k : Nat × Nat)
    (h : mapLookup u.colors k ≠ some Color.YELLOW) :
    mapLookup (unmarkBadCell u r c).colors k ≠ some Color.YELLOW := by
  by_cases hk : k = (r, c)
  · subst hk
    rw [unmarkBadCell_colors_self]
    exact fun hc => by cases hc
  · rw [unmarkBadCell_colors_ne _ _ _ _ hk]
    exact h

theorem coreApply_preserve_not_yellow (o : CoreOut) (u : ModelState) (r c : Nat)
    (k : Nat × Nat) (h : mapLookup u.colors k ≠ some Color.YELLOW) :
    mapLookup (coreApply o u r c).colors k ≠ some Color.YELLOW := by
  cases o with
  | unmark => exact unmarkBadCell_preserve_not_yellow u r c k h
  | mark tip => exact markBadCell_preserve_not_yellow u r c (some tip) k h
  | pair =>
    exact markBadCell_preserve_not_yellow _ r closingCol (some msgCloseBeforeOpen) k
      (markBadCell_preserve_not_yellow u r openingCol (some msgOpenAfterClose) k h)

theorem dateDataCheckCore_preserve_not_yellow (cfg : Cfg) (u : ModelState) (value : String)
    (r c : Nat) (isStuk : Bool) (k : Nat × Nat)
    (h : mapLookup u.colors k ≠ some Color.YELLOW) :
    mapLookup (dateDataCheckCore cfg u value r c isStuk).1.colors k ≠ some Color.YELLOW := by
  rw [dateDataCheckCore_decideAt]
  exact coreApply_preserve_not_yellow _ u r c k h

theorem siblingReval_preserve_not_yellow (cfg : Cfg) (snap : Row) (u : ModelState)
    (r c : Nat) (isStuk : Bool) (k : Nat × Nat)
    (h : mapLookup u.colors k ≠ some Color.YELLOW) :
    mapLookup (siblingReval cfg snap u r c isStuk).colors k ≠ some Color.YELLOW := by
  unfold siblingReval
  cases hc : (c == openingCol) with
  | true => exact dateDataCheckCore_preserve_not_yellow cfg u _ r closingCol isStuk k h
  | false =>
    cases hc2 : (c == closingCol) with
    | true => exact dateDataCheckCore_preserve_not_yellow cfg u _ r openingCol isStuk k h
    | false => exact h

/-- Full resolution of `_update_dossier_date_range` for the opening column:
either the state is unchanged because there is nothing to enforce (no valid
candidates, or the dossier opening is already strictly below their minimum),
or unchanged because the dossier cell is warning-marked and the inner
`setData` rejected the write, or the minimum is written and checked. -/
theorem updateDossierDateRange_resolve_opening (cfg : Cfg) (u : ModelState) (ref : String)
    {u1 : ModelState} {n : Nat}
    (h : updateDossierDateRange cfg u ref openingCol = some (u1, n)) :
    ∃ drow, findDossierRow u ref = some drow ∧
      ((u1 = u ∧
        ((getDateValuesForDossierRef cfg u ref openingCol).isEmpty = true ∨
          strLtB (u.row drow).openingsdatum
            (listMinD (getDateValuesForDossierRef cfg u ref openingCol)) = true)) ∨
       (u1 = u ∧ mapLookup u.colors (drow, openingCol) = some Color.YELLOW ∧
        (getDateValuesForDossierRef cfg u ref openingCol).isEmpty = false ∧
        strLtB (u.row drow).openingsdatum
          (listMinD (getDateValuesForDossierRef cfg u ref openingCol)) = false) ∨
       ((getDateValuesForDossierRef cfg u ref openingCol).isEmpty = false ∧
        strLtB (u.row drow).openingsdatum
          (listMinD (getDateValuesForDossierRef cfg u ref openingCol)) = false ∧
        mapLookup u.colors (drow, openingCol) ≠ some Color.YELLOW ∧
        u1 = (dateDataCheckDossier cfg
          (writeCell u drow openingCol
            (listMinD (getDateValuesForDossierRef cfg u ref openingCol)))
          (listMinD (getDateValuesForDossierRef cfg u ref openingCol))
          drow openingCol).1)) := by
  unfold updateDossierDateRange at h
  cases hf : findDossierRow u ref with
  | none => rw [hf] at h; cases h
  | some drow =>
    rw [hf] at h
    dsimp only at h
    refine ⟨drow, rfl, ?_⟩
    split at h
    · rename_i hcond
      have hemp : (getDateValuesForDossierRef cfg u ref openingCol).isEmpty = false := by
        have := ((Bool.and_eq_true _ _).mp hcond).2
        simpa using this
      split at h
      · rename_i hg
        injection h with h'
        exact Or.inl ⟨(congrArg Prod.fst h').symm, Or.inr hg⟩
      · rename_i hg
        injection h with h'
        have hu1 : u1 = (setDataDossierDate cfg u drow openingCol
            (listMinD (getDateValuesForDossierRef cfg u ref openingCol))).1 :=
          (congrArg Prod.fst h').symm
        unfold setDataDossierDate at hu1
        dsimp only at hu1
        split at hu1
        · rename_i hyel
          exact Or.inr (Or.inl ⟨hu1, by simpa using hyel, hemp, by simpa using hg⟩)
        · rename_i hyel
          refine Or.inr (Or.inr ⟨hemp, by simpa using hg, by simpa using hyel, hu1⟩)
    · rename_i hcond
      have hemp : (getDateValuesForDossierRef cfg u ref openingCol).isEmpty = true := by
        simpa using hcond
      split at h
      · rename_i hcond2
        rw [show (openingCol == closingCol) = false from rfl, Bool.false_and] at hcond2
        cases hcond2
      · injection h with h'
        exact Or.inl ⟨(congrArg Prod.fst h').symm, Or.inl hemp⟩

/-- The closing-column analogue of `updateDossierDateRange_resolve_opening`. -/
theorem updateDossierDateRange_resolve_closing (cfg : Cfg) (u : ModelState) (ref : String)
    {u1 : ModelState} {n : Nat}
    (h : updateDossierDateRange cfg u ref closingCol = some (u1, n)) :
    ∃ drow, findDossierRow u ref = some drow ∧
      ((u1 = u ∧
        ((getDateValuesForDossierRef cfg u ref closingCol).isEmpty = true ∨
          strLtB (listMaxD (getDateValuesForDossierRef cfg u ref closingCol))
            (u.row drow).sluitingsdatum = true)) ∨
       (u1 = u ∧ mapLookup u.colors (drow, closingCol) = some Color.YELLOW ∧
        (getDateValuesForDossierRef cfg u ref closingCol).isEmpty = false ∧
        strLtB (listMaxD (getDateValuesForDossierRef cfg u ref closingCol))
          (u.row drow).sluitingsdatum = false) ∨
       ((getDateValuesForDossierRef cfg u ref closingCol).isEmpty = false ∧
        strLtB (listMaxD (getDateValuesForDossierRef cfg u ref closingCol))
          (u.row drow).sluitingsdatum = false ∧
        mapLookup u.colors (drow, closingCol) ≠ some Color.YELLOW ∧
        u1 = (dateDataCheckDossier cfg
          (writeCell u drow closingCol
            (listMaxD (getDateValuesForDossierRef cfg u ref closingCol)))
          (listMaxD (getDateValuesForDossierRef cfg u ref closingCol))
          drow closingCol).1)) := by
  unfold updateDossierDateRange at h
  cases hf : findDossierRow u ref with
  | none => rw [hf] at h; cases h
  | some drow =>
    rw [hf] at h
    dsimp only at h
    refine ⟨drow, rfl, ?_⟩
    split at h
    · rename_i hcond
      rw [show (closingCol == openingCol) = false from rfl, Bool.false_and] at hcond
      cases hcond
    · split at h
      · rename_i hcond
        have hemp : (getDateValuesForDossierRef cfg u ref closingCol).isEmpty = false := by
          have := ((Bool.and_eq_true _ _).mp hcond).2
          simpa using this
        split at h
        · rename_i hg
          injection h with h'
          exact Or.inl ⟨(congrArg Prod.fst h').symm, Or.inr hg⟩
        · rename_i hg
          injection h with h'
          have hu1 : u1 = (setDataDossierDate cfg u drow closingCol
              (listMaxD (getDateValuesForDossierRef cfg u ref closingCol))).1 :=
            (congrArg Prod.fst h').symm
          unfold setDataDossierDate at hu1
          dsimp only at hu1
          split at hu1
          · rename_i hyel
            exact Or.inr (Or.inl ⟨hu1, by simpa using hyel, hemp, by simpa using hg⟩)
          · rename_i hyel
            refine Or.inr (Or.inr ⟨hemp, by simpa using hg, by simpa using hyel, hu1⟩)
      · rename_i hcond
        have hemp : (getDateValuesForDossierRef cfg u ref closingCol).isEmpty = true := by
          simpa using hcond
        injection h with h'
        exact Or.inl ⟨(congrArg Prod.fst h').symm, Or.inl hemp⟩

theorem coreDecide_bool (cfg : Cfg) (r : Row) (value : String) (col : Nat) (isStuk : Bool)
    (lo lc : List String) :
    ((coreDecide cfg r value col isStuk lo lc).2 = true) ↔
      ((coreDecide cfg r value col isStuk lo lc).1 = CoreOut.unmark) := by
  unfold coreDecide
  repeat' split
  all_goals
    exact Iff.intro (fun hx => by first | rfl | cases hx) (fun hx => by first | rfl | cases hx)

theorem coreDecideAt_bool (cfg : Cfg) (u : ModelState) (value : String) (row col : Nat)
    (isStuk : Bool) :
    ((coreDecideAt cfg u value row col isStuk).2 = true) ↔
      ((coreDecideAt cfg u value row col isStuk).1 = CoreOut.unmark) :=
  coreDecide_bool cfg (u.row row) value col isStuk _ _

/-- When the written dossier-date check can only unmark or mark the
cross-check pair, the whole check determines both dossier date cells
identically on any two states with the same data. -/
theorem dateDataCheckDossier_write_det (cfg : Cfg) {w1 w2 : ModelState} (drow col : Nat)
    (b : String) (hdata : w2.data = w1.data)
    (hcol : col = openingCol ∨ col = closingCol)
    (hD : (coreDecideAt cfg w1 b drow col false).1 = CoreOut.unmark ∨
          (coreDecideAt cfg w1 b drow col false).1 = CoreOut.pair) :
    annDetAt (dateDataCheckDossier cfg w1 b drow col).1
      (dateDataCheckDossier cfg w2 b drow col).1 (drow, openingCol) ∧
    annDetAt (dateDataCheckDossier cfg w1 b drow col).1
      (dateDataCheckDossier cfg w2 b drow col).1 (drow, closingCol) := by
  have hd : coreDecideAt cfg w2 b drow col false = coreDecideAt cfg w1 b drow col false :=
    coreDecideAt_data_congr cfg b drow col false hdata
  have hrowdet : w2.row drow = w1.row drow := row_eq_of_data_eq hdata drow
  unfold dateDataCheckDossier
  dsimp only
  rw [dateDataCheckCore_decideAt, dateDataCheckCore_decideAt, hd, hrowdet]
  dsimp only
  rcases hD with hDD | hDD
  · have hb : (coreDecideAt cfg w1 b drow col false).2 = true :=
      (coreDecideAt_bool cfg w1 b drow col false).mpr hDD
    rw [hb, hDD]
    have hsdata : (coreApply CoreOut.unmark w2 drow col).data =
        (coreApply CoreOut.unmark w1 drow col).data := by
      dsimp only [coreApply]
      rw [unmarkBadCell_data, unmarkBadCell_data, hdata]
    have hdet0 : annDetAt (coreApply CoreOut.unmark w1 drow col)
        (coreApply CoreOut.unmark w2 drow col) (drow, col) := by
      dsimp only [coreApply]
      exact ⟨by rw [unmarkBadCell_colors_self, unmarkBadCell_colors_self],
        by rw [unmarkBadCell_tooltips_self, unmarkBadCell_tooltips_self]⟩
    have hd2 : ∀ c v, coreDecideAt cfg (coreApply CoreOut.unmark w2 drow col) v drow c false =
        coreDecideAt cfg (coreApply CoreOut.unmark w1 drow col) v drow c false := by
      intro c v
      exact coreDecideAt_data_congr cfg v drow c false hsdata
    have hsib := siblingReval_match cfg (w1.row drow) drow col false hd2
    have hsibdet : annDetAt (siblingReval cfg (w1.row drow)
        (coreApply CoreOut.unmark w1 drow col) drow col false)
        (siblingReval cfg (w1.row drow)
          (coreApply CoreOut.unmark w2 drow col) drow col false) (drow, col) :=
      annDetAt_after hdet0 hsib
    rcases hcol with hc | hc <;> subst hc
    · refine ⟨hsibdet, ?_⟩
      unfold siblingReval
      rw [show (openingCol == openingCol) = true from rfl]
      exact dateDataCheckCore_det_self cfg _ drow closingCol false
        (hd2 closingCol (w1.row drow).sluitingsdatum) (Or.inr rfl)
    · refine ⟨?_, hsibdet⟩
      unfold siblingReval
      rw [show (closingCol == openingCol) = false from rfl,
        show (closingCol == closingCol) = true from rfl]
      exact dateDataCheckCore_det_self cfg _ drow openingCol false
        (hd2 openingCol (w1.row drow).openingsdatum) (Or.inl rfl)
  · have hb : (coreDecideAt cfg w1 b drow col false).2 = false := by
      cases hbv : (coreDecideAt cfg w1 b drow col false).2 with
      | false => rfl
      | true =>
        have := (coreDecideAt_bool cfg w1 b drow col false).mp hbv
        rw [hDD] at this
        cases this
    rw [hb, hDD]
    exact coreApply_pair_det w1 w2 drow col

theorem getDateValues_sdd (cfg : Cfg) (u : ModelState) (drow c : Nat) (v ref : String)
    (col : Nat) (hc : c = naamCol ∨ c = openingCol ∨ c = closingCol)
    (ht : (u.row drow).typ ≠ "stuk") :
    getDateValuesForDossierRef cfg (setDataDossierDate cfg u drow c v).1 ref col =
      getDateValuesForDossierRef cfg u ref col := by
  rcases setDataDossierDate_data_cases cfg u drow c v with h | h
  · exact getDateValues_data_congr cfg h ref col
  · rw [getDateValues_data_congr cfg h ref col]
    exact getDateValues_writeCell cfg u drow c v ref col hc ht

theorem getDateValues_update (cfg : Cfg) (u : ModelState) (uref : String) (ucol : Nat)
    {u1 : ModelState} {n : Nat} (h : updateDossierDateRange cfg u uref ucol = some (u1, n))
    (ref : String) (col : Nat) :
    getDateValuesForDossierRef cfg u1 ref col = getDateValuesForDossierRef cfg u ref col := by
  obtain ⟨drow, hf, hcase⟩ := updateDossierDateRange_some cfg u uref ucol u1 n h
  have htyp : (u.row drow).typ ≠ "stuk" := by
    rw [(findDossierRow_spec u uref drow hf).2.1]
    decide
  rcases hcase with ⟨h1, _⟩ | ⟨v, h1, _⟩ | ⟨v, h1, _⟩
  · rw [h1]
  · rw [h1]
    exact getDateValues_sdd cfg u drow openingCol v ref col (Or.inr (Or.inl rfl)) htyp
  · rw [h1]
    exact getDateValues_sdd cfg u drow closingCol v ref col (Or.inr (Or.inr rfl)) htyp

theorem nameDataCheck_match {s t : ModelState} (value : String) (row col : Nat)
    (htyp : (t.row row).typ = (s.row row).typ) :
    runMatch s (nameDataCheck s value row col).1 t (nameDataCheck t value row col).1 := by
  unfold nameDataCheck
  rw [htyp]
  cases hcond : (value == "" && (s.row row).typ == "dossier") with
  | true => exact markBadCell_match s t row naamCol Color.RED msgNaam
  | false => exact unmarkBadCell_match s t row col

theorem nameDataCheck_not_yellow (s : ModelState) (value : String) (row : Nat) :
    mapLookup (nameDataCheck s value row naamCol).1.colors (row, naamCol) ≠
      some Color.YELLOW := by
  unfold nameDataCheck
  split
  · rw [markBadCell_colors_self]
    exact fun hc => by cases hc
  · rw [unmarkBadCell_colors_self]
    exact fun hc => by cases hc

theorem dateDataCheckDossier_not_yellow (cfg : Cfg) (u : ModelState) (v : String)
    (r c : Nat) (hc : c = openingCol ∨ c = closingCol) :
    mapLookup (dateDataCheckDossier cfg u v r c).1.colors (r, c) ≠ some Color.YELLOW := by
  unfold dateDataCheckDossier
  dsimp only
  split
  · exact siblingReval_preserve_not_yellow cfg _ _ r c false (r, c)
      (dateDataCheckCore_not_yellow cfg u v r c false hc)
  · exact dateDataCheckCore_not_yellow cfg u v r c false hc

theorem dateDataCheckDossier_preserve_not_yellow (cfg : Cfg) (u : ModelState) (v : String)
    (r c : Nat) (k : Nat × Nat) (h : mapLookup u.colors k ≠ some Color.YELLOW) :
    mapLookup (dateDataCheckDossier cfg u v r c).1.colors k ≠ some Color.YELLOW := by
  unfold dateDataCheckDossier
  dsimp only
  split
  · exact siblingReval_preserve_not_yellow cfg _ _ r c false k
      (dateDataCheckCore_preserve_not_yellow cfg u v r c false k h)
  · exact dateDataCheckCore_preserve_not_yellow cfg u v r c false k h

theorem Row.opening_set_self (r : Row) (v : String) :
    (r.set openingCol v).openingsdatum = v := rfl

theorem Row.closing_set_self (r : Row) (v : String) :
    (r.set closingCol v).sluitingsdatum = v := rfl

theorem writeCell_twice_data (u : ModelState) (i c : Nat) (v : String)
    (hi : i < u.data.length) (hc : c < 6) :
    (writeCell (writeCell u i c v) i c v).data = (writeCell u i c v).data :=
  writeCell_data_id _ i c v
    (by rw [writeCell_row_self u i c v hi]; exact Row.get_set_self _ _ _ hc) hc

theorem isEmpty_false_ne_nil {α : Type} {l : List α} (h : l.isEmpty = false) : l ≠ [] := by
  cases l with
  | nil => cases h
  | cons x xs => exact fun hc => by cases hc

/-! ## Idempotence of `setData`: the stuk paths -/

theorem stuk_idem_P2 (cfg : Cfg) (s : ModelState) (row col : Nat) (value : String)
    (s1 s2 : ModelState) (b2 : Bool) (n2 : Nat)
    (hcol6 : col < 6)
    (hcols : col = openingCol ∨ col = closingCol)
    (htypR : ((writeCell s row col value).row row).typ = "stuk")
    (hvne : value ≠ "")
    (hcore : (dateDataCheckCore cfg (writeCell s row col value) value row col true).2 = false)
    (hs1 : s1 = (dateDataCheckCore cfg (writeCell s row col value) value row col true).1)
    (hst1 : (s1.row row).get col = value)
    (h2 : setData cfg s1 row col value = some (s2, b2, n2)) :
    ∀ k, annotEqAt s1 s2 k := by
  have hdat1 : s1.data = (writeCell s row col value).data := by
    rw [hs1]; exact dateDataCheckCore_data ..
  have hw2 : (writeCell s1 row col value).data = s1.data :=
    writeCell_data_id s1 row col value hst1 hcol6
  have hwd : (writeCell s1 row col value).data = (writeCell s row col value).data :=
    hw2.trans hdat1
  have hny2 : mapLookup s1.colors (row, col) ≠ some Color.YELLOW := by
    rw [hs1]
    exact dateDataCheckCore_not_yellow cfg _ value row col true hcols
  have hdec : coreDecideAt cfg (writeCell s1 row col value) value row col true =
      coreDecideAt cfg (writeCell s row col value) value row col true :=
    coreDecideAt_data_congr cfg value row col true hwd
  have hcm := dateDataCheckCore_match cfg value row col true hdec
  have hcore2 : (dateDataCheckCore cfg (writeCell s1 row col value) value row col true).2 =
      false := by
    rw [hcm.1]; exact hcore
  rcases setData_cases cfg s1 row col value s2 b2 n2 h2 with ⟨hy2, _, _, _⟩ | ⟨_, _, hbr2⟩
  · exact absurd hy2 hny2
  rcases hbr2 with ⟨hc3, _, _⟩ | ⟨_, _, s1c2, vd2, m2, hst2, hrest2⟩ | ⟨_, hns, _, _⟩ |
    ⟨_, hg2, hg3, _, _⟩
  · rcases hcols with hcc | hcc <;> (rw [hcc] at hc3; exact absurd hc3 (by decide))
  · rcases dateDataCheckStuk_cases cfg _ value row col s1c2 vd2 m2 hst2 with
      ⟨hveq, _, _, _⟩ | ⟨_, _, hs1c2, hvd2, _⟩ |
      ⟨_, hcoret2, _, _, _, _, _, _, _, _, _, _⟩
    · exact absurd hveq hvne
    · rcases hrest2 with ⟨hvdt, _, _, _, _, _⟩ | ⟨_, hs2e, _⟩
      · rw [hvd2] at hvdt; cases hvdt
      · have hrm : runMatch (writeCell s row col value) s1
            (writeCell s1 row col value)
            (dateDataCheckCore cfg (writeCell s1 row col value) value row col true).1 := by
          nth_rewrite 1 [hs1]
          exact hcm.2
        rw [hs2e, hs1c2]
        exact runMatch_idem hrm (fun k => ⟨rfl, rfl⟩)
    · rw [hcore2] at hcoret2; cases hcoret2
  · have hrowR : (writeCell s1 row col value).row row = (writeCell s row col value).row row :=
      row_eq_of_data_eq hwd row
    rw [hrowR] at hns
    exact absurd htypR hns
  · rcases hcols with hcc | hcc
    · exact absurd hcc hg2
    · exact absurd hcc hg3

theorem findDossierRow_data_congr {u v : ModelState} (h : v.data = u.data) (ref : String) :
    findDossierRow v ref = findDossierRow u ref := by
  unfold findDossierRow
  rw [h]

theorem stuk_idem_P1_opening (cfg : Cfg) (s : ModelState) (row : Nat)
    (s1 s2 : ModelState) (b2 : Bool) (m2 : Nat) (n2x : Nat)
    (htypR : ((writeCell s row openingCol "").row row).typ = "stuk")
    (hupd2 : updateDossierDateRange cfg
      (unmarkBadCell (writeCell s row openingCol "") row openingCol)
      (((unmarkBadCell (writeCell s row openingCol "") row openingCol).row row).dossierRef)
      openingCol = some (s1, n2x))
    (hst1 : (s1.row row).get openingCol = "")
    (h2 : setData cfg s1 row openingCol "" = some (s2, b2, m2)) :
    ∀ k, annotEqAt s1 s2 k := by
  set s0 := writeCell s row openingCol "" with hs0def
  set u1 := unmarkBadCell s0 row openingCol with hu1def
  set ref := (u1.row row).dossierRef with hrefdef
  obtain ⟨drow, hfind, out⟩ := updateDossierDateRange_resolve_opening cfg u1 ref hupd2
  set L1 := getDateValuesForDossierRef cfg u1 ref openingCol with hL1def
  set bound := listMinD L1 with hbounddef
  set w1 := writeCell u1 drow openingCol bound with hw1def
  obtain ⟨hdlt, hdtyp, hdref⟩ := findDossierRow_spec u1 ref drow hfind
  have hu1row : u1.row row = s0.row row := rfl
  have hner : row ≠ drow := by
    intro hre
    rw [← hre, hu1row, htypR] at hdtyp
    exact absurd hdtyp (by decide)
  have hnerk : ∀ c c2 : Nat, ((drow : Nat), c) ≠ ((row : Nat), c2) := by
    intro c c2 hc
    exact hner (congrArg Prod.fst hc).symm
  have hu1nyrc : mapLookup u1.colors (row, openingCol) ≠ some Color.YELLOW := by
    rw [hu1def, unmarkBadCell_colors_self]
    exact fun hc => by cases hc
  have hw1ann : ∀ k, mapLookup w1.colors k = mapLookup u1.colors k ∧
      mapLookup w1.tooltips k = mapLookup u1.tooltips k := fun k => ⟨rfl, rfl⟩
  have hs1ny : mapLookup s1.colors (row, openingCol) ≠ some Color.YELLOW := by
    rcases out with ⟨hs1e, _⟩ | ⟨hs1e, _, _, _⟩ | ⟨_, _, _, hs1e⟩
    · rw [hs1e]; exact hu1nyrc
    · rw [hs1e]; exact hu1nyrc
    · rw [hs1e]
      refine dateDataCheckDossier_preserve_not_yellow cfg _ _ drow openingCol
        (row, openingCol) ?_
      rw [(hw1ann (row, openingCol)).1]
      exact hu1nyrc
  have hs1rowR : s1.row row = s0.row row := by
    rcases out with ⟨hs1e, _⟩ | ⟨hs1e, _, _, _⟩ | ⟨_, _, _, hs1e⟩
    · rw [hs1e]; exact hu1row
    · rw [hs1e]; exact hu1row
    · rw [hs1e, row_eq_of_data_eq (dateDataCheckDossier_data ..) row, hw1def,
        writeCell_row_ne u1 drow openingCol bound row hner]
      exact hu1row
  set s0b := writeCell s1 row openingCol "" with hs0bdef
  have hs0bd : s0b.data = s1.data := writeCell_data_id s1 row openingCol "" hst1 (by decide)
  have hs0brow : s0b.row row = s0.row row := by
    rw [row_eq_of_data_eq hs0bd row]
    exact hs1rowR
  have htyp2 : (s0b.row row).typ = "stuk" := by rw [hs0brow]; exact htypR
  have hs0bann : ∀ k, mapLookup s0b.colors k = mapLookup s1.colors k ∧
      mapLookup s0b.tooltips k = mapLookup s1.tooltips k := fun k => ⟨rfl, rfl⟩
  rcases setData_cases cfg s1 row openingCol "" s2 b2 m2 h2 with
    ⟨hy2, _, _, _⟩ | ⟨_, _, hbr2⟩
  · exact absurd hy2 hs1ny
  rcases hbr2 with ⟨hc3, _, _⟩ | ⟨_, _, s1c2, vd2, mm2, hst2, hrest2⟩ | ⟨_, hns, _, _⟩ |
    ⟨_, hg2, _, _, _⟩
  · exact absurd hc3 (by decide)
  · rcases dateDataCheckStuk_cases cfg s0b "" row openingCol s1c2 vd2 mm2 hst2 with
      ⟨_, hs1c2, hvd2, _⟩ | ⟨hvne2, _, _, _, _⟩ |
      ⟨hvne2, _, _, _, _, _, _, _, _, _, _, _⟩
    · rcases hrest2 with ⟨_, s2x, n2y, hupd3, hs2e, _⟩ | ⟨hvdf, _, _⟩
      · rw [hs1c2] at hupd3
        set u2 := unmarkBadCell s0b row openingCol with hu2def
        have hrefeq2 : ((u2.row row).dossierRef) = ref := by
          show ((s0b.row row).dossierRef) = ref
          rw [hs0brow, hrefdef, hu1row]
        rw [hrefeq2] at hupd3
        obtain ⟨drow2, hfind2, out2⟩ :=
          updateDossierDateRange_resolve_opening cfg u2 ref hupd3
        have hu2data : u2.data = s1.data := hs0bd
        have hu2ann : ∀ k, k ≠ (row, openingCol) →
            mapLookup u2.colors k = mapLookup s1.colors k ∧
            mapLookup u2.tooltips k = mapLookup s1.tooltips k := by
          intro k hk
          rw [hu2def]
          exact ⟨unmarkBadCell_colors_ne _ _ _ _ hk, unmarkBadCell_tooltips_ne _ _ _ _ hk⟩
        have hskelu : sameSkeleton u1 u2 := by
          rcases out with ⟨hs1e, _⟩ | ⟨hs1e, _, _, _⟩ | ⟨_, _, _, hs1e⟩
          · exact sameSkeleton_of_data_eq (by rw [hu2data, hs1e])
          · exact sameSkeleton_of_data_eq (by rw [hu2data, hs1e])
          · refine sameSkeleton_trans (writeCell_skeleton u1 drow openingCol bound
              (Or.inr (Or.inl rfl))) (sameSkeleton_of_data_eq ?_)
            rw [hu2data, hs1e]
            exact dateDataCheckDossier_data ..
        have hdd : drow2 = drow := by
          rw [findDossierRow_congr hskelu, hfind] at hfind2
          exact (Option.some.inj hfind2).symm
        rw [hdd] at out2
        set L2 := getDateValuesForDossierRef cfg u2 ref openingCol with hL2def
        set bound2 := listMinD L2 with hbound2def
        set w2 := writeCell u2 drow openingCol bound2 with hw2def
        rcases out with ⟨hs1e, hskip⟩ | ⟨hs1e, hyel, hempf, hgf⟩ |
          ⟨hempf, hgf, hnyd, hs1e⟩
        · -- first call did nothing: data unchanged
          have hL2eq : L2 = L1 := by
            rw [hL2def, hL1def]
            exact getDateValues_data_congr cfg (by rw [hu2data, hs1e]) ref openingCol
          have hrow2 : u2.row drow = u1.row drow :=
            row_eq_of_data_eq (by rw [hu2data, hs1e]) drow
          have hs2u2 : s2 = u2 := by
            rcases out2 with ⟨hs2x, _⟩ | ⟨hs2x, _, _, _⟩ | ⟨hempf2, hgf2, _, _⟩
            · rw [hs2e, hs2x]
            · rw [hs2e, hs2x]
            · exfalso
              rcases hskip with hskipe | hskipg
              · rw [hL2eq] at hempf2
                rw [hempf2] at hskipe
                cases hskipe
              · have hb2 : bound2 = bound := by
                  rw [hbound2def, hL2eq]
                rw [hrow2, hb2] at hgf2
                rw [hgf2] at hskipg
                cases hskipg
          intro k
          by_cases hk : k = (row, openingCol)
          · subst hk
            constructor
            · rw [hs2u2, hu2def, unmarkBadCell_colors_self, hs1e, hu1def,
                unmarkBadCell_colors_self]
            · rw [hs2u2, hu2def, unmarkBadCell_tooltips_self, hs1e, hu1def,
                unmarkBadCell_tooltips_self]
          · rw [hs2u2]
            exact ⟨(hu2ann k hk).1, (hu2ann k hk).2⟩
        · -- first call blocked by the warning mark on the dossier cell
          have hL2eq : L2 = L1 := by
            rw [hL2def, hL1def]
            exact getDateValues_data_congr cfg (by rw [hu2data, hs1e]) ref openingCol
          have hyel2 : mapLookup u2.colors (drow, openingCol) = some Color.YELLOW := by
            rw [(hu2ann (drow, openingCol) (hnerk openingCol openingCol)).1, hs1e]
            exact hyel
          have hs2u2 : s2 = u2 := by
            rcases out2 with ⟨hs2x, _⟩ | ⟨hs2x, _, _, _⟩ | ⟨_, _, hnyd2, _⟩
            · rw [hs2e, hs2x]
            · rw [hs2e, hs2x]
            · exact absurd hyel2 hnyd2
          intro k
          by_cases hk : k = (row, openingCol)
          · subst hk
            constructor
            · rw [hs2u2, hu2def, unmarkBadCell_colors_self, hs1e, hu1def,
                unmarkBadCell_colors_self]
            · rw [hs2u2, hu2def, unmarkBadCell_tooltips_self, hs1e, hu1def,
                unmarkBadCell_tooltips_self]
          · rw [hs2u2]
            exact ⟨(hu2ann k hk).1, (hu2ann k hk).2⟩
        · -- first call wrote the bound: the second rewrites it identically
          have hs1data : s1.data = w1.data := by
            rw [hs1e]; exact dateDataCheckDossier_data ..
          have hL2eq : L2 = L1 := by
            rw [hL2def, hL1def, getDateValues_data_congr cfg
              (show u2.data = w1.data by rw [hu2data, hs1data]) ref openingCol, hw1def]
            exact getDateValues_writeCell cfg u1 drow openingCol bound ref openingCol
              (Or.inr (Or.inl rfl)) (by rw [hdtyp]; decide)
          have hbound2eq : bound2 = bound := by
            rw [hbound2def, hL2eq, hbounddef]
          have hrowd : u2.row drow = (u1.row drow).set openingCol bound := by
            rw [row_eq_of_data_eq (show u2.data = w1.data by rw [hu2data, hs1data]) drow,
              hw1def]
            exact writeCell_row_self u1 drow openingCol bound hdlt
          have hstored : (u2.row drow).openingsdatum = bound := by
            rw [hrowd]
            exact Row.opening_set_self _ _
          have hs1dny : mapLookup s1.colors (drow, openingCol) ≠ some Color.YELLOW := by
            rw [hs1e]
            refine dateDataCheckDossier_preserve_not_yellow cfg _ _ drow openingCol
              (drow, openingCol) ?_
            rw [(hw1ann (drow, openingCol)).1]
            exact hnyd
          rcases out2 with ⟨_, hskip2⟩ | ⟨_, hyel2, _, _⟩ | ⟨_, _, _, hs2xe⟩
          · exfalso
            rcases hskip2 with hskipe | hskipg
            · rw [hL2eq] at hskipe
              rw [hskipe] at hempf
              cases hempf
            · rw [hstored, hbound2def, hL2eq, ← hbounddef, strLtB_irrefl] at hskipg
              cases hskipg
          · exfalso
            rw [(hu2ann (drow, openingCol) (hnerk openingCol openingCol)).1] at hyel2
            exact hs1dny hyel2
          · have hw2data : w2.data = w1.data := by
              rw [hw2def, writeCell_data_id u2 drow openingCol bound2
                (by rw [show (u2.row drow).get openingCol = (u2.row drow).openingsdatum
                    from rfl, hstored, hbound2eq]) (by decide), hu2data, hs1data]
            rw [hbound2eq] at hs2xe
            have hm3 := (dateDataCheckDossier_match cfg bound drow openingCol hw2data).2
            have hfull : runMatch s0 s1 s0b s2 := by
              rw [hs1e, hs2e, hs2xe]
              exact runMatch_comp (runMatch_comp
                (unmarkBadCell_match s0 s0b row openingCol)
                (writeCell_match u1 u2 drow openingCol bound drow openingCol bound)) hm3
            exact runMatch_idem hfull (fun k => ⟨rfl, rfl⟩)
      · rw [hvd2] at hvdf; cases hvdf
    · exact absurd rfl hvne2
    · exact absurd rfl hvne2
  · exact absurd htyp2 hns
  · exact absurd rfl hg2

theorem stuk_idem_P1_closing (cfg : Cfg) (s : ModelState) (row : Nat)
    (s1 s2 : ModelState) (b2 : Bool) (m2 : Nat) (n2x : Nat)
    (htypR : ((writeCell s row closingCol "").row row).typ = "stuk")
    (hupd2 : updateDossierDateRange cfg
      (unmarkBadCell (writeCell s row closingCol "") row closingCol)
      (((unmarkBadCell (writeCell s row closingCol "") row closingCol).row row).dossierRef)
      closingCol = some (s1, n2x))
    (hst1 : (s1.row row).get closingCol = "")
    (h2 : setData cfg s1 row closingCol "" = some (s2, b2, m2)) :
    ∀ k, annotEqAt s1 s2 k := by
  set s0 := writeCell s row closingCol "" with hs0def
  set u1 := unmarkBadCell s0 row closingCol with hu1def
  set ref := (u1.row row).dossierRef with hrefdef
  obtain ⟨drow, hfind, out⟩ := updateDossierDateRange_resolve_closing cfg u1 ref hupd2
  set L1 := getDateValuesForDossierRef cfg u1 ref closingCol with hL1def
  set bound := listMaxD L1 with hbounddef
  set w1 := writeCell u1 drow closingCol bound with hw1def
  obtain ⟨hdlt, hdtyp, hdref⟩ := findDossierRow_spec u1 ref drow hfind
  have hu1row : u1.row row = s0.row row := rfl
  have hner : row ≠ drow := by
    intro hre
    rw [← hre, hu1row, htypR] at hdtyp
    exact absurd hdtyp (by decide)
  have hnerk : ∀ c c2 : Nat, ((drow : Nat), c) ≠ ((row : Nat), c2) := by
    intro c c2 hc
    exact hner (congrArg Prod.fst hc).symm
  have hu1nyrc : mapLookup u1.colors (row, closingCol) ≠ some Color.YELLOW := by
    rw [hu1def, unmarkBadCell_colors_self]
    exact fun hc => by cases hc
  have hw1ann : ∀ k, mapLookup w1.colors k = mapLookup u1.colors k ∧
      mapLookup w1.tooltips k = mapLookup u1.tooltips k := fun k => ⟨rfl, rfl⟩
  have hs1ny : mapLookup s1.colors (row, closingCol) ≠ some Color.YELLOW := by
    rcases out with ⟨hs1e, _⟩ | ⟨hs1e, _, _, _⟩ | ⟨_, _, _, hs1e⟩
    · rw [hs1e]; exact hu1nyrc
    · rw [hs1e]; exact hu1nyrc
    · rw [hs1e]
      refine dateDataCheckDossier_preserve_not_yellow cfg _ _ drow closingCol
        (row, closingCol) ?_
      rw [(hw1ann (row, closingCol)).1]
      exact hu1nyrc
  have hs1rowR : s1.row row = s0.row row := by
    rcases out with ⟨hs1e, _⟩ | ⟨hs1e, _, _, _⟩ | ⟨_, _, _, hs1e⟩
    · rw [hs1e]; exact hu1row
    · rw [hs1e]; exact hu1row
    · rw [hs1e, row_eq_of_data_eq (dateDataCheckDossier_data ..) row, hw1def,
        writeCell_row_ne u1 drow closingCol bound row hner]
      exact hu1row
  set s0b := writeCell s1 row closingCol "" with hs0bdef
  have hs0bd : s0b.data = s1.data := writeCell_data_id s1 row closingCol "" hst1 (by decide)
  have hs0brow : s0b.row row = s0.row row := by
    rw [row_eq_of_data_eq hs0bd row]
    exact hs1rowR
  have htyp2 : (s0b.row row).typ = "stuk" := by rw [hs0brow]; exact htypR
  have hs0bann : ∀ k, mapLookup s0b.colors k = mapLookup s1.colors k ∧
      mapLookup s0b.tooltips k = mapLookup s1.tooltips k := fun k => ⟨rfl, rfl⟩
  rcases setData_cases cfg s1 row closingCol "" s2 b2 m2 h2 with
    ⟨hy2, _, _, _⟩ | ⟨_, _, hbr2⟩
  · exact absurd hy2 hs1ny
  rcases hbr2 with ⟨hc3, _, _⟩ | ⟨_, _, s1c2, vd2, mm2, hst2, hrest2⟩ | ⟨_, hns, _, _⟩ |
    ⟨_, _, hg2, _, _⟩
  · exact absurd hc3 (by decide)
  · rcases dateDataCheckStuk_cases cfg s0b "" row closingCol s1c2 vd2 mm2 hst2 with
      ⟨_, hs1c2, hvd2, _⟩ | ⟨hvne2, _, _, _, _⟩ |
      ⟨hvne2, _, _, _, _, _, _, _, _, _, _, _⟩
    · rcases hrest2 with ⟨_, s2x, n2y, hupd3, hs2e, _⟩ | ⟨hvdf, _, _⟩
      · rw [hs1c2] at hupd3
        set u2 := unmarkBadCell s0b row closingCol with hu2def
        have hrefeq2 : ((u2.row row).dossierRef) = ref := by
          show ((s0b.row row).dossierRef) = ref
          rw [hs0brow, hrefdef, hu1row]
        rw [hrefeq2] at hupd3
        obtain ⟨drow2, hfind2, out2⟩ :=
          updateDossierDateRange_resolve_closing cfg u2 ref hupd3
        have hu2data : u2.data = s1.data := hs0bd
        have hu2ann : ∀ k, k ≠ (row, closingCol) →
            mapLookup u2.colors k = mapLookup s1.colors k ∧
            mapLookup u2.tooltips k = mapLookup s1.tooltips k := by
          intro k hk
          rw [hu2def]
          exact ⟨unmarkBadCell_colors_ne _ _ _ _ hk, unmarkBadCell_tooltips_ne _ _ _ _ hk⟩
        have hskelu : sameSkeleton u1 u2 := by
          rcases out with ⟨hs1e, _⟩ | ⟨hs1e, _, _, _⟩ | ⟨_, _, _, hs1e⟩
          · exact sameSkeleton_of_data_eq (by rw [hu2data, hs1e])
          · exact sameSkeleton_of_data_eq (by rw [hu2data, hs1e])
          · refine sameSkeleton_trans (writeCell_skeleton u1 drow closingCol bound
              (Or.inr (Or.inr rfl))) (sameSkeleton_of_data_eq ?_)
            rw [hu2data, hs1e]
            exact dateDataCheckDossier_data ..
        have hdd : drow2 = drow := by
          rw [findDossierRow_congr hskelu, hfind] at hfind2
          exact (Option.some.inj hfind2).symm
        rw [hdd] at out2
        set L2 := getDateValuesForDossierRef cfg u2 ref closingCol with hL2def
        set bound2 := listMaxD L2 with hbound2def
        set w2 := writeCell u2 drow closingCol bound2 with hw2def
        rcases out with ⟨hs1e, hskip⟩ | ⟨hs1e, hyel, hempf, hgf⟩ |
          ⟨hempf, hgf, hnyd, hs1e⟩
        · -- first call did nothing: data unchanged
          have hL2eq : L2 = L1 := by
            rw [hL2def, hL1def]
            exact getDateValues_data_congr cfg (by rw [hu2data, hs1e]) ref closingCol
          have hrow2 : u2.row drow = u1.row drow :=
            row_eq_of_data_eq (by rw [hu2data, hs1e]) drow
          have hs2u2 : s2 = u2 := by
            rcases out2 with ⟨hs2x, _⟩ | ⟨hs2x, _, _, _⟩ | ⟨hempf2, hgf2, _, _⟩
            · rw [hs2e, hs2x]
            · rw [hs2e, hs2x]
            · exfalso
              rcases hskip with hskipe | hskipg
              · rw [hL2eq] at hempf2
                rw [hempf2] at hskipe
                cases hskipe
              · have hb2 : bound2 = bound := by
                  rw [hbound2def, hL2eq]
                rw [hrow2, hb2] at hgf2
                rw [hgf2] at hskipg
                cases hskipg
          intro k
          by_cases hk : k = (row, closingCol)
          · subst hk
            constructor
            · rw [hs2u2, hu2def, unmarkBadCell_colors_self, hs1e, hu1def,
                unmarkBadCell_colors_self]
            · rw [hs2u2, hu2def, unmarkBadCell_tooltips_self, hs1e, hu1def,
                unmarkBadCell_tooltips_self]
          · rw [hs2u2]
            exact ⟨(hu2ann k hk).1, (hu2ann k hk).2⟩
        · -- first call blocked by the warning mark on the dossier cell
          have hL2eq : L2 = L1 := by
            rw [hL2def, hL1def]
            exact getDateValues_data_congr cfg (by rw [hu2data, hs1e]) ref closingCol
          have hyel2 : mapLookup u2.colors (drow, closingCol) = some Color.YELLOW := by
            rw [(hu2ann (drow, closingCol) (hnerk closingCol closingCol)).1, hs1e]
            exact hyel
          have hs2u2 : s2 = u2 := by
            rcases out2 with ⟨hs2x, _⟩ | ⟨hs2x, _, _, _⟩ | ⟨_, _, hnyd2, _⟩
            · rw [hs2e, hs2x]
            · rw [hs2e, hs2x]
            · exact absurd hyel2 hnyd2
          intro k
          by_cases hk : k = (row, closingCol)
          · subst hk
            constructor
            · rw [hs2u2, hu2def, unmarkBadCell_colors_self, hs1e, hu1def,
                unmarkBadCell_colors_self]
            · rw [hs2u2, hu2def, unmarkBadCell_tooltips_self, hs1e, hu1def,
                unmarkBadCell_tooltips_self]
          · rw [hs2u2]
            exact ⟨(hu2ann k hk).1, (hu2ann k hk).2⟩
        · -- first call wrote the bound: the second rewrites it identically
          have hs1data : s1.data = w1.data := by
            rw [hs1e]; exact dateDataCheckDossier_data ..
          have hL2eq : L2 = L1 := by
            rw [hL2def, hL1def, getDateValues_data_congr cfg
              (show u2.data = w1.data by rw [hu2data, hs1data]) ref closingCol, hw1def]
            exact getDateValues_writeCell cfg u1 drow closingCol bound ref closingCol
              (Or.inr (Or.inr rfl)) (by rw [hdtyp]; decide)
          have hbound2eq : bound2 = bound := by
            rw [hbound2def, hL2eq, hbounddef]
          have hrowd : u2.row drow = (u1.row drow).set closingCol bound := by
            rw [row_eq_of_data_eq (show u2.data = w1.data by rw [hu2data, hs1data]) drow,
              hw1def]
            exact writeCell_row_self u1 drow closingCol bound hdlt
          have hstored : (u2.row drow).sluitingsdatum = bound := by
            rw [hrowd]
            exact Row.closing_set_self _ _
          have hs1dny : mapLookup s1.colors (drow, closingCol) ≠ some Color.YELLOW := by
            rw [hs1e]
            refine dateDataCheckDossier_preserve_not_yellow cfg _ _ drow closingCol
              (drow, closingCol) ?_
            rw [(hw1ann (drow, closingCol)).1]
            exact hnyd
          rcases out2 with ⟨_, hskip2⟩ | ⟨_, hyel2, _, _⟩ | ⟨_, _, _, hs2xe⟩
          · exfalso
            rcases hskip2 with hskipe | hskipg
            · rw [hL2eq] at hskipe
              rw [hskipe] at hempf
              cases hempf
            · rw [hstored, hbound2def, hL2eq, ← hbounddef, strLtB_irrefl] at hskipg
              cases hskipg
          · exfalso
            rw [(hu2ann (drow, closingCol) (hnerk closingCol closingCol)).1] at hyel2
            exact hs1dny hyel2
          · have hw2data : w2.data = w1.data := by
              rw [hw2def, writeCell_data_id u2 drow closingCol bound2
                (by rw [show (u2.row drow).get closingCol = (u2.row drow).sluitingsdatum
                    from rfl, hstored, hbound2eq]) (by decide), hu2data, hs1data]
            rw [hbound2eq] at hs2xe
            have hm3 := (dateDataCheckDossier_match cfg bound drow closingCol hw2data).2
            have hfull : runMatch s0 s1 s0b s2 := by
              rw [hs1e, hs2e, hs2xe]
              exact runMatch_comp (runMatch_comp
                (unmarkBadCell_match s0 s0b row closingCol)
                (writeCell_match u1 u2 drow closingCol bound drow closingCol bound)) hm3
            exact runMatch_idem hfull (fun k => ⟨rfl, rfl⟩)
      · rw [hvd2] at hvdf; cases hvdf
    · exact absurd rfl hvne2
    · exact absurd rfl hvne2
  · exact absurd htyp2 hns
  · exact absurd rfl hg2

theorem revalPair_annotEqAt (cfg : Cfg) (u : ModelState) (v4 v5 : String) (drow : Nat)
    (k : Nat × Nat) (hk4 : k ≠ (drow, openingCol)) (hk5 : k ≠ (drow, closingCol)) :
    annotEqAt u (dateDataCheckReval cfg
      (dateDataCheckReval cfg u v4 drow openingCol false).1 v5 drow closingCol false).1 k :=
  annotEqAt_trans (dateDataCheckCore_annotEqAt cfg u v4 drow openingCol false k hk4 hk4 hk5)
    (dateDataCheckCore_annotEqAt cfg _ v5 drow closingCol false k hk5 hk4 hk5)

theorem revalPair_data (cfg : Cfg) (u : ModelState) (v4 v5 : String) (drow : Nat) :
    (dateDataCheckReval cfg
      (dateDataCheckReval cfg u v4 drow openingCol false).1 v5 drow closingCol
        false).1.data = u.data := by
  rw [dateDataCheckReval_data, dateDataCheckReval_data]

/-- After the two dossier-row re-evaluations that close the `stuk` check,
neither dossier date cell is warning-marked. -/
theorem revalPair_not_yellow (cfg : Cfg) (u : ModelState) (v4 v5 : String) (drow : Nat) :
    mapLookup (dateDataCheckReval cfg
      (dateDataCheckReval cfg u v4 drow openingCol false).1 v5 drow closingCol
        false).1.colors (drow, openingCol) ≠ some Color.YELLOW ∧
    mapLookup (dateDataCheckReval cfg
      (dateDataCheckReval cfg u v4 drow openingCol false).1 v5 drow closingCol
        false).1.colors (drow, closingCol) ≠ some Color.YELLOW :=
  ⟨dateDataCheckCore_preserve_not_yellow cfg _ v5 drow closingCol false (drow, openingCol)
      (dateDataCheckCore_not_yellow cfg u v4 drow openingCol false (Or.inl rfl)),
    dateDataCheckCore_not_yellow cfg _ v5 drow closingCol false (Or.inr rfl)⟩

/-- Two re-evaluation pairs run from data-equal states determine both
dossier date cells identically. -/
theorem revalPair_det (cfg : Cfg) {u t : ModelState} (v4 v5 : String) (drow : Nat)
    (hdata : t.data = u.data) :
    annDetAt
      (dateDataCheckReval cfg (dateDataCheckReval cfg u v4 drow openingCol false).1 v5
        drow closingCol false).1
      (dateDataCheckReval cfg (dateDataCheckReval cfg t v4 drow openingCol false).1 v5
        drow closingCol false).1 (drow, openingCol) ∧
    annDetAt
      (dateDataCheckReval cfg (dateDataCheckReval cfg u v4 drow openingCol false).1 v5
        drow closingCol false).1
      (dateDataCheckReval cfg (dateDataCheckReval cfg t v4 drow openingCol false).1 v5
        drow closingCol false).1 (drow, closingCol) := by
  have hdec4 : coreDecideAt cfg t v4 drow openingCol false =
      coreDecideAt cfg u v4 drow openingCol false :=
    coreDecideAt_data_congr cfg v4 drow openingCol false hdata
  have hdec5 : coreDecideAt cfg (dateDataCheckReval cfg t v4 drow openingCol false).1 v5
      drow closingCol false =
      coreDecideAt cfg (dateDataCheckReval cfg u v4 drow openingCol false).1 v5
        drow closingCol false :=
    coreDecideAt_data_congr cfg v5 drow closingCol false
      (by rw [dateDataCheckReval_data, dateDataCheckReval_data, hdata])
  exact ⟨annDetAt_after (dateDataCheckCore_det_self cfg v4 drow openingCol false hdec4
      (Or.inl rfl)) (dateDataCheckCore_match cfg v5 drow closingCol false hdec5).2,
    dateDataCheckCore_det_self cfg v5 drow closingCol false hdec5 (Or.inr rfl)⟩

/-- Idempotence of the full cascading `stuk` path for an opening-date edit:
when the first edit ran the complete cascade (sibling re-evaluation, dossier
range update inside the check, the two re-evaluations and the outer range
update), repeating the same edit reproduces exactly the same annotations. -/
theorem stuk_idem_P3_opening (cfg : Cfg) (s : ModelState) (row : Nat) (value : String)
    (s1 s2 s3L s1L : ModelState) (drow : Nat) (n3 n2x : Nat) (b2 : Bool) (m2 : Nat)
    (htypR : ((writeCell s row openingCol value).row row).typ = "stuk")
    (hvne : value ≠ "")
    (hcoret : (dateDataCheckCore cfg (writeCell s row openingCol value) value row
      openingCol true).2 = true)
    (hfindL : findDossierRow
      (siblingReval cfg ((writeCell s row openingCol value).row row)
        (dateDataCheckCore cfg (writeCell s row openingCol value) value row openingCol
          true).1 row openingCol true)
      ((writeCell s row openingCol value).row row).dossierRef = some drow)
    (hupdL : updateDossierDateRange cfg
      (siblingReval cfg ((writeCell s row openingCol value).row row)
        (dateDataCheckCore cfg (writeCell s row openingCol value) value row openingCol
          true).1 row openingCol true)
      ((writeCell s row openingCol value).row row).dossierRef openingCol = some (s3L, n3))
    (hs1L : s1L = (dateDataCheckReval cfg
      (dateDataCheckReval cfg s3L
        ((siblingReval cfg ((writeCell s row openingCol value).row row)
          (dateDataCheckCore cfg (writeCell s row openingCol value) value row openingCol
            true).1 row openingCol true).row drow).openingsdatum drow openingCol false).1
      ((siblingReval cfg ((writeCell s row openingCol value).row row)
        (dateDataCheckCore cfg (writeCell s row openingCol value) value row openingCol
          true).1 row openingCol true).row drow).sluitingsdatum drow closingCol false).1)
    (hupd2 : updateDossierDateRange cfg s1L (s1L.row row).dossierRef openingCol =
      some (s1, n2x))
    (hst1 : (s1.row row).get openingCol = value)
    (h2 : setData cfg s1 row openingCol value = some (s2, b2, m2)) :
    ∀ k, annotEqAt s1 s2 k := by
  set s0 := writeCell s row openingCol value with hs0def
  set A := (dateDataCheckCore cfg s0 value row openingCol true).1 with hAdef
  set SB := siblingReval cfg (s0.row row) A row openingCol true with hSBdef
  set ref := (s0.row row).dossierRef with hrefdef
  set v4 := (SB.row drow).openingsdatum with hv4def
  set v5 := (SB.row drow).sluitingsdatum with hv5def
  have hAd : A.data = s0.data := by
    rw [hAdef]
    exact dateDataCheckCore_data ..
  have hSBd : SB.data = s0.data := by
    rw [hSBdef, siblingReval_data]
    exact hAd
  have hSBrow : SB.row row = s0.row row := row_eq_of_data_eq hSBd row
  obtain ⟨hdlt, hdtyp, hdref⟩ := findDossierRow_spec SB ref drow hfindL
  have hner : row ≠ drow := by
    intro hre
    rw [← hre, hSBrow, htypR] at hdtyp
    exact absurd hdtyp (by decide)
  have hnerk : ∀ c c2 : Nat, ((drow : Nat), c) ≠ ((row : Nat), c2) := by
    intro c c2 hc
    exact hner (congrArg Prod.fst hc).symm
  have hskelSB3 : sameSkeleton SB s3L :=
    updateDossierDateRange_skeleton cfg SB ref openingCol s3L n3 hupdL
  have hs1Ld : s1L.data = s3L.data := by
    rw [hs1L]
    exact revalPair_data cfg s3L v4 v5 drow
  have hskelSB1L : sameSkeleton SB s1L :=
    sameSkeleton_trans hskelSB3 (sameSkeleton_of_data_eq hs1Ld)
  have hfind1L : findDossierRow s1L ref = some drow := by
    rw [findDossierRow_congr hskelSB1L ref]
    exact hfindL
  have hdtyp1L : (s1L.row drow).typ = "dossier" := by
    rw [(hskelSB1L.2 drow).1]
    exact hdtyp
  have hdref1L : (s1L.row drow).dossierRef = ref := by
    rw [(hskelSB1L.2 drow).2]
    exact hdref
  have hdlt1L : drow < s1L.data.length := by
    rw [hskelSB1L.1]
    exact hdlt
  have hs3Lrow : s3L.row row = SB.row row :=
    updateDossierDateRange_row_ne cfg SB ref openingCol s3L n3 hupdL row
      (fun d hd => by
        rw [hfindL] at hd
        injection hd with hdd
        exact hdd ▸ hner)
  have hs1Lrow : s1L.row row = s0.row row := by
    rw [row_eq_of_data_eq hs1Ld row, hs3Lrow, hSBrow]
  have hrefs1L : (s1L.row row).dossierRef = ref := by
    rw [hs1Lrow, hrefdef]
  rw [hrefs1L] at hupd2
  have hny1L : mapLookup s1L.colors (drow, openingCol) ≠ some Color.YELLOW ∧
      mapLookup s1L.colors (drow, closingCol) ≠ some Color.YELLOW := by
    rw [hs1L]
    exact revalPair_not_yellow cfg s3L v4 v5 drow
  have hf1 : ∀ k, k ≠ (drow, openingCol) → k ≠ (drow, closingCol) → annotEqAt SB s1 k := by
    intro k hk4 hk5
    refine annotEqAt_trans (updateDossierDateRange_annotEqAt cfg SB ref openingCol s3L n3
      hupdL k ?_) (annotEqAt_trans ?_ (updateDossierDateRange_annotEqAt cfg s1L ref
        openingCol s1 n2x hupd2 k ?_))
    · intro d hd
      rw [hfindL] at hd
      injection hd with hdd
      exact ⟨hdd ▸ hk4, hdd ▸ hk5⟩
    · rw [hs1L]
      exact revalPair_annotEqAt cfg s3L v4 v5 drow k hk4 hk5
    · intro d hd
      rw [hfind1L] at hd
      injection hd with hdd
      exact ⟨hdd ▸ hk4, hdd ▸ hk5⟩
  have hs1row : s1.row row = s0.row row := by
    rw [updateDossierDateRange_row_ne cfg s1L ref openingCol s1 n2x hupd2 row
      (fun d hd => by
        rw [hfind1L] at hd
        injection hd with hdd
        exact hdd ▸ hner), hs1Lrow]
  have hs1ny : mapLookup s1.colors (row, openingCol) ≠ some Color.YELLOW := by
    rw [(hf1 (row, openingCol) (Ne.symm (hnerk openingCol openingCol))
      (Ne.symm (hnerk closingCol openingCol))).1, hSBdef]
    exact siblingReval_preserve_not_yellow cfg (s0.row row) A row openingCol true
      (row, openingCol) (by
        rw [hAdef]
        exact dateDataCheckCore_not_yellow cfg s0 value row openingCol true (Or.inl rfl))
  set s0b := writeCell s1 row openingCol value with hs0bdef
  have hs0bd : s0b.data = s1.data :=
    writeCell_data_id s1 row openingCol value hst1 (by decide)
  have hs0brow : s0b.row row = s0.row row := by
    rw [row_eq_of_data_eq hs0bd row, hs1row]
  have htyp2 : (s0b.row row).typ = "stuk" := by
    rw [hs0brow]
    exact htypR
  rcases setData_cases cfg s1 row openingCol value s2 b2 m2 h2 with
    ⟨hy2, _, _, _⟩ | ⟨_, _, hbr2⟩
  · exact absurd hy2 hs1ny
  rcases hbr2 with ⟨hc3, _, _⟩ | ⟨_, _, s1c2V, vd2, mm2, hst2, hrest2⟩ | ⟨_, hns, _, _⟩ |
    ⟨_, hg2, _, _, _⟩
  · exact absurd hc3 (by decide)
  · rcases dateDataCheckStuk_cases cfg s0b value row openingCol s1c2V vd2 mm2 hst2 with
      ⟨hveq, _, _, _⟩ | ⟨_, hcoref2, _, _, _⟩ |
      ⟨_, _, SB2x, drow2, s3L2, n3b, hSB2e, hfind2, hupd3, hs1c2eV, hvd2, _⟩
    · exact absurd hveq hvne
    · have hdec2 : coreDecideAt cfg s0b value row openingCol true =
          coreDecideAt cfg s0 value row openingCol true :=
        coreDecideAt_stuk_congr cfg value row openingCol hs0brow
      rw [(dateDataCheckCore_match cfg value row openingCol true hdec2).1, hcoret] at hcoref2
      cases hcoref2
    · set A2 := (dateDataCheckCore cfg s0b value row openingCol true).1 with hA2def
      rw [hs0brow] at hSB2e
      have href0b : (s0b.row row).dossierRef = ref := by
        rw [hs0brow, hrefdef]
      rw [href0b] at hfind2 hupd3
      have hA2d : A2.data = s0b.data := by
        rw [hA2def]
        exact dateDataCheckCore_data ..
      have hSB2d : SB2x.data = s0b.data := by
        rw [hSB2e, siblingReval_data]
        exact hA2d
      have hskel1 : sameSkeleton SB s1 :=
        sameSkeleton_trans hskelSB1L
          (updateDossierDateRange_skeleton cfg s1L ref openingCol s1 n2x hupd2)
      have hskelSB2 : sameSkeleton SB SB2x :=
        sameSkeleton_trans hskel1 (sameSkeleton_of_data_eq (by rw [hSB2d, hs0bd]))
      have hfindSB2 : findDossierRow SB2x ref = some drow := by
        rw [findDossierRow_congr hskelSB2 ref]
        exact hfindL
      have hdd2 : drow2 = drow := by
        rw [hfindSB2] at hfind2
        exact (Option.some.inj hfind2).symm
      rw [hdd2] at hs1c2eV
      have hskelSB3L2 : sameSkeleton SB2x s3L2 :=
        updateDossierDateRange_skeleton cfg SB2x ref openingCol s3L2 n3b hupd3
      have hs1c2d3 : s1c2V.data = s3L2.data := by
        rw [hs1c2eV]
        exact revalPair_data cfg s3L2 _ _ drow
      have hfindc2 : findDossierRow s1c2V ref = some drow := by
        rw [findDossierRow_congr (sameSkeleton_trans hskelSB2 (sameSkeleton_trans hskelSB3L2
          (sameSkeleton_of_data_eq hs1c2d3))) ref]
        exact hfindL
      have hs3L2row : s3L2.row row = SB2x.row row :=
        updateDossierDateRange_row_ne cfg SB2x ref openingCol s3L2 n3b hupd3 row
          (fun d hd => by
            rw [hfindSB2] at hd
            injection hd with hdd
            exact hdd ▸ hner)
      have hSB2row : SB2x.row row = s0.row row := by
        rw [row_eq_of_data_eq hSB2d row, hs0brow]
      have hrefc2 : (s1c2V.row row).dossierRef = ref := by
        rw [row_eq_of_data_eq hs1c2d3 row, hs3L2row, hSB2row, hrefdef]
      rcases hrest2 with ⟨_, s2x, n2y, hupd4, hs2e, _⟩ | ⟨hvdf, _, _⟩
      · rw [hrefc2] at hupd4
        have hdec2 : coreDecideAt cfg s0b value row openingCol true =
            coreDecideAt cfg s0 value row openingCol true :=
          coreDecideAt_stuk_congr cfg value row openingCol hs0brow
        have hA2row : A2.row row = A.row row := by
          rw [row_eq_of_data_eq hA2d row, hs0brow, row_eq_of_data_eq hAd row]
        have hm1 : runMatch s0 A s0b A2 := by
          rw [hAdef, hA2def]
          exact (dateDataCheckCore_match cfg value row openingCol true hdec2).2
        have hdA : ∀ c v, coreDecideAt cfg A2 v row c true = coreDecideAt cfg A v row c true :=
          fun c v => coreDecideAt_stuk_congr cfg v row c hA2row
        have hm2 : runMatch A SB A2 SB2x := by
          rw [hSBdef, hSB2e]
          exact siblingReval_match cfg (s0.row row) row openingCol true hdA
        have hmpre : runMatch s0 SB s0b SB2x := runMatch_comp hm1 hm2
        have helse : ∀ k, k ≠ (drow, openingCol) → k ≠ (drow, closingCol) →
            annotEqAt s1 s2 k := by
          intro k hk4 hk5
          have f1 := hf1 k hk4 hk5
          have f2a : annotEqAt SB2x s3L2 k :=
            updateDossierDateRange_annotEqAt cfg SB2x ref openingCol s3L2 n3b hupd3 k
              (fun d hd => by
                rw [hfindSB2] at hd
                injection hd with hdd
                exact ⟨hdd ▸ hk4, hdd ▸ hk5⟩)
          have f2b : annotEqAt s3L2 s1c2V k := by
            rw [hs1c2eV]
            exact revalPair_annotEqAt cfg s3L2 _ _ drow k hk4 hk5
          have f2c : annotEqAt s1c2V s2 k := by
            rw [hs2e]
            exact updateDossierDateRange_annotEqAt cfg s1c2V ref openingCol s2x n2y hupd4 k
              (fun d hd => by
                rw [hfindc2] at hd
                injection hd with hdd
                exact ⟨hdd ▸ hk4, hdd ▸ hk5⟩)
          have f2 : annotEqAt SB2x s2 k := annotEqAt_trans f2a (annotEqAt_trans f2b f2c)
          rcases hmpre k with hdet | ⟨_, hu2⟩
          · exact ⟨f2.1.trans (hdet.1.symm.trans f1.1.symm),
              f2.2.trans (hdet.2.symm.trans f1.2.symm)⟩
          · exact annotEqAt_trans (show annotEqAt s1 s0b k from ⟨rfl, rfl⟩)
              (annotEqAt_trans hu2 f2)
        obtain ⟨drowO, hfindOx, outO⟩ :=
          updateDossierDateRange_resolve_opening cfg s1L ref hupd2
        have hddO : drowO = drow := by
          rw [hfind1L] at hfindOx
          exact (Option.some.inj hfindOx).symm
        rw [hddO] at outO
        rcases outO with ⟨hs1e, hskipO⟩ | ⟨_, hyelO, _, _⟩ | ⟨hempO, _, _, hs1e⟩
        · set LO := getDateValuesForDossierRef cfg s1L ref openingCol with hLOdef
          obtain ⟨drowIx, hfindIx, outI⟩ :=
            updateDossierDateRange_resolve_opening cfg SB ref hupdL
          have hddI : drowIx = drow := by
            rw [hfindL] at hfindIx
            exact (Option.some.inj hfindIx).symm
          rw [hddI] at outI
          set LI := getDateValuesForDossierRef cfg SB ref openingCol with hLIdef
          have h3eSB : s3L = SB := by
            rcases outI with ⟨h3, _⟩ | ⟨h3, _, _, _⟩ | ⟨hempI, hgI, _, h3w⟩
            · exact h3
            · exact h3
            · exfalso
              have hs3Ldata : s3L.data =
                  (writeCell SB drow openingCol (listMinD LI)).data := by
                rw [h3w]
                exact dateDataCheckDossier_data ..
              have hwdata : s1L.data = (writeCell SB drow openingCol (listMinD LI)).data := by
                rw [hs1Ld, hs3Ldata]
              have hLOIw : LO = LI := by
                rw [hLOdef, hLIdef]
                rw [getDateValues_data_congr cfg hwdata ref openingCol]
                exact getDateValues_writeCell cfg SB drow openingCol (listMinD LI) ref
                  openingCol (Or.inr (Or.inl rfl)) (by rw [hdtyp]; decide)
              have hstored1L : (s1L.row drow).openingsdatum = listMinD LI := by
                rw [row_eq_of_data_eq hwdata drow,
                  writeCell_row_self SB drow openingCol (listMinD LI) hdlt]
                exact Row.opening_set_self _ _
              rcases hskipO with hsk | hsk
              · rw [hLOIw] at hsk
                rw [hsk] at hempI
                cases hempI
              · rw [hstored1L, hLOIw, strLtB_irrefl] at hsk
                cases hsk
          have hSB2SB : SB2x.data = SB.data := by
            rw [hSB2d, hs0bd, hs1e, hs1Ld, h3eSB]
          have hv4b : (SB2x.row drow).openingsdatum = v4 := by
            rw [row_eq_of_data_eq hSB2SB drow, hv4def]
          have hv5b : (SB2x.row drow).sluitingsdatum = v5 := by
            rw [row_eq_of_data_eq hSB2SB drow, hv5def]
          rw [hv4b, hv5b] at hs1c2eV
          have hs1LdataSB : s1L.data = SB.data := by
            rw [hs1Ld, h3eSB]
          have hLOI : LO = LI := by
            rw [hLOdef, hLIdef]
            exact getDateValues_data_congr cfg hs1LdataSB ref openingCol
          have hst1L : (s1L.row drow).openingsdatum = (SB.row drow).openingsdatum := by
            rw [row_eq_of_data_eq hs1LdataSB drow]
          obtain ⟨drowI2, hfindI2x, outI2⟩ :=
            updateDossierDateRange_resolve_opening cfg SB2x ref hupd3
          have hddI2 : drowI2 = drow := by
            rw [hfindSB2] at hfindI2x
            exact (Option.some.inj hfindI2x).symm
          rw [hddI2] at outI2
          have hLI2 : getDateValuesForDossierRef cfg SB2x ref openingCol = LI := by
            rw [hLIdef]
            exact getDateValues_data_congr cfg hSB2SB ref openingCol
          have hstSB2 : (SB2x.row drow).openingsdatum = (SB.row drow).openingsdatum := by
            rw [row_eq_of_data_eq hSB2SB drow]
          have h3e2 : s3L2 = SB2x := by
            rcases outI2 with ⟨h3, _⟩ | ⟨h3, _, _, _⟩ | ⟨hempI2, hgI2, _, _⟩
            · exact h3
            · exact h3
            · exfalso
              rcases hskipO with hsk | hsk
              · rw [hLOI, ← hLI2] at hsk
                rw [hsk] at hempI2
                cases hempI2
              · rw [hst1L, ← hstSB2, hLOI, ← hLI2] at hsk
                rw [hgI2] at hsk
                cases hsk
          obtain ⟨drowO2, hfindO2x, outO2⟩ :=
            updateDossierDateRange_resolve_opening cfg s1c2V ref hupd4
          have hddO2 : drowO2 = drow := by
            rw [hfindc2] at hfindO2x
            exact (Option.some.inj hfindO2x).symm
          rw [hddO2] at outO2
          have hc2data : s1c2V.data = SB.data := by
            rw [hs1c2d3, h3e2, hSB2SB]
          have hLO2 : getDateValuesForDossierRef cfg s1c2V ref openingCol = LI := by
            rw [hLIdef]
            exact getDateValues_data_congr cfg hc2data ref openingCol
          have hstc2 : (s1c2V.row drow).openingsdatum = (SB.row drow).openingsdatum := by
            rw [row_eq_of_data_eq hc2data drow]
          have houter2 : s2 = s1c2V := by
            rcases outO2 with ⟨h3, _⟩ | ⟨h3, _, _, _⟩ | ⟨hempO2, hgO2, _, _⟩
            · rw [hs2e, h3]
            · rw [hs2e, h3]
            · exfalso
              rcases hskipO with hsk | hsk
              · rw [hLOI, ← hLO2] at hsk
                rw [hsk] at hempO2
                cases hempO2
              · rw [hst1L, ← hstc2, hLOI, ← hLO2] at hsk
                rw [hgO2] at hsk
                cases hsk
          have hdet := revalPair_det cfg v4 v5 drow
            (show s3L2.data = s3L.data by rw [h3e2, h3eSB, hSB2SB])
          intro k
          by_cases hk4 : k = (drow, openingCol)
          · subst hk4
            rw [hs1e, hs1L, houter2, hs1c2eV]
            exact annDetAt_symm_goal hdet.1
          by_cases hk5 : k = (drow, closingCol)
          · subst hk5
            rw [hs1e, hs1L, houter2, hs1c2eV]
            exact annDetAt_symm_goal hdet.2
          exact helse k hk4 hk5
        · exact absurd hyelO hny1L.1
        · set LO := getDateValuesForDossierRef cfg s1L ref openingCol with hLOdef
          set boundO := listMinD LO with hboundOdef
          set wO := writeCell s1L drow openingCol boundO with hwOdef
          have hs1dataO : s1.data = wO.data := by
            rw [hs1e]
            exact dateDataCheckDossier_data ..
          have hstoredO : (wO.row drow).openingsdatum = boundO := by
            rw [hwOdef, writeCell_row_self s1L drow openingCol boundO hdlt1L]
            exact Row.opening_set_self _ _
          have hrefwO : (wO.row drow).dossierRef = ref := by
            rw [hwOdef, writeCell_row_self s1L drow openingCol boundO hdlt1L,
              Row.ref_set _ _ _ (Or.inr (Or.inl rfl))]
            exact hdref1L
          have hLwO : getDateValuesForDossierRef cfg wO ref openingCol = LO := by
            rw [hwOdef, getDateValues_writeCell cfg s1L drow openingCol boundO ref openingCol
              (Or.inr (Or.inl rfl)) (by rw [hdtyp1L]; decide)]
          have hmem : boundO ∈ LO := by
            rw [hboundOdef]
            exact listMinD_mem (isEmpty_false_ne_nil hempO)
          obtain ⟨dO, hpO, hvO⟩ := getDateValues_mem_spec cfg s1L ref openingCol boundO hmem
          have hD : (coreDecideAt cfg wO boundO drow openingCol false).1 = CoreOut.unmark ∨
              (coreDecideAt cfg wO boundO drow openingCol false).1 = CoreOut.pair := by
            unfold coreDecideAt
            rw [hrefwO, hLwO]
            exact coreDecide_written_opening cfg (wO.row drow) boundO LO
              (getDateValuesForDossierRef cfg wO ref closingCol) dO hpO hvO hstoredO
              hboundOdef
          have hSB2wO : SB2x.data = wO.data := by
            rw [hSB2d, hs0bd, hs1dataO]
          obtain ⟨drowI2, hfindI2x, outI2⟩ :=
            updateDossierDateRange_resolve_opening cfg SB2x ref hupd3
          have hddI2 : drowI2 = drow := by
            rw [hfindSB2] at hfindI2x
            exact (Option.some.inj hfindI2x).symm
          rw [hddI2] at outI2
          have hLSB2 : getDateValuesForDossierRef cfg SB2x ref openingCol = LO := by
            rw [getDateValues_data_congr cfg hSB2wO ref openingCol]
            exact hLwO
          have hstSB2 : (SB2x.row drow).openingsdatum = boundO := by
            rw [row_eq_of_data_eq hSB2wO drow]
            exact hstoredO
          have hs1nyd : mapLookup s1.colors (drow, openingCol) ≠ some Color.YELLOW := by
            rw [hs1e]
            exact dateDataCheckDossier_not_yellow cfg wO boundO drow openingCol (Or.inl rfl)
          have hann0b2 : annotEqAt s0b SB2x (drow, openingCol) := by
            rw [hSB2e]
            exact annotEqAt_trans
              (dateDataCheckCore_annotEqAt cfg s0b value row openingCol true
                (drow, openingCol) (hnerk openingCol openingCol)
                (hnerk openingCol openingCol) (hnerk openingCol closingCol))
              (siblingReval_annotEqAt cfg (s0.row row) _ row openingCol true
                (drow, openingCol) (hnerk openingCol openingCol)
                (hnerk openingCol closingCol))
          have h3struct : s3L2 =
              (dateDataCheckDossier cfg (writeCell SB2x drow openingCol boundO) boundO drow
                openingCol).1 := by
            rcases outI2 with ⟨_, hskipI2⟩ | ⟨_, hyelI2, _, _⟩ | ⟨_, _, _, h3w⟩
            · exfalso
              rcases hskipI2 with hsk | hsk
              · rw [hLSB2] at hsk
                rw [hsk] at hempO
                cases hempO
              · rw [hstSB2, hLSB2, ← hboundOdef, strLtB_irrefl] at hsk
                cases hsk
            · exfalso
              have hcc := hann0b2.1
              rw [hyelI2] at hcc
              exact hs1nyd hcc.symm
            · rw [hLSB2, ← hboundOdef] at h3w
              exact h3w
          set wI2 := writeCell SB2x drow openingCol boundO with hwI2def
          have hwI2data : wI2.data = wO.data := by
            rw [hwI2def, writeCell_data_id SB2x drow openingCol boundO
              (by
                rw [show (SB2x.row drow).get openingCol = (SB2x.row drow).openingsdatum
                  from rfl]
                exact hstSB2) (by decide)]
            exact hSB2wO
          have hs3L2data : s3L2.data = wO.data := by
            rw [h3struct, dateDataCheckDossier_data]
            exact hwI2data
          have hs1c2data : s1c2V.data = wO.data := by
            rw [hs1c2d3]
            exact hs3L2data
          obtain ⟨drowO2, hfindO2x, outO2⟩ :=
            updateDossierDateRange_resolve_opening cfg s1c2V ref hupd4
          have hddO2 : drowO2 = drow := by
            rw [hfindc2] at hfindO2x
            exact (Option.some.inj hfindO2x).symm
          rw [hddO2] at outO2
          have hLc2 : getDateValuesForDossierRef cfg s1c2V ref openingCol = LO := by
            rw [getDateValues_data_congr cfg hs1c2data ref openingCol]
            exact hLwO
          have hstc2 : (s1c2V.row drow).openingsdatum = boundO := by
            rw [row_eq_of_data_eq hs1c2data drow]
            exact hstoredO
          have hc2ny : mapLookup s1c2V.colors (drow, openingCol) ≠ some Color.YELLOW := by
            rw [hs1c2eV]
            exact (revalPair_not_yellow cfg s3L2 _ _ drow).1
          have hs2struct : s2 =
              (dateDataCheckDossier cfg (writeCell s1c2V drow openingCol boundO) boundO drow
                openingCol).1 := by
            rcases outO2 with ⟨_, hskipO2⟩ | ⟨_, hyelO2, _, _⟩ | ⟨_, _, _, h2w⟩
            · exfalso
              rcases hskipO2 with hsk | hsk
              · rw [hLc2] at hsk
                rw [hsk] at hempO
                cases hempO
              · rw [hstc2, hLc2, ← hboundOdef, strLtB_irrefl] at hsk
                cases hsk
            · exact absurd hyelO2 hc2ny
            · rw [hLc2, ← hboundOdef] at h2w
              rw [hs2e]
              exact h2w
          set wO2 := writeCell s1c2V drow openingCol boundO with hwO2def
          have hwO2data : wO2.data = wO.data := by
            rw [hwO2def, writeCell_data_id s1c2V drow openingCol boundO
              (by
                rw [show (s1c2V.row drow).get openingCol = (s1c2V.row drow).openingsdatum
                  from rfl]
                exact hstc2) (by decide)]
            exact hs1c2data
          have hdet := dateDataCheckDossier_write_det cfg drow openingCol boundO hwO2data
            (Or.inl rfl) hD
          intro k
          by_cases hk4 : k = (drow, openingCol)
          · subst hk4
            rw [hs1e, hs2struct]
            exact annDetAt_symm_goal hdet.1
          by_cases hk5 : k = (drow, closingCol)
          · subst hk5
            rw [hs1e, hs2struct]
            exact annDetAt_symm_goal hdet.2
          exact helse k hk4 hk5
      · rw [hvd2] at hvdf
        cases hvdf
  · exact absurd htyp2 hns
  · exact absurd rfl hg2

/-- The closing-column analogue of `stuk_idem_P3_opening`. -/
theorem stuk_idem_P3_closing (cfg : Cfg) (s : ModelState) (row : Nat) (value : String)
    (s1 s2 s3L s1L : ModelState) (drow : Nat) (n3 n2x : Nat) (b2 : Bool) (m2 : Nat)
    (htypR : ((writeCell s row closingCol value).row row).typ = "stuk")
    (hvne : value ≠ "")
    (hcoret : (dateDataCheckCore cfg (writeCell s row closingCol value) value row
      closingCol true).2 = true)
    (hfindL : findDossierRow
      (siblingReval cfg ((writeCell s row closingCol value).row row)
        (dateDataCheckCore cfg (writeCell s row closingCol value) value row closingCol
          true).1 row closingCol true)
      ((writeCell s row closingCol value).row row).dossierRef = some drow)
    (hupdL : updateDossierDateRange cfg
      (siblingReval cfg ((writeCell s row closingCol value).row row)
        (dateDataCheckCore cfg (writeCell s row closingCol value) value row closingCol
          true).1 row closingCol true)
      ((writeCell s row closingCol value).row row).dossierRef closingCol = some (s3L, n3))
    (hs1L : s1L = (dateDataCheckReval cfg
      (dateDataCheckReval cfg s3L
        ((siblingReval cfg ((writeCell s row closingCol value).row row)
          (dateDataCheckCore cfg (writeCell s row closingCol value) value row closingCol
            true).1 row closingCol true).row drow).openingsdatum drow openingCol false).1
      ((siblingReval cfg ((writeCell s row closingCol value).row row)
        (dateDataCheckCore cfg (writeCell s row closingCol value) value row closingCol
          true).1 row closingCol true).row drow).sluitingsdatum drow closingCol false).1)
    (hupd2 : updateDossierDateRange cfg s1L (s1L.row row).dossierRef closingCol =
      some (s1, n2x))
    (hst1 : (s1.row row).get closingCol = value)
    (h2 : setData cfg s1 row closingCol value = some (s2, b2, m2)) :
    ∀ k, annotEqAt s1 s2 k := by
  set s0 := writeCell s row closingCol value with hs0def
  set A := (dateDataCheckCore cfg s0 value row closingCol true).1 with hAdef
  set SB := siblingReval cfg (s0.row row) A row closingCol true with hSBdef
  set ref := (s0.row row).dossierRef with hrefdef
  set v4 := (SB.row drow).openingsdatum with hv4def
  set v5 := (SB.row drow).sluitingsdatum with hv5def
  have hAd : A.data = s0.data := by
    rw [hAdef]
    exact dateDataCheckCore_data ..
  have hSBd : SB.data = s0.data := by
    rw [hSBdef, siblingReval_data]
    exact hAd
  have hSBrow : SB.row row = s0.row row := row_eq_of_data_eq hSBd row
  obtain ⟨hdlt, hdtyp, hdref⟩ := findDossierRow_spec SB ref drow hfindL
  have hner : row ≠ drow := by
    intro hre
    rw [← hre, hSBrow, htypR] at hdtyp
    exact absurd hdtyp (by decide)
  have hnerk : ∀ c c2 : Nat, ((drow : Nat), c) ≠ ((row : Nat), c2) := by
    intro c c2 hc
    exact hner (congrArg Prod.fst hc).symm
  have hskelSB3 : sameSkeleton SB s3L :=
    updateDossierDateRange_skeleton cfg SB ref closingCol s3L n3 hupdL
  have hs1Ld : s1L.data = s3L.data := by
    rw [hs1L]
    exact revalPair_data cfg s3L v4 v5 drow
  have hskelSB1L : sameSkeleton SB s1L :=
    sameSkeleton_trans hskelSB3 (sameSkeleton_of_data_eq hs1Ld)
  have hfind1L : findDossierRow s1L ref = some drow := by
    rw [findDossierRow_congr hskelSB1L ref]
    exact hfindL
  have hdtyp1L : (s1L.row drow).typ = "dossier" := by
    rw [(hskelSB1L.2 drow).1]
    exact hdtyp
  have hdref1L : (s1L.row drow).dossierRef = ref := by
    rw [(hskelSB1L.2 drow).2]
    exact hdref
  have hdlt1L : drow < s1L.data.length := by
    rw [hskelSB1L.1]
    exact hdlt
  have hs3Lrow : s3L.row row = SB.row row :=
    updateDossierDateRange_row_ne cfg SB ref closingCol s3L n3 hupdL row
      (fun d hd => by
        rw [hfindL] at hd
        injection hd with hdd
        exact hdd ▸ hner)
  have hs1Lrow : s1L.row row = s0.row row := by
    rw [row_eq_of_data_eq hs1Ld row, hs3Lrow, hSBrow]
  have hrefs1L : (s1L.row row).dossierRef = ref := by
    rw [hs1Lrow, hrefdef]
  rw [hrefs1L] at hupd2
  have hny1L : mapLookup s1L.colors (drow, openingCol) ≠ some Color.YELLOW ∧
      mapLookup s1L.colors (drow, closingCol) ≠ some Color.YELLOW := by
    rw [hs1L]
    exact revalPair_not_yellow cfg s3L v4 v5 drow
  have hf1 : ∀ k, k ≠ (drow, openingCol) → k ≠ (drow, closingCol) → annotEqAt SB s1 k := by
    intro k hk4 hk5
    refine annotEqAt_trans (updateDossierDateRange_annotEqAt cfg SB ref closingCol s3L n3
      hupdL k ?_) (annotEqAt_trans ?_ (updateDossierDateRange_annotEqAt cfg s1L ref
        closingCol s1 n2x hupd2 k ?_))
    · intro d hd
      rw [hfindL] at hd
      injection hd with hdd
      exact ⟨hdd ▸ hk4, hdd ▸ hk5⟩
    · rw [hs1L]
      exact revalPair_annotEqAt cfg s3L v4 v5 drow k hk4 hk5
    · intro d hd
      rw [hfind1L] at hd
      injection hd with hdd
      exact ⟨hdd ▸ hk4, hdd ▸ hk5⟩
  have hs1row : s1.row row = s0.row row := by
    rw [updateDossierDateRange_row_ne cfg s1L ref closingCol s1 n2x hupd2 row
      (fun d hd => by
        rw [hfind1L] at hd
        injection hd with hdd
        exact hdd ▸ hner), hs1Lrow]
  have hs1ny : mapLookup s1.colors (row, closingCol) ≠ some Color.YELLOW := by
    rw [(hf1 (row, closingCol) (Ne.symm (hnerk openingCol closingCol))
      (Ne.symm (hnerk closingCol closingCol))).1, hSBdef]
    exact siblingReval_preserve_not_yellow cfg (s0.row row) A row closingCol true
      (row, closingCol) (by
        rw [hAdef]
        exact dateDataCheckCore_not_yellow cfg s0 value row closingCol true (Or.inr rfl))
  set s0b := writeCell s1 row closingCol value with hs0bdef
  have hs0bd : s0b.data = s1.data :=
    writeCell_data_id s1 row closingCol value hst1 (by decide)
  have hs0brow : s0b.row row = s0.row row := by
    rw [row_eq_of_data_eq hs0bd row, hs1row]
  have htyp2 : (s0b.row row).typ = "stuk" := by
    rw [hs0brow]
    exact htypR
  rcases setData_cases cfg s1 row closingCol value s2 b2 m2 h2 with
    ⟨hy2, _, _, _⟩ | ⟨_, _, hbr2⟩
  · exact absurd hy2 hs1ny
  rcases hbr2 with ⟨hc3, _, _⟩ | ⟨_, _, s1c2V, vd2, mm2, hst2, hrest2⟩ | ⟨_, hns, _, _⟩ |
    ⟨_, _, hg2, _, _⟩
  · exact absurd hc3 (by decide)
  · rcases dateDataCheckStuk_cases cfg s0b value row closingCol s1c2V vd2 mm2 hst2 with
      ⟨hveq, _, _, _⟩ | ⟨_, hcoref2, _, _, _⟩ |
      ⟨_, _, SB2x, drow2, s3L2, n3b, hSB2e, hfind2, hupd3, hs1c2eV, hvd2, _⟩
    · exact absurd hveq hvne
    · have hdec2 : coreDecideAt cfg s0b value row closingCol true =
          coreDecideAt cfg s0 value row closingCol true :=
        coreDecideAt_stuk_congr cfg value row closingCol hs0brow
      rw [(dateDataCheckCore_match cfg value row closingCol true hdec2).1, hcoret] at hcoref2
      cases hcoref2
    · set A2 := (dateDataCheckCore cfg s0b value row closingCol true).1 with hA2def
      rw [hs0brow] at hSB2e
      have href0b : (s0b.row row).dossierRef = ref := by
        rw [hs0brow, hrefdef]
      rw [href0b] at hfind2 hupd3
      have hA2d : A2.data = s0b.data := by
        rw [hA2def]
        exact dateDataCheckCore_data ..
      have hSB2d : SB2x.data = s0b.data := by
        rw [hSB2e, siblingReval_data]
        exact hA2d
      have hskel1 : sameSkeleton SB s1 :=
        sameSkeleton_trans hskelSB1L
          (updateDossierDateRange_skeleton cfg s1L ref closingCol s1 n2x hupd2)
      have hskelSB2 : sameSkeleton SB SB2x :=
        sameSkeleton_trans hskel1 (sameSkeleton_of_data_eq (by rw [hSB2d, hs0bd]))
      have hfindSB2 : findDossierRow SB2x ref = some drow := by
        rw [findDossierRow_congr hskelSB2 ref]
        exact hfindL
      have hdd2 : drow2 = drow := by
        rw [hfindSB2] at hfind2
        exact (Option.some.inj hfind2).symm
      rw [hdd2] at hs1c2eV
      have hskelSB3L2 : sameSkeleton SB2x s3L2 :=
        updateDossierDateRange_skeleton cfg SB2x ref closingCol s3L2 n3b hupd3
      have hs1c2d3 : s1c2V.data = s3L2.data := by
        rw [hs1c2eV]
        exact revalPair_data cfg s3L2 _ _ drow
      have hfindc2 : findDossierRow s1c2V ref = some drow := by
        rw [findDossierRow_congr (sameSkeleton_trans hskelSB2 (sameSkeleton_trans hskelSB3L2
          (sameSkeleton_of_data_eq hs1c2d3))) ref]
        exact hfindL
      have hs3L2row : s3L2.row row = SB2x.row row :=
        updateDossierDateRange_row_ne cfg SB2x ref closingCol s3L2 n3b hupd3 row
          (fun d hd => by
            rw [hfindSB2] at hd
            injection hd with hdd
            exact hdd ▸ hner)
      have hSB2row : SB2x.row row = s0.row row := by
        rw [row_eq_of_data_eq hSB2d row, hs0brow]
      have hrefc2 : (s1c2V.row row).dossierRef = ref := by
        rw [row_eq_of_data_eq hs1c2d3 row, hs3L2row, hSB2row, hrefdef]
      rcases hrest2 with ⟨_, s2x, n2y, hupd4, hs2e, _⟩ | ⟨hvdf, _, _⟩
      · rw [hrefc2] at hupd4
        have hdec2 : coreDecideAt cfg s0b value row closingCol true =
            coreDecideAt cfg s0 value row closingCol true :=
          coreDecideAt_stuk_congr cfg value row closingCol hs0brow
        have hA2row : A2.row row = A.row row := by
          rw [row_eq_of_data_eq hA2d row, hs0brow, row_eq_of_data_eq hAd row]
        have hm1 : runMatch s0 A s0b A2 := by
          rw [hAdef, hA2def]
          exact (dateDataCheckCore_match cfg value row closingCol true hdec2).2
        have hdA : ∀ c v, coreDecideAt cfg A2 v row c true = coreDecideAt cfg A v row c true :=
          fun c v => coreDecideAt_stuk_congr cfg v row c hA2row
        have hm2 : runMatch A SB A2 SB2x := by
          rw [hSBdef, hSB2e]
          exact siblingReval_match cfg (s0.row row) row closingCol true hdA
        have hmpre : runMatch s0 SB s0b SB2x := runMatch_comp hm1 hm2
        have helse : ∀ k, k ≠ (drow, openingCol) → k ≠ (drow, closingCol) →
            annotEqAt s1 s2 k := by
          intro k hk4 hk5
          have f1 := hf1 k hk4 hk5
          have f2a : annotEqAt SB2x s3L2 k :=
            updateDossierDateRange_annotEqAt cfg SB2x ref closingCol s3L2 n3b hupd3 k
              (fun d hd => by
                rw [hfindSB2] at hd
                injection hd with hdd
                exact ⟨hdd ▸ hk4, hdd ▸ hk5⟩)
          have f2b : annotEqAt s3L2 s1c2V k := by
            rw [hs1c2eV]
            exact revalPair_annotEqAt cfg s3L2 _ _ drow k hk4 hk5
          have f2c : annotEqAt s1c2V s2 k := by
            rw [hs2e]
            exact updateDossierDateRange_annotEqAt cfg s1c2V ref closingCol s2x n2y hupd4 k
              (fun d hd => by
                rw [hfindc2] at hd
                injection hd with hdd
                exact ⟨hdd ▸ hk4, hdd ▸ hk5⟩)
          have f2 : annotEqAt SB2x s2 k := annotEqAt_trans f2a (annotEqAt_trans f2b f2c)
          rcases hmpre k with hdet | ⟨_, hu2⟩
          · exact ⟨f2.1.trans (hdet.1.symm.trans f1.1.symm),
              f2.2.trans (hdet.2.symm.trans f1.2.symm)⟩
          · exact annotEqAt_trans (show annotEqAt s1 s0b k from ⟨rfl, rfl⟩)
              (annotEqAt_trans hu2 f2)
        obtain ⟨drowO, hfindOx, outO⟩ :=
          updateDossierDateRange_resolve_closing cfg s1L ref hupd2
        have hddO : drowO = drow := by
          rw [hfind1L] at hfindOx
          exact (Option.some.inj hfindOx).symm
        rw [hddO] at outO
        rcases outO with ⟨hs1e, hskipO⟩ | ⟨_, hyelO, _, _⟩ | ⟨hempO, _, _, hs1e⟩
        · set LO := getDateValuesForDossierRef cfg s1L ref closingCol with hLOdef
          obtain ⟨drowIx, hfindIx, outI⟩ :=
            updateDossierDateRange_resolve_closing cfg SB ref hupdL
          have hddI : drowIx = drow := by
            rw [hfindL] at hfindIx
            exact (Option.some.inj hfindIx).symm
          rw [hddI] at outI
          set LI := getDateValuesForDossierRef cfg SB ref closingCol with hLIdef
          have h3eSB : s3L = SB := by
            rcases outI with ⟨h3, _⟩ | ⟨h3, _, _, _⟩ | ⟨hempI, hgI, _, h3w⟩
            · exact h3
            · exact h3
            · exfalso
              have hs3Ldata : s3L.data =
                  (writeCell SB drow closingCol (listMaxD LI)).data := by
                rw [h3w]
                exact dateDataCheckDossier_data ..
              have hwdata : s1L.data = (writeCell SB drow closingCol (listMaxD LI)).data := by
                rw [hs1Ld, hs3Ldata]
              have hLOIw : LO = LI := by
                rw [hLOdef, hLIdef]
                rw [getDateValues_data_congr cfg hwdata ref closingCol]
                exact getDateValues_writeCell cfg SB drow closingCol (listMaxD LI) ref
                  closingCol (Or.inr (Or.inr rfl)) (by rw [hdtyp]; decide)
              have hstored1L : (s1L.row drow).sluitingsdatum = listMaxD LI := by
                rw [row_eq_of_data_eq hwdata drow,
                  writeCell_row_self SB drow closingCol (listMaxD LI) hdlt]
                exact Row.closing_set_self _ _
              rcases hskipO with hsk | hsk
              · rw [hLOIw] at hsk
                rw [hsk] at hempI
                cases hempI
              · rw [hstored1L, hLOIw, strLtB_irrefl] at hsk
                cases hsk
          have hSB2SB : SB2x.data = SB.data := by
            rw [hSB2d, hs0bd, hs1e, hs1Ld, h3eSB]
          have hv4b : (SB2x.row drow).openingsdatum = v4 := by
            rw [row_eq_of_data_eq hSB2SB drow, hv4def]
          have hv5b : (SB2x.row drow).sluitingsdatum = v5 := by
            rw [row_eq_of_data_eq hSB2SB drow, hv5def]
          rw [hv4b, hv5b] at hs1c2eV
          have hs1LdataSB : s1L.data = SB.data := by
            rw [hs1Ld, h3eSB]
          have hLOI : LO = LI := by
            rw [hLOdef, hLIdef]
            exact getDateValues_data_congr cfg hs1LdataSB ref closingCol
          have hst1L : (s1L.row drow).sluitingsdatum = (SB.row drow).sluitingsdatum := by
            rw [row_eq_of_data_eq hs1LdataSB drow]
          obtain ⟨drowI2, hfindI2x, outI2⟩ :=
            updateDossierDateRange_resolve_closing cfg SB2x ref hupd3
          have hddI2 : drowI2 = drow := by
            rw [hfindSB2] at hfindI2x
            exact (Option.some.inj hfindI2x).symm
          rw [hddI2] at outI2
          have hLI2 : getDateValuesForDossierRef cfg SB2x ref closingCol = LI := by
            rw [hLIdef]
            exact getDateValues_data_congr cfg hSB2SB ref closingCol
          have hstSB2 : (SB2x.row drow).sluitingsdatum = (SB.row drow).sluitingsdatum := by
            rw [row_eq_of_data_eq hSB2SB drow]
          have h3e2 : s3L2 = SB2x := by
            rcases outI2 with ⟨h3, _⟩ | ⟨h3, _, _, _⟩ | ⟨hempI2, hgI2, _, _⟩
            · exact h3
            · exact h3
            · exfalso
              rcases hskipO with hsk | hsk
              · rw [hLOI, ← hLI2] at hsk
                rw [hsk] at hempI2
                cases hempI2
              · rw [hst1L, ← hstSB2, hLOI, ← hLI2] at hsk
                rw [hgI2] at hsk
                cases hsk
          obtain ⟨drowO2, hfindO2x, outO2⟩ :=
            updateDossierDateRange_resolve_closing cfg s1c2V ref hupd4
          have hddO2 : drowO2 = drow := by
            rw [hfindc2] at hfindO2x
            exact (Option.some.inj hfindO2x).symm
          rw [hddO2] at outO2
          have hc2data : s1c2V.data = SB.data := by
            rw [hs1c2d3, h3e2, hSB2SB]
          have hLO2 : getDateValuesForDossierRef cfg s1c2V ref closingCol = LI := by
            rw [hLIdef]
            exact getDateValues_data_congr cfg hc2data ref closingCol
          have hstc2 : (s1c2V.row drow).sluitingsdatum = (SB.row drow).sluitingsdatum := by
            rw [row_eq_of_data_eq hc2data drow]
          have houter2 : s2 = s1c2V := by
            rcases outO2 with ⟨h3, _⟩ | ⟨h3, _, _, _⟩ | ⟨hempO2, hgO2, _, _⟩
            · rw [hs2e, h3]
            · rw [hs2e, h3]
            · exfalso
              rcases hskipO with hsk | hsk
              · rw [hLOI, ← hLO2] at hsk
                rw [hsk] at hempO2
                cases hempO2
              · rw [hst1L, ← hstc2, hLOI, ← hLO2] at hsk
                rw [hgO2] at hsk
                cases hsk
          have hdet := revalPair_det cfg v4 v5 drow
            (show s3L2.data = s3L.data by rw [h3e2, h3eSB, hSB2SB])
          intro k
          by_cases hk4 : k = (drow, openingCol)
          · subst hk4
            rw [hs1e, hs1L, houter2, hs1c2eV]
            exact annDetAt_symm_goal hdet.1
          by_cases hk5 : k = (drow, closingCol)
          · subst hk5
            rw [hs1e, hs1L, houter2, hs1c2eV]
            exact annDetAt_symm_goal hdet.2
          exact helse k hk4 hk5
        · exact absurd hyelO hny1L.2
        · set LO := getDateValuesForDossierRef cfg s1L ref closingCol with hLOdef
          set boundO := listMaxD LO with hboundOdef
          set wO := writeCell s1L drow closingCol boundO with hwOdef
          have hs1dataO : s1.data = wO.data := by
            rw [hs1e]
            exact dateDataCheckDossier_data ..
          have hstoredO : (wO.row drow).sluitingsdatum = boundO := by
            rw [hwOdef, writeCell_row_self s1L drow closingCol boundO hdlt1L]
            exact Row.closing_set_self _ _
          have hrefwO : (wO.row drow).dossierRef = ref := by
            rw [hwOdef, writeCell_row_self s1L drow closingCol boundO hdlt1L,
              Row.ref_set _ _ _ (Or.inr (Or.inr rfl))]
            exact hdref1L
          have hLwO : getDateValuesForDossierRef cfg wO ref closingCol = LO := by
            rw [hwOdef, getDateValues_writeCell cfg s1L drow closingCol boundO ref closingCol
              (Or.inr (Or.inr rfl)) (by rw [hdtyp1L]; decide)]
          have hmem : boundO ∈ LO := by
            rw [hboundOdef]
            exact listMaxD_mem (isEmpty_false_ne_nil hempO)
          obtain ⟨dO, hpO, hvO⟩ := getDateValues_mem_spec cfg s1L ref closingCol boundO hmem
          have hD : (coreDecideAt cfg wO boundO drow closingCol false).1 = CoreOut.unmark ∨
              (coreDecideAt cfg wO boundO drow closingCol false).1 = CoreOut.pair := by
            unfold coreDecideAt
            rw [hrefwO, hLwO]
            exact coreDecide_written_closing cfg (wO.row drow) boundO
              (getDateValuesForDossierRef cfg wO ref openingCol) LO dO hpO hvO hstoredO
              hboundOdef
          have hSB2wO : SB2x.data = wO.data := by
            rw [hSB2d, hs0bd, hs1dataO]
          obtain ⟨drowI2, hfindI2x, outI2⟩ :=
            updateDossierDateRange_resolve_closing cfg SB2x ref hupd3
          have hddI2 : drowI2 = drow := by
            rw [hfindSB2] at hfindI2x
            exact (Option.some.inj hfindI2x).symm
          rw [hddI2] at outI2
          have hLSB2 : getDateValuesForDossierRef cfg SB2x ref closingCol = LO := by
            rw [getDateValues_data_congr cfg hSB2wO ref closingCol]
            exact hLwO
          have hstSB2 : (SB2x.row drow).sluitingsdatum = boundO := by
            rw [row_eq_of_data_eq hSB2wO drow]
            exact hstoredO
          have hs1nyd : mapLookup s1.colors (drow, closingCol) ≠ some Color.YELLOW := by
            rw [hs1e]
            exact dateDataCheckDossier_not_yellow cfg wO boundO drow closingCol (Or.inr rfl)
          have hann0b2 : annotEqAt s0b SB2x (drow, closingCol) := by
            rw [hSB2e]
            exact annotEqAt_trans
              (dateDataCheckCore_annotEqAt cfg s0b value row closingCol true
                (drow, closingCol) (hnerk closingCol closingCol)
                (hnerk closingCol openingCol) (hnerk closingCol closingCol))
              (siblingReval_annotEqAt cfg (s0.row row) _ row closingCol true
                (drow, closingCol) (hnerk closingCol openingCol)
                (hnerk closingCol closingCol))
          have h3struct : s3L2 =
              (dateDataCheckDossier cfg (writeCell SB2x drow closingCol boundO) boundO drow
                closingCol).1 := by
            rcases outI2 with ⟨_, hskipI2⟩ | ⟨_, hyelI2, _, _⟩ | ⟨_, _, _, h3w⟩
            · exfalso
              rcases hskipI2 with hsk | hsk
              · rw [hLSB2] at hsk
                rw [hsk] at hempO
                cases hempO
              · rw [hstSB2, hLSB2, ← hboundOdef, strLtB_irrefl] at hsk
                cases hsk
            · exfalso
              have hcc := hann0b2.1
              rw [hyelI2] at hcc
              exact hs1nyd hcc.symm
            · rw [hLSB2, ← hboundOdef] at h3w
              exact h3w
          set wI2 := writeCell SB2x drow closingCol boundO with hwI2def
          have hwI2data : wI2.data = wO.data := by
            rw [hwI2def, writeCell_data_id SB2x drow closingCol boundO
              (by
                rw [show (SB2x.row drow).get closingCol = (SB2x.row drow).sluitingsdatum
                  from rfl]
                exact hstSB2) (by decide)]
            exact hSB2wO
          have hs3L2data : s3L2.data = wO.data := by
            rw [h3struct, dateDataCheckDossier_data]
            exact hwI2data
          have hs1c2data : s1c2V.data = wO.data := by
            rw [hs1c2d3]
            exact hs3L2data
          obtain ⟨drowO2, hfindO2x, outO2⟩ :=
            updateDossierDateRange_resolve_closing cfg s1c2V ref hupd4
          have hddO2 : drowO2 = drow := by
            rw [hfindc2] at hfindO2x
            exact (Option.some.inj hfindO2x).symm
          rw [hddO2] at outO2
          have hLc2 : getDateValuesForDossierRef cfg s1c2V ref closingCol = LO := by
            rw [getDateValues_data_congr cfg hs1c2data ref closingCol]
            exact hLwO
          have hstc2 : (s1c2V.row drow).sluitingsdatum = boundO := by
            rw [row_eq_of_data_eq hs1c2data drow]
            exact hstoredO
          have hc2ny : mapLookup s1c2V.colors (drow, closingCol) ≠ some Color.YELLOW := by
            rw [hs1c2eV]
            exact (revalPair_not_yellow cfg s3L2 _ _ drow).2
          have hs2struct : s2 =
              (dateDataCheckDossier cfg (writeCell s1c2V drow closingCol boundO) boundO drow
                closingCol).1 := by
            rcases outO2 with ⟨_, hskipO2⟩ | ⟨_, hyelO2, _, _⟩ | ⟨_, _, _, h2w⟩
            · exfalso
              rcases hskipO2 with hsk | hsk
              · rw [hLc2] at hsk
                rw [hsk] at hempO
                cases hempO
              · rw [hstc2, hLc2, ← hboundOdef, strLtB_irrefl] at hsk
                cases hsk
            · exact absurd hyelO2 hc2ny
            · rw [hLc2, ← hboundOdef] at h2w
              rw [hs2e]
              exact h2w
          set wO2 := writeCell s1c2V drow closingCol boundO with hwO2def
          have hwO2data : wO2.data = wO.data := by
            rw [hwO2def, writeCell_data_id s1c2V drow closingCol boundO
              (by
                rw [show (s1c2V.row drow).get closingCol = (s1c2V.row drow).sluitingsdatum
                  from rfl]
                exact hstc2) (by decide)]
            exact hs1c2data
          have hdet := dateDataCheckDossier_write_det cfg drow closingCol boundO hwO2data
            (Or.inr rfl) hD
          intro k
          by_cases hk4 : k = (drow, openingCol)
          · subst hk4
            rw [hs1e, hs2struct]
            exact annDetAt_symm_goal hdet.1
          by_cases hk5 : k = (drow, closingCol)
          · subst hk5
            rw [hs1e, hs2struct]
            exact annDetAt_symm_goal hdet.2
          exact helse k hk4 hk5
      · rw [hvd2] at hvdf
        cases hvdf
  · exact absurd htyp2 hns
  · exact absurd rfl hg2

/-- C3: for an existing row and a recognised column, running `setData`
twice in succession with the same cell and value leaves exactly the
annotation state (colors and tooltips at every cell) of the single run. -/
theorem C3_set_cell_idempotent (cfg : Cfg) (s : ModelState) (row col : Nat) (value : String)
    (s1 s2 : ModelState) (b1 b2 : Bool) (n1 n2 : Nat)
    (hrow : row < s.data.length) (hcol : col < 6)
    (h1 : setData cfg s row col value = some (s1, b1, n1))
    (h2 : setData cfg s1 row col value = some (s2, b2, n2)) :
    ∀ k, mapLookup s2.colors k = mapLookup s1.colors k ∧
      mapLookup s2.tooltips k = mapLookup s1.tooltips k := by
  rcases setData_cases cfg s row col value s1 b1 n1 h1 with
    ⟨hy1, hs1e, _, _⟩ | ⟨hny1, _, hbr1⟩
  · rcases setData_cases cfg s1 row col value s2 b2 n2 h2 with
      ⟨_, hs2e, _, _⟩ | ⟨hny2, _, _⟩
    · intro k
      rw [hs2e]
      exact annotEqAt_refl _ k
    · exfalso
      rw [hs1e] at hny2
      exact hny2 hy1
  have hst1 : (s1.row row).get col = value :=
    setData_stored cfg s row col value s1 b1 n1 h1 hrow hcol hny1
  rcases hbr1 with ⟨hc3, hs1e, _⟩ | ⟨hcolsD, hstukT, s1stk, vd, n1s, hst, hrest⟩ |
    ⟨hcolsD, htypN, hs1e, _⟩ | ⟨hn1, hn2, hn3, hs1e, _⟩
  · subst hc3
    have hny2 : mapLookup s1.colors (row, naamCol) ≠ some Color.YELLOW := by
      rw [hs1e]
      exact nameDataCheck_not_yellow (writeCell s row naamCol value) value row
    have hs1d : s1.data = (writeCell s row naamCol value).data := by
      rw [hs1e]
      exact nameDataCheck_data ..
    have hwd : (writeCell s1 row naamCol value).data = (writeCell s row naamCol value).data :=
      (writeCell_data_id s1 row naamCol value hst1 (by decide)).trans hs1d
    rcases setData_cases cfg s1 row naamCol value s2 b2 n2 h2 with
      ⟨hy2, _, _, _⟩ | ⟨_, _, hbr2⟩
    · exact absurd hy2 hny2
    rcases hbr2 with ⟨_, hs2e, _⟩ | ⟨hcd, _, _, _, _, _, _⟩ | ⟨hcd, _, _, _⟩ |
      ⟨hg1, _, _, _, _⟩
    · have hm := runMatch_comp (writeCell_match s s1 row naamCol value row naamCol value)
        (nameDataCheck_match value row naamCol (by rw [row_eq_of_data_eq hwd row]))
      intro k
      rw [hs1e, hs2e]
      exact runMatch_idem hm (fun k2 => by rw [hs1e]; exact annotEqAt_refl _ k2) k
    · rcases hcd with h | h <;> exact absurd h (by decide)
    · rcases hcd with h | h <;> exact absurd h (by decide)
    · exact absurd rfl hg1
  · rcases dateDataCheckStuk_cases cfg (writeCell s row col value) value row col s1stk vd
      n1s hst with
      ⟨hveq, hs1stke, hvd1, _⟩ | ⟨hvne2, hcoreF, hs1stke, hvdf, _⟩ |
      ⟨hvne3, hcoret3, s2v, drowv, s3v, n3v, hs2veq, hfindv, hupdv, hs1stke, hvd3, _⟩
    · rcases hrest with ⟨_, s2u, n2u, hupd, hs1e, _⟩ | ⟨hvdf, _, _⟩
      · subst hveq
        rw [hs1stke] at hupd
        rw [← hs1e] at hupd
        rcases hcolsD with hc | hc
        · subst hc
          exact stuk_idem_P1_opening cfg s row s1 s2 b2 n2 n2u hstukT hupd hst1 h2
        · subst hc
          exact stuk_idem_P1_closing cfg s row s1 s2 b2 n2 n2u hstukT hupd hst1 h2
      · rw [hvd1] at hvdf
        cases hvdf
    · rcases hrest with ⟨hvdt, _, _, _, _, _⟩ | ⟨_, hs1e, _⟩
      · rw [hvdf] at hvdt
        cases hvdt
      · exact stuk_idem_P2 cfg s row col value s1 s2 b2 n2 hcol hcolsD hstukT hvne2 hcoreF
          (hs1e.trans hs1stke) hst1 h2
    · rcases hrest with ⟨_, s2u, n2u, hupd, hs1e, _⟩ | ⟨hvdf, _, _⟩
      · rw [hs2veq] at hfindv hupdv hs1stke
        rw [← hs1e] at hupd
        rcases hcolsD with hc | hc
        · subst hc
          exact stuk_idem_P3_opening cfg s row value s1 s2 s3v s1stk drowv n3v n2u b2 n2
            hstukT hvne3 hcoret3 hfindv hupdv hs1stke hupd hst1 h2
        · subst hc
          exact stuk_idem_P3_closing cfg s row value s1 s2 s3v s1stk drowv n3v n2u b2 n2
            hstukT hvne3 hcoret3 hfindv hupdv hs1stke hupd hst1 h2
      · rw [hvd3] at hvdf
        cases hvdf
  · have hny2 : mapLookup s1.colors (row, col) ≠ some Color.YELLOW := by
      rw [hs1e]
      exact dateDataCheckDossier_not_yellow cfg _ value row col hcolsD
    have hs1d : s1.data = (writeCell s row col value).data := by
      rw [hs1e]
      exact dateDataCheckDossier_data ..
    have hwd : (writeCell s1 row col value).data = (writeCell s row col value).data :=
      (writeCell_data_id s1 row col value hst1 hcol).trans hs1d
    have htypN2 : ¬ ((writeCell s1 row col value).row row).typ = "stuk" := by
      rw [row_eq_of_data_eq hwd row]
      exact htypN
    rcases setData_cases cfg s1 row col value s2 b2 n2 h2 with
      ⟨hy2, _, _, _⟩ | ⟨_, _, hbr2⟩
    · exact absurd hy2 hny2
    rcases hbr2 with ⟨hc3, _, _⟩ | ⟨_, hstukT2, _, _, _, _, _⟩ | ⟨_, _, hs2e, _⟩ |
      ⟨_, hg2, hg3, _, _⟩
    · rcases hcolsD with h | h <;> (rw [h] at hc3; exact absurd hc3 (by decide))
    · exact absurd hstukT2 htypN2
    · have hm := runMatch_comp (writeCell_match s s1 row col value row col value)
        (dateDataCheckDossier_match cfg value row col hwd).2
      intro k
      rw [hs1e, hs2e]
      exact runMatch_idem hm (fun k2 => by rw [hs1e]; exact annotEqAt_refl _ k2) k
    · rcases hcolsD with h | h
      · exact absurd h hg2
      · exact absurd h hg3
  · have hny2 : mapLookup s1.colors (row, col) ≠ some Color.YELLOW := by
      rw [hs1e]
      exact hny1
    rcases setData_cases cfg s1 row col value s2 b2 n2 h2 with
      ⟨hy2, _, _, _⟩ | ⟨_, _, hbr2⟩
    · exact absurd hy2 hny2
    rcases hbr2 with ⟨hc3, _, _⟩ | ⟨hcd, _, _, _, _, _, _⟩ | ⟨hcd, _, _, _⟩ |
      ⟨_, _, _, hs2e, _⟩
    · exact absurd hc3 hn1
    · rcases hcd with h | h
      · exact absurd h hn2
      · exact absurd h hn3
    · rcases hcd with h | h
      · exact absurd h hn2
      · exact absurd h hn3
    · intro k
      rw [hs2e]
      exact ⟨rfl, rfl⟩

/-- Witness for C3: the fixture stuk-opening edit is accepted twice and the
second run leaves the annotation of the dossier opening cell unchanged. -/
theorem C3_witness :
    1 < stateFixC1.data.length ∧ (openingCol : Nat) < 6 ∧
    (mapLookup (c3out2.1).colors (0, openingCol) =
        mapLookup (c3out1.1).colors (0, openingCol) ∧
      mapLookup (c3out2.1).tooltips (0, openingCol) =
        mapLookup (c3out1.1).tooltips (0, openingCol)) :=
  ⟨by decide, by decide,
    C3_set_cell_idempotent cfgFix stateFixC1 1 openingCol "2020-06-01" c3out1.1 c3out2.1
      c3out1.2.1 c3out2.2.1 c3out1.2.2 c3out2.2.2 (by decide) (by decide) (by rfl) (by rfl)
      (0, openingCol)⟩

end SIPV
